import Mathlib

/-!
# xrdesktop: interaction state machine of the client orchestrator

A shallow embedding of `src/xrd-client.c`.

Conventions of the embedding:

* C `float` and `double` values are exact rationals; rounding, infinities and
  NaN are outside the model.
* Objects reached through pointers (`XrdWindow *`, `XrdController *`) carry an
  identity; a nullable pointer is an `Option` of that identity.
* The `GHashTable` of controllers is an association list searched by handle.
* Callbacks take the client state and the event and return the new client
  state; `g_free` and printing are not modelled.
-/

namespace Xrdesktop

/-! ## Data model -/

/-- Identity of an `XrdWindow` object. -/
abbrev WindowId := Nat

/-- The `guint64` handle of a controller. -/
abbrev ControllerHandle := Nat

/-- Value of `WINDOW_MIN_DIST`, `.05f`. -/
def WINDOW_MIN_DIST : ℚ := 5 / 100

/-- Value of `WINDOW_MAX_DIST`, `15.f`. -/
def WINDOW_MAX_DIST : ℚ := 15

/-- A `graphene_point_t`. -/
structure graphene_point_t where
  x : ℚ
  y : ℚ
  deriving DecidableEq, Repr

/-- A `graphene_point3d_t`. -/
structure graphene_point3d_t where
  x : ℚ
  y : ℚ
  z : ℚ
  deriving DecidableEq, Repr

/-- A `graphene_vec3_t`. -/
structure graphene_vec3_t where
  x : ℚ
  y : ℚ
  z : ℚ
  deriving DecidableEq, Repr

/-- A `graphene_quaternion_t`. -/
structure graphene_quaternion_t where
  x : ℚ
  y : ℚ
  z : ℚ
  w : ℚ
  deriving DecidableEq, Repr

/-- A `graphene_matrix_t`: four rows of four values. -/
abbrev graphene_matrix_t := Matrix (Fin 4) (Fin 4) ℚ

/-- Result of `graphene_quaternion_init_identity`. -/
def graphene_quaternion_init_identity : graphene_quaternion_t :=
  { x := 0, y := 0, z := 0, w := 1 }

/-- Result of `graphene_matrix_init_identity`. -/
def graphene_matrix_init_identity : graphene_matrix_t := 1

/-- The per-grab lock of the push-pull-scale action. -/
inductive PushPullScaleLock where
  | LOCKED_NONE
  | LOCKED_SCALE
  | LOCKED_PUSHPULL
  deriving DecidableEq, Repr

open PushPullScaleLock

/-- Modelled from the spec: the `HoverState` struct is declared in
`xrd-controller.h`, which is not among the sources; its fields are the ones
the spec's data model lists. -/
structure HoverState where
  window : Option WindowId
  pose : graphene_matrix_t
  point : graphene_point3d_t
  distance : ℚ

/-- Modelled from the spec: the `GrabState` struct is declared in
`xrd-controller.h`, which is not among the sources; its fields are the ones
the spec's data model lists and `xrd-client.c` uses. -/
structure GrabState where
  window : Option WindowId
  offset : graphene_matrix_t
  window_rotation : graphene_quaternion_t
  window_transformed_rotation_neg : graphene_quaternion_t
  push_pull_scale_lock : PushPullScaleLock

/-- Modelled from the spec: the pointer ray of a controller, of which the
client reads and writes the length (`xrd-pointer.c` is not among the
sources). -/
structure XrdPointer where
  length : ℚ
  default_length : ℚ

/-- Modelled from the spec: the pointer tip of a controller, with its
transform and active flag (`xrd-pointer-tip.c` is not among the sources). -/
structure XrdPointerTip where
  transformation : graphene_matrix_t
  active : Bool

/-- Modelled from the spec: a controller, with its handle, hover state, grab
state, pointer ray and pointer tip (`xrd-controller.c` is not among the
sources). -/
structure XrdController where
  controller_handle : ControllerHandle
  hover_state : HoverState
  grab_state : GrabState
  pointer_ray : XrdPointer
  pointer_tip : XrdPointerTip

/-- Modelled from the spec: `xrd_pointer_set_length` stores the length of the
pointer ray. -/
def xrd_pointer_set_length (p : XrdPointer) (length : ℚ) : XrdPointer :=
  { p with length := length }

/-- Modelled from the spec: `xrd_pointer_get_default_length`. -/
def xrd_pointer_get_default_length (p : XrdPointer) : ℚ :=
  p.default_length

/-- Modelled from the spec: `xrd_pointer_reset_length` puts the pointer ray
back to its default length. -/
def xrd_pointer_reset_length (p : XrdPointer) : XrdPointer :=
  xrd_pointer_set_length p (xrd_pointer_get_default_length p)

/-- Modelled from the spec: `xrd_pointer_tip_set_active`. -/
def xrd_pointer_tip_set_active (t : XrdPointerTip) (active : Bool) : XrdPointerTip :=
  { t with active := active }

/-- Modelled from the spec: `xrd_controller_reset_hover_state` clears the
window reference of the hover state (the other fields are left as they
are). -/
def xrd_controller_reset_hover_state (c : XrdController) : XrdController :=
  { c with hover_state := { c.hover_state with window := none } }

/-- Modelled from the spec: `xrd_controller_reset_grab_state` clears the
grab state: "window reference, rotation state reset to identity". -/
def xrd_controller_reset_grab_state (c : XrdController) : XrdController :=
  { c with grab_state :=
      { c.grab_state with
        window := none
        window_rotation := graphene_quaternion_init_identity
        window_transformed_rotation_neg := graphene_quaternion_init_identity } }

/-- Modelled from the spec: the management flags the window manager assigns
to a window (`XrdWindowFlags` is declared in `xrd-window-manager.h`, which is
not among the sources); a set of flags is one boolean per flag. -/
structure XrdWindowFlags where
  hoverable : Bool
  draggable : Bool
  managed : Bool
  destroy_with_parent : Bool
  manager_button : Bool
  deriving DecidableEq, Repr

/-- Signal handlers the client has connected to a window. -/
inductive WindowCallbacks where
  | unconnected
  | window_callbacks
  | button_callbacks
  deriving DecidableEq, Repr

/-- Modelled from the spec: a window, with the attributes of the spec's data
model (`xrd-window.c` and the two backends' windows are not among the
sources). `flags` are the management flags the window manager assigned when
the window was added, `callbacks` the handlers connected to its signals. -/
structure XrdWindow where
  id : WindowId
  native : Nat
  title : String
  scale : ℚ
  initial_width_meters : ℚ
  initial_height_meters : ℚ
  current_width_meters : ℚ
  current_height_meters : ℚ
  texture_width : Nat
  texture_height : Nat
  transform : graphene_matrix_t
  reset_transform : Option graphene_matrix_t
  pinned : Bool
  visible : Bool
  selected : Option Bool
  child_window : Option WindowId
  parent_window : Option WindowId
  child_offset_center : graphene_point_t
  flags : XrdWindowFlags
  callbacks : WindowCallbacks

/-- Modelled from the spec: the window manager owns the window list, ordered
by insertion, and the list of its buttons (`xrd-window-manager.c` is not among
the sources). -/
structure XrdWindowManager where
  windows : List XrdWindow
  buttons : List XrdWindow
  pinned_only : Bool

/-- Modelled from the spec: the input synthesizer, with the controller it
maps onto the desktop pointer and its press and scroll accumulation
(`xrd-input-synth.c` is not among the sources). -/
structure XrdInputSynth where
  synthing_controller : ControllerHandle
  button_press_state : Nat
  scroll_accumulator : graphene_vec3_t

/-- Modelled from the spec: the desktop cursor, of which the client switches
the visibility (`xrd-desktop-cursor.c` is not among the sources). -/
structure XrdDesktopCursor where
  visible : Bool

/-- The two kinds of client: `XRD_IS_OVERLAY_CLIENT`, `XRD_IS_SCENE_CLIENT`. -/
inductive ClientMode where
  | overlay
  | scene
  deriving DecidableEq, Repr

/-- A call the client makes to carry out a gesture, recorded in the order of
the calls (most recent first). -/
inductive GestureCall where
  | scale (controller_handle : ControllerHandle) (factor : ℚ)
  | push_pull (controller_handle : ControllerHandle) (strength : ℚ)
  deriving DecidableEq, Repr

/-- The private data of an `XrdClient` (`XrdClientPrivate`), with the kind of
the client.  Two fields are ghost state, absent from the C struct:
`gesture_calls` records the gesture calls made so far, and `next_window` is
the identity the next created window object gets. -/
structure XrdClient where
  mode : ClientMode
  manager : XrdWindowManager
  input_synth : XrdInputSynth
  pinned_only : Bool
  selection_mode : Bool
  poll_input_rate_ms : Nat
  analog_threshold : ℚ
  scroll_to_push_ratio : ℚ
  scroll_to_scale_ratio : ℚ
  cursor : XrdDesktopCursor
  controllers : List XrdController
  gesture_calls : List GestureCall
  next_window : WindowId

/-- An `OpenVRAnalogEvent`. -/
structure OpenVRAnalogEvent where
  controller_handle : ControllerHandle
  state : graphene_vec3_t
  deriving DecidableEq, Repr

/-! ## Controller registry -/

/-- Source function `_lookup_controller`: `g_hash_table_lookup` by handle. -/
def _lookup_controller (self : XrdClient) (controller_handle : ControllerHandle) :
    Option XrdController :=
  self.controllers.find? (fun c => c.controller_handle == controller_handle)

/-- Write through an `XrdController *`: the registry entry with the
controller's handle now holds `controller`. -/
def store_controller (self : XrdClient) (controller : XrdController) : XrdClient :=
  { self with
    controllers := self.controllers.map (fun c =>
      if c.controller_handle = controller.controller_handle then controller else c) }

/-! ## Window manager operations used by the gestures -/

/-- Write through an `XrdWindow *`: every window of the list with identity
`w` is replaced by `f` of it. -/
def update_window (ws : List XrdWindow) (w : WindowId) (f : XrdWindow → XrdWindow) :
    List XrdWindow :=
  ws.map (fun win => if win.id = w then f win else win)

/-- Modelled from the spec: `xrd_window_manager_scale` (not among the
sources). "New scale = current scale × (1 + axis value × scale-ratio)", the
product of axis value and ratio being the `factor` the client passes; "scale
factor must stay positive", and a grab state without a window is a no-op. -/
def xrd_window_manager_scale (manager : XrdWindowManager) (grab_state : GrabState)
    (factor : ℚ) (_update_rate_ms : Nat) : XrdWindowManager :=
  match grab_state.window with
  | none => manager
  | some w =>
    { manager with
      windows := update_window manager.windows w (fun win =>
        if 0 < win.scale * (1 + factor) then
          { win with scale := win.scale * (1 + factor) }
        else win) }

/-! ## Push-pull and scale gestures -/

/-- Source function `_perform_push_pull`. -/
def _perform_push_pull (self : XrdClient) (controller : XrdController)
    (push_pull_strength : ℚ) : XrdController :=
  let hover_state := controller.hover_state
  let new_dist : ℚ :=
    hover_state.distance +
    self.scroll_to_push_ratio *
    hover_state.distance *
    push_pull_strength *
    ((self.poll_input_rate_ms : ℚ) / 1000)
  if new_dist < WINDOW_MIN_DIST ∨ new_dist > WINDOW_MAX_DIST then
    controller
  else
    { controller with
      hover_state := { hover_state with distance := new_dist }
      pointer_ray := xrd_pointer_set_length controller.pointer_ray new_dist }

/-- Source function `_action_push_pull_scale_cb`. -/
def _action_push_pull_scale_cb (self : XrdClient) (event : OpenVRAnalogEvent) : XrdClient :=
  match _lookup_controller self event.controller_handle with
  | none => self
  | some controller =>
    let grab_state := controller.grab_state
    let x_state : ℚ := event.state.x
    let y_state : ℚ := event.state.y
    if |x_state| < self.analog_threshold ∧ |y_state| < self.analog_threshold then
      store_controller self
        { controller with
          grab_state := { grab_state with push_pull_scale_lock := LOCKED_NONE } }
    else
      let lock : PushPullScaleLock :=
        if grab_state.push_pull_scale_lock = LOCKED_NONE then
          if |x_state| > |y_state| ∧ |x_state| > self.analog_threshold then
            LOCKED_SCALE
          else if |y_state| > |x_state| ∧ |y_state| > self.analog_threshold then
            LOCKED_PUSHPULL
          else grab_state.push_pull_scale_lock
        else grab_state.push_pull_scale_lock
      let grab_state := { grab_state with push_pull_scale_lock := lock }
      let controller := { controller with grab_state := grab_state }
      if lock = LOCKED_SCALE then
        let factor : ℚ := x_state * self.scroll_to_scale_ratio
        { store_controller self controller with
          manager := xrd_window_manager_scale self.manager grab_state factor
            self.poll_input_rate_ms
          gesture_calls :=
            GestureCall.scale event.controller_handle factor :: self.gesture_calls }
      else if lock = LOCKED_PUSHPULL then
        { store_controller self (_perform_push_pull self controller event.state.y) with
          gesture_calls :=
            GestureCall.push_pull event.controller_handle event.state.y ::
              self.gesture_calls }
      else
        store_controller self controller

/-- Source function `_action_push_pull_cb`. -/
def _action_push_pull_cb (self : XrdClient) (event : OpenVRAnalogEvent) : XrdClient :=
  match _lookup_controller self event.controller_handle with
  | none => self
  | some controller =>
    let grab_state := controller.grab_state
    let y_state : ℚ := event.state.y
    if grab_state.window.isSome ∧ |y_state| > self.analog_threshold then
      { store_controller self (_perform_push_pull self controller event.state.y) with
        gesture_calls :=
          GestureCall.push_pull event.controller_handle event.state.y ::
            self.gesture_calls }
    else self

/-- The two analog actions of the window-manager action set that drive
push-pull. -/
inductive AnalogAction where
  | push_pull_scale
  | push_pull
  deriving DecidableEq, Repr

/-- Dispatch of one analog event to the callback connected to its action. -/
def dispatch_analog (self : XrdClient) (a : AnalogAction × OpenVRAnalogEvent) : XrdClient :=
  match a.1 with
  | AnalogAction.push_pull_scale => _action_push_pull_scale_cb self a.2
  | AnalogAction.push_pull => _action_push_pull_cb self a.2

/-- A sequence of analog events handled in order. -/
def run_analog (self : XrdClient) (events : List (AnalogAction × OpenVRAnalogEvent)) :
    XrdClient :=
  events.foldl dispatch_analog self

/-! ## Hover end and window removal -/

/-- An `XrdControllerIndexEvent`. -/
structure XrdControllerIndexEvent where
  controller_handle : ControllerHandle
  deriving DecidableEq, Repr

/-- Modelled from the spec: `xrd_input_synth_synthing_controller`, the
controller whose activity is mapped onto the desktop pointer. -/
def xrd_input_synth_synthing_controller (synth : XrdInputSynth) : ControllerHandle :=
  synth.synthing_controller

/-- Modelled from the spec: `xrd_input_synth_reset_press_state` clears the
press accumulation of the input synthesizer. -/
def xrd_input_synth_reset_press_state (synth : XrdInputSynth) : XrdInputSynth :=
  { synth with button_press_state := 0 }

/-- Modelled from the spec: `xrd_input_synth_reset_scroll` clears the scroll
accumulation of the input synthesizer. -/
def xrd_input_synth_reset_scroll (synth : XrdInputSynth) : XrdInputSynth :=
  { synth with scroll_accumulator := ⟨0, 0, 0⟩ }

/-- Modelled from the spec: `xrd_desktop_cursor_hide`. -/
def xrd_desktop_cursor_hide (_cursor : XrdDesktopCursor) : XrdDesktopCursor :=
  { visible := false }

/-- Modelled from the spec: `xrd_desktop_cursor_show`. -/
def xrd_desktop_cursor_show (_cursor : XrdDesktopCursor) : XrdDesktopCursor :=
  { visible := true }

/-- Modelled from the spec: `xrd_window_end_selection` takes the selection
mark off a window. -/
def xrd_window_end_selection (win : XrdWindow) : XrdWindow :=
  { win with selected := none }

/-- Write through an `XrdWindow *` held by the window manager, be the window
in the window list or among the buttons. -/
def manager_update_window (manager : XrdWindowManager) (w : WindowId)
    (f : XrdWindow → XrdWindow) : XrdWindowManager :=
  { manager with
    windows := update_window manager.windows w f
    buttons := update_window manager.buttons w f }

/-- Read through an `XrdWindow *` held by the window manager. -/
def manager_find_window (manager : XrdWindowManager) (w : WindowId) : Option XrdWindow :=
  (manager.windows ++ manager.buttons).find? (fun win => win.id == w)

/-- Modelled from the spec: `xrd_window_manager_remove_window` takes the
window out of the lists of the window manager. -/
def xrd_window_manager_remove_window (manager : XrdWindowManager) (w : WindowId) :
    XrdWindowManager :=
  { manager with
    windows := manager.windows.filter (fun win => win.id != w)
    buttons := manager.buttons.filter (fun win => win.id != w) }

/-- Source function `xrd_client_is_hovered`. -/
def xrd_client_is_hovered (self : XrdClient) (window : WindowId) : Bool :=
  self.controllers.any (fun controller => controller.hover_state.window == some window)

/-- Source function `xrd_client_is_grabbed`. -/
def xrd_client_is_grabbed (self : XrdClient) (window : WindowId) : Bool :=
  self.controllers.any (fun controller => controller.grab_state.window == some window)

/-- Source function `_window_hover_end_cb`.  The callback is only reached
with the handle of a controller of the registry; for a handle that is not in
the registry the C code dereferences a null controller, and the model leaves
the client as it is. -/
def _window_hover_end_cb (self : XrdClient) (_window : WindowId)
    (event : XrdControllerIndexEvent) : XrdClient :=
  match _lookup_controller self event.controller_handle with
  | none => self
  | some controller =>
    let controller :=
      { controller with pointer_ray := xrd_pointer_reset_length controller.pointer_ray }
    let active : Bool := controller.hover_state.window != none
    let controller :=
      { controller with
        pointer_tip := xrd_pointer_tip_set_active controller.pointer_tip active }
    let self := store_controller self controller
    let self :=
      { self with input_synth := xrd_input_synth_reset_press_state self.input_synth }
    if event.controller_handle = xrd_input_synth_synthing_controller self.input_synth then
      { self with cursor := xrd_desktop_cursor_hide self.cursor }
    else self

/-- Source function `_button_hover_end_cb`. -/
def _button_hover_end_cb (self : XrdClient) (window : WindowId)
    (event : XrdControllerIndexEvent) : XrdClient :=
  let self :=
    if !xrd_client_is_hovered self window then
      { self with
        manager := manager_update_window self.manager window xrd_window_end_selection }
    else self
  _window_hover_end_cb self window event

/-- Emission of the hover-end signal of a window (`xrd_window_emit_hover_end`):
the handler the client connected to the window runs. -/
def xrd_window_emit_hover_end (self : XrdClient) (callbacks : WindowCallbacks)
    (window : WindowId) (event : XrdControllerIndexEvent) : XrdClient :=
  match callbacks with
  | WindowCallbacks.unconnected => self
  | WindowCallbacks.window_callbacks => _window_hover_end_cb self window event
  | WindowCallbacks.button_callbacks => _button_hover_end_cb self window event

/-- First statement of the loop body of `xrd_client_remove_window`, for the
controller with handle `h`: a controller hovering the window gets the
hover-end of the window and its hover state is reset. `callbacks` are the
handlers connected to the removed window. -/
def remove_window_hover (callbacks : WindowCallbacks) (window : WindowId)
    (self : XrdClient) (h : ControllerHandle) : XrdClient :=
  match _lookup_controller self h with
  | none => self
  | some controller =>
    if controller.hover_state.window = some window then
      let self := xrd_window_emit_hover_end self callbacks window ⟨h⟩
      match _lookup_controller self h with
      | none => self
      | some controller =>
        store_controller self (xrd_controller_reset_hover_state controller)
    else self

/-- Second statement of the loop body of `xrd_client_remove_window`, for the
controller with handle `h`: the grab state of a controller grabbing the
window is reset. -/
def remove_window_grab (window : WindowId) (self : XrdClient) (h : ControllerHandle) :
    XrdClient :=
  match _lookup_controller self h with
  | none => self
  | some controller =>
    if controller.grab_state.window = some window then
      store_controller self (xrd_controller_reset_grab_state controller)
    else self

/-- Body of the loop of `xrd_client_remove_window` for the controller with
handle `h`. -/
def remove_window_controller (callbacks : WindowCallbacks) (window : WindowId)
    (self : XrdClient) (h : ControllerHandle) : XrdClient :=
  remove_window_grab window (remove_window_hover callbacks window self h) h

/-- Source function `xrd_client_remove_window`. -/
def xrd_client_remove_window (self : XrdClient) (window : WindowId) : XrdClient :=
  let callbacks : WindowCallbacks :=
    match manager_find_window self.manager window with
    | none => WindowCallbacks.unconnected
    | some win => win.callbacks
  let self :=
    { self with manager := xrd_window_manager_remove_window self.manager window }
  let controllers := self.controllers.map (fun controller => controller.controller_handle)
  controllers.foldl (remove_window_controller callbacks window) self

/-! ## Mode switch -/

/-- Result of `graphene_matrix_init_translate`: the translation by `p`, in
graphene's row-vector convention. -/
def graphene_matrix_init_translate (p : graphene_point3d_t) : graphene_matrix_t :=
  !![1, 0, 0, 0; 0, 1, 0, 0; 0, 0, 1, 0; p.x, p.y, p.z, 1]

/-- Modelled from the spec: the value snapshot of a window taken for the mode
switch (`XrdWindowState` is declared in `xrd-window-manager.h`, which is not
among the sources); the fields are the ones `xrd_client_switch_mode` reads. -/
structure XrdWindowState where
  native : Nat
  title : String
  scale : ℚ
  initial_width : ℚ
  initial_height : ℚ
  texture_width : Nat
  texture_height : Nat
  reset_transform : graphene_matrix_t
  pinned : Bool
  current_width : ℚ
  current_height : ℚ
  transform : graphene_matrix_t
  is_draggable : Bool
  child_index : Int
  child_offset_center : graphene_point_t

/-- Source function `xrd_client_get_manager`. -/
def xrd_client_get_manager (self : XrdClient) : XrdWindowManager :=
  self.manager

/-- Modelled from the spec: `xrd_window_manager_get_windows`, the window list
in insertion order. -/
def xrd_window_manager_get_windows (manager : XrdWindowManager) : List XrdWindow :=
  manager.windows

/-- Modelled from the spec: the snapshot `xrd_window_manager_save_state`
takes of one window of the window list `windows`; the child is recorded by
its index in the list, -1 standing for no child (`g_slist_index`). -/
def window_state (windows : List XrdWindow) (win : XrdWindow) : XrdWindowState :=
  { native := win.native
    title := win.title
    scale := win.scale
    initial_width := win.initial_width_meters
    initial_height := win.initial_height_meters
    texture_width := win.texture_width
    texture_height := win.texture_height
    reset_transform := win.reset_transform.getD win.transform
    pinned := win.pinned
    current_width := win.current_width_meters
    current_height := win.current_height_meters
    transform := win.transform
    is_draggable := win.flags.draggable
    child_index :=
      match win.child_window with
      | none => -1
      | some child =>
        match windows.findIdx? (fun x => x.id == child) with
        | none => -1
        | some k => (k : Int)
    child_offset_center := win.child_offset_center }

/-- Modelled from the spec: `xrd_window_manager_save_state` "captures, for
every managed window in insertion order, a value snapshot (...) into an array
sized to the current window count". -/
def xrd_window_manager_save_state (manager : XrdWindowManager) (window_count : Nat) :
    List XrdWindowState :=
  ((xrd_window_manager_get_windows manager).take window_count).map
    (window_state (xrd_window_manager_get_windows manager))

/-- Modelled from the spec: the window a backend constructor
(`xrd_overlay_window_new_from_meters`, `xrd_scene_window_new_from_meters`)
returns: of the given title and size, unscaled, at the identity transform,
not pinned, visible, without child or parent, and not yet known to a window
manager. -/
def window_new_from_meters (id : WindowId) (title : String) (w h : ℚ) : XrdWindow :=
  { id := id
    native := 0
    title := title
    scale := 1
    initial_width_meters := w
    initial_height_meters := h
    current_width_meters := w
    current_height_meters := h
    texture_width := 0
    texture_height := 0
    transform := graphene_matrix_init_identity
    reset_transform := none
    pinned := false
    visible := true
    selected := none
    child_window := none
    parent_window := none
    child_offset_center := ⟨0, 0⟩
    flags :=
      { hoverable := false, draggable := false, managed := false
        destroy_with_parent := false, manager_button := false }
    callbacks := WindowCallbacks.unconnected }

/-- Source function `xrd_client_window_new_from_meters`: a window of the
backend of the client is created.  The new object gets the identity
`next_window` of the client, which is advanced. -/
def xrd_client_window_new_from_meters (client : XrdClient) (title : String) (w h : ℚ) :
    XrdWindow × XrdClient :=
  (window_new_from_meters client.next_window title w h,
   { client with next_window := client.next_window + 1 })

/-- Modelled from the spec: `xrd_window_set_transformation` stores the
transform of a window. -/
def xrd_window_set_transformation (win : XrdWindow) (mat : graphene_matrix_t) : XrdWindow :=
  { win with transform := mat }

/-- Modelled from the spec: `xrd_window_hide`. -/
def xrd_window_hide (win : XrdWindow) : XrdWindow :=
  { win with visible := false }

/-- Modelled from the spec: `xrd_window_show`. -/
def xrd_window_show (win : XrdWindow) : XrdWindow :=
  { win with visible := true }

/-- Modelled from the spec: `xrd_window_manager_add_window` registers a
window with the window manager, "which assigns management flags"; a button
goes to the buttons, any other window to the end of the window list; the
reset transform is "saved on first add". -/
def xrd_window_manager_add_window (manager : XrdWindowManager) (window : XrdWindow)
    (flags : XrdWindowFlags) : XrdWindowManager :=
  let window : XrdWindow :=
    { window with
      flags := flags
      reset_transform :=
        match window.reset_transform with
        | none => some window.transform
        | some r => some r }
  if flags.manager_button then
    { manager with buttons := manager.buttons ++ [window] }
  else
    { manager with windows := manager.windows ++ [window] }

/-- Modelled from the spec: `xrd_window_manager_is_pinned` reads the pinned
flag of a window. -/
def xrd_window_manager_is_pinned (manager : XrdWindowManager) (window : WindowId) : Bool :=
  match manager_find_window manager window with
  | none => false
  | some win => win.pinned

/-- Modelled from the spec: `xrd_window_manager_set_pin` stores the pinned
flag of a window. -/
def xrd_window_manager_set_pin (manager : XrdWindowManager) (window : WindowId)
    (pin : Bool) : XrdWindowManager :=
  manager_update_window manager window (fun win => { win with pinned := pin })

/-- Modelled from the spec: `xrd_window_manager_show_pinned_only`:
"pinned-only view mode hides all non-pinned, non-management windows"; leaving
the mode shows the windows again. -/
def xrd_window_manager_show_pinned_only (manager : XrdWindowManager) (pinned_only : Bool) :
    XrdWindowManager :=
  { manager with
    pinned_only := pinned_only
    windows := manager.windows.map (fun win =>
      if pinned_only && !win.pinned then xrd_window_hide win else xrd_window_show win) }

/-- Modelled from the spec: `xrd_window_add_child` links `child` to `parent`
at the offset from the center; "linking may reset" the transform of the
child, which is placed at the offset from the parent. -/
def xrd_window_add_child (manager : XrdWindowManager) (parent child : WindowId)
    (offset_center : graphene_point_t) : XrdWindowManager :=
  let manager := manager_update_window manager parent (fun win =>
    { win with child_window := some child, child_offset_center := offset_center })
  let parent_transform : graphene_matrix_t :=
    match manager_find_window manager parent with
    | none => graphene_matrix_init_identity
    | some win => win.transform
  manager_update_window manager child (fun win =>
    { win with
      parent_window := some parent
      transform :=
        graphene_matrix_init_translate ⟨offset_center.x, offset_center.y, 0⟩ *
          parent_transform })

/-- Source function `xrd_client_add_window_callbacks`. -/
def xrd_client_add_window_callbacks (self : XrdClient) (window : WindowId) : XrdClient :=
  { self with
    manager := manager_update_window self.manager window (fun win =>
      { win with callbacks := WindowCallbacks.window_callbacks }) }

/-- Source function `xrd_client_add_window`. -/
def xrd_client_add_window (self : XrdClient) (window : XrdWindow) (draggable : Bool) :
    XrdClient :=
  let flags : XrdWindowFlags :=
    { hoverable := true, destroy_with_parent := true
      draggable := draggable, managed := draggable, manager_button := false }
  let manager := xrd_client_get_manager self
  let self := { self with manager := xrd_window_manager_add_window manager window flags }
  let self :=
    if self.pinned_only && !flags.manager_button &&
        !xrd_window_manager_is_pinned self.manager window.id then
      { self with manager := manager_update_window self.manager window.id xrd_window_hide }
    else self
  xrd_client_add_window_callbacks self window.id

/-- Source function `xrd_client_show_pinned_only` (the icon of the button is
not modelled). -/
def xrd_client_show_pinned_only (self : XrdClient) (pinned_only : Bool) : XrdClient :=
  { self with
    pinned_only := pinned_only
    manager := xrd_window_manager_show_pinned_only self.manager pinned_only }

/-- Source function `_replace_client`: the client is destroyed and a client
of the other kind is created, with an empty window manager and an empty
controller registry; the values read from the settings are the same. -/
def _replace_client (self : XrdClient) : XrdClient :=
  let to_scene : Bool := self.mode == ClientMode.overlay
  { mode := if to_scene then ClientMode.scene else ClientMode.overlay
    manager := { windows := [], buttons := [], pinned_only := false }
    input_synth :=
      { synthing_controller := 0, button_press_state := 0, scroll_accumulator := ⟨0, 0, 0⟩ }
    pinned_only := false
    selection_mode := false
    poll_input_rate_ms := self.poll_input_rate_ms
    analog_threshold := self.analog_threshold
    scroll_to_push_ratio := self.scroll_to_push_ratio
    scroll_to_scale_ratio := self.scroll_to_scale_ratio
    cursor := { visible := false }
    controllers := []
    gesture_calls := []
    next_window := self.next_window }

/-- Body of the first loop of `xrd_client_switch_mode`: window `i` is created
in the new client `ret` from entry `i` of the snapshot. -/
def switch_mode_create (state : List XrdWindowState) (ret : XrdClient) (i : Nat) :
    XrdClient :=
  match state[i]? with
  | none => ret
  | some st =>
    let (window, ret) :=
      xrd_client_window_new_from_meters ret st.title st.current_width st.current_height
    let window : XrdWindow :=
      { window with
        native := st.native
        scale := st.scale
        initial_width_meters := st.initial_width
        initial_height_meters := st.initial_height
        texture_width := st.texture_width
        texture_height := st.texture_height }
    let window := xrd_window_set_transformation window st.reset_transform
    let ret := xrd_client_add_window ret window st.is_draggable
    let ret :=
      { ret with
        manager := manager_update_window ret.manager window.id (fun win =>
          xrd_window_set_transformation win st.transform) }
    { ret with manager := xrd_window_manager_set_pin ret.manager window.id st.pinned }

/-- Body of the second loop of `xrd_client_switch_mode`: window `i` of the
list `windows` gets its child.  An index outside the list and the snapshot,
which the C code would read out of bounds, leaves the client as it is. -/
def switch_mode_link (state : List XrdWindowState) (windows : List WindowId)
    (ret : XrdClient) (i : Nat) : XrdClient :=
  match windows[i]?, state[i]? with
  | some window, some st =>
    if st.child_index ≥ 0 then
      let child_index : Nat := st.child_index.toNat
      match windows[child_index]?, state[child_index]? with
      | some child_window, some child_state =>
        let ret :=
          { ret with
            manager :=
              xrd_window_add_child ret.manager window child_window st.child_offset_center }
        { ret with
          manager := manager_update_window ret.manager child_window (fun win =>
            xrd_window_set_transformation win child_state.transform) }
      | _, _ => ret
    else ret
  | _, _ => ret

/-- Source function `xrd_client_switch_mode`. -/
def xrd_client_switch_mode (self : XrdClient) : XrdClient :=
  let show_only_pinned := self.pinned_only
  let manager := xrd_client_get_manager self
  let window_count := (xrd_window_manager_get_windows manager).length
  let state := xrd_window_manager_save_state manager window_count
  let ret := _replace_client self
  let ret := (List.range window_count).foldl (switch_mode_create state) ret
  let windows :=
    (xrd_window_manager_get_windows (xrd_client_get_manager ret)).map (fun win => win.id)
  let ret := (List.range window_count).foldl (switch_mode_link state windows) ret
  xrd_client_show_pinned_only ret show_only_pinned

/-- The parent-child relationship of the window list of a window manager, by
index: for each window, the index in the list of its child window together
with the offset of the child, when the window has a child in the list. -/
def child_links (manager : XrdWindowManager) : List (Option (Nat × graphene_point_t)) :=
  manager.windows.map (fun win =>
    match win.child_window with
    | none => none
    | some child =>
      (manager.windows.findIdx? (fun x => x.id == child)).map
        (fun k => (k, win.child_offset_center)))

/-! ## Descriptions used in the proofs about the mode switch -/

/-- The window which one pass of the first loop of `xrd_client_switch_mode`
leaves at the end of the window list, for the snapshot entry `st` and the
identity `id` of the created window (proved in
`switch_mode_create_windows`). -/
def window_after_create (id : WindowId) (st : XrdWindowState) : XrdWindow :=
  { id := id
    native := st.native
    title := st.title
    scale := st.scale
    initial_width_meters := st.initial_width
    initial_height_meters := st.initial_height
    current_width_meters := st.current_width
    current_height_meters := st.current_height
    texture_width := st.texture_width
    texture_height := st.texture_height
    transform := st.transform
    reset_transform := some st.reset_transform
    pinned := st.pinned
    visible := true
    selected := none
    child_window := none
    parent_window := none
    child_offset_center := ⟨0, 0⟩
    flags :=
      { hoverable := true, draggable := st.is_draggable, managed := st.is_draggable
        destroy_with_parent := true, manager_button := false }
    callbacks := WindowCallbacks.window_callbacks }

/-- The new client of `xrd_client_switch_mode` after its two loops, at the
point where `xrd_client_show_pinned_only` is called (proved in
`switch_mode_eq_show_pinned_only`). -/
def switch_mode_after_loops (self : XrdClient) : XrdClient :=
  let manager := xrd_client_get_manager self
  let window_count := (xrd_window_manager_get_windows manager).length
  let state := xrd_window_manager_save_state manager window_count
  let ret := _replace_client self
  let ret := (List.range window_count).foldl (switch_mode_create state) ret
  let windows :=
    (xrd_window_manager_get_windows (xrd_client_get_manager ret)).map (fun win => win.id)
  (List.range window_count).foldl (switch_mode_link state windows) ret

/-- State of the window list `ws` of the new client while the second loop of
`xrd_client_switch_mode` runs, after the passes for the indices below `j`:
the window at index `p` is the window the first loop created from snapshot
entry `p`, but for its links; it has its child exactly when `p < j` and the
entry has a child index, the child being the window at that index; and its
parent, if any, is a window of the list (`b` is the identity of the first
created window). -/
def linked_below (state : List XrdWindowState) (b : WindowId) (j : Nat)
    (ws : List XrdWindow) : Prop :=
  ws.length = state.length ∧
  ∀ (p : Nat) (st : XrdWindowState), state[p]? = some st →
    ∃ cw pw off,
      ws[p]? = some
        { window_after_create (b + p) st with
          child_window := cw, parent_window := pw, child_offset_center := off } ∧
      (p < j → 0 ≤ st.child_index →
        cw = some (b + st.child_index.toNat) ∧ off = st.child_offset_center) ∧
      (¬ (p < j ∧ 0 ≤ st.child_index) → cw = none) ∧
      (∀ q, pw = some q → ∃ i : Nat, i < state.length ∧ q = b + i)

/-! ## Scene pointer: intersection with a scene window -/

/-- A `graphene_vec4_t`. -/
structure graphene_vec4_t where
  x : ℚ
  y : ℚ
  z : ℚ
  w : ℚ
  deriving DecidableEq, Repr

/-- A `graphene_ray_t`: origin and direction. -/
structure graphene_ray_t where
  origin : graphene_vec3_t
  direction : graphene_vec3_t
  deriving DecidableEq, Repr

/-- A `graphene_plane_t`: the points `p` with `normal · p + constant = 0`. -/
structure graphene_plane_t where
  normal : graphene_vec3_t
  constant : ℚ
  deriving DecidableEq, Repr

/-- Result of `graphene_vec3_dot`. -/
def graphene_vec3_dot (a b : graphene_vec3_t) : ℚ :=
  a.x * b.x + a.y * b.y + a.z * b.z

/-- Result of `graphene_vec3_scale`. -/
def graphene_vec3_scale (v : graphene_vec3_t) (factor : ℚ) : graphene_vec3_t :=
  ⟨v.x * factor, v.y * factor, v.z * factor⟩

/-- Result of `graphene_vec3_add`. -/
def graphene_vec3_add (a b : graphene_vec3_t) : graphene_vec3_t :=
  ⟨a.x + b.x, a.y + b.y, a.z + b.z⟩

/-- Result of `graphene_vec4_subtract`. -/
def graphene_vec4_subtract (a b : graphene_vec4_t) : graphene_vec4_t :=
  ⟨a.x - b.x, a.y - b.y, a.z - b.z, a.w - b.w⟩

/-- Result of `graphene_vec4_get_xyz`. -/
def graphene_vec4_get_xyz (v : graphene_vec4_t) : graphene_vec3_t :=
  ⟨v.x, v.y, v.z⟩

/-- Result of `graphene_vec4_init_from_vec3`. -/
def graphene_vec4_init_from_vec3 (v : graphene_vec3_t) (w : ℚ) : graphene_vec4_t :=
  ⟨v.x, v.y, v.z, w⟩

/-- Result of `graphene_matrix_transform_vec4`: the row vector `v` times the
matrix `m`. -/
def graphene_matrix_transform_vec4 (m : graphene_matrix_t) (v : graphene_vec4_t) :
    graphene_vec4_t :=
  ⟨v.x * m 0 0 + v.y * m 1 0 + v.z * m 2 0 + v.w * m 3 0,
   v.x * m 0 1 + v.y * m 1 1 + v.z * m 2 1 + v.w * m 3 1,
   v.x * m 0 2 + v.y * m 1 2 + v.z * m 2 2 + v.w * m 3 2,
   v.x * m 0 3 + v.y * m 1 3 + v.z * m 2 3 + v.w * m 3 3⟩

/-- Result of `graphene_matrix_inverse`: the inverse of an invertible matrix;
for a matrix that is not invertible the function returns false and writes
nothing, which is `none`. -/
def graphene_matrix_inverse (m : graphene_matrix_t) : Option graphene_matrix_t :=
  if m.det = 0 then none else some (m.det⁻¹ • m.adjugate)

/-- Result of `graphene_ray_init`.  The library stores the direction
normalized; a unit vector is not available over the rationals and the
direction is stored as given.  The distance along the ray is then counted in
lengths of the direction, and the point `origin + distance * direction` is the
same. -/
def graphene_ray_init (origin direction : graphene_vec3_t) : graphene_ray_t :=
  { origin := origin, direction := direction }

/-- Modelled from the spec: `graphene_ray_get_distance_to_plane`, "standard
ray/plane intersection; returns ∞ (sentinel "no intersection") when ray is
parallel or intersection is behind origin"; `none` is the sentinel
`INFINITY`. -/
def graphene_ray_get_distance_to_plane (r : graphene_ray_t) (p : graphene_plane_t) :
    Option ℚ :=
  let denom := graphene_vec3_dot p.normal r.direction
  if denom = 0 then none
  else
    let t := -(graphene_vec3_dot r.origin p.normal + p.constant) / denom
    if t ≥ 0 then some t else none

/-- An `XrdSceneObject`, of which the pointer and the window use the model
matrix. -/
structure XrdSceneObject where
  model_matrix : graphene_matrix_t

/-- Modelled from the spec: `xrd_scene_window_get_plane` (`xrd-scene-window.c`
is not among the sources), the plane of the window surface: the plane
`z = 0` of the local space of the window, in which the window is the unit
square, mapped to world space by the model matrix. -/
def xrd_scene_window_get_plane (window : XrdSceneObject) : graphene_plane_t :=
  let normal :=
    graphene_vec4_get_xyz (graphene_matrix_transform_vec4 window.model_matrix ⟨0, 0, 1, 0⟩)
  let point :=
    graphene_vec4_get_xyz (graphene_matrix_transform_vec4 window.model_matrix ⟨0, 0, 0, 1⟩)
  { normal := normal, constant := -(graphene_vec3_dot point normal) }

/-- Source function `xrd_scene_pointer_get_ray`. -/
def xrd_scene_pointer_get_ray (self : XrdSceneObject) : graphene_ray_t :=
  let mat := self.model_matrix
  let start := graphene_matrix_transform_vec4 mat ⟨0, 0, -(2 / 100), 1⟩
  let end_point := graphene_matrix_transform_vec4 mat ⟨0, 0, -40, 1⟩
  let direction_vec4 := graphene_vec4_subtract end_point start
  let origin := graphene_vec4_get_xyz start
  let direction := graphene_vec4_get_xyz direction_vec4
  graphene_ray_init origin direction

/-- What `xrd_scene_pointer_get_intersection` hands back: the returned
boolean, and the vector written to `res` when one is written. -/
structure IntersectionResult where
  hit : Bool
  res : Option graphene_vec3_t
  deriving DecidableEq, Repr

/-- Source function `xrd_scene_pointer_get_intersection`.  The result is
`none` when the C code reads the matrix `inverse` without
`graphene_matrix_inverse` having written it, which is undefined. -/
def xrd_scene_pointer_get_intersection (pointer window : XrdSceneObject) :
    Option IntersectionResult :=
  let ray := xrd_scene_pointer_get_ray pointer
  let plane := xrd_scene_window_get_plane window
  match graphene_ray_get_distance_to_plane ray plane with
  | none => some { hit := false, res := none }
  | some dist =>
    let res := graphene_vec3_scale ray.direction dist
    let origin := ray.origin
    let res := graphene_vec3_add origin res
    match graphene_matrix_inverse window.model_matrix with
    | none => none
    | some inverse =>
      let intersection_vec4 := graphene_vec4_init_from_vec3 res 1
      let intersection_origin := graphene_matrix_transform_vec4 inverse intersection_vec4
      let f := intersection_origin
      if f.x ≥ 0 ∧ f.x ≤ 1 ∧ f.y ≥ 0 ∧ f.y ≤ 1 then
        some { hit := true, res := some res }
      else
        some { hit := false, res := some res }

/-! ## Grab start, selection mode -/

/-- Modelled from the spec: `xrd_window_select` marks a window as selected. -/
def xrd_window_select (win : XrdWindow) : XrdWindow :=
  { win with selected := some true }

/-- Modelled from the spec: `xrd_window_deselect` marks a window as not
selected. -/
def xrd_window_deselect (win : XrdWindow) : XrdWindow :=
  { win with selected := some false }

/-- Source function `_mark_windows_for_selection_mode`.  In the loops the
pinned flag of `win` is read from the window itself, which is what
`xrd_window_manager_is_pinned (manager, win)` does for a window of the
list. -/
def _mark_windows_for_selection_mode (self : XrdClient) : XrdClient :=
  let manager := xrd_client_get_manager self
  if self.selection_mode then
    let all := xrd_window_manager_get_windows manager
    { self with
      manager :=
        { manager with
          windows := all.map (fun win =>
            let win := if win.pinned then xrd_window_select win else xrd_window_deselect win
            xrd_window_show win) } }
  else
    let all := xrd_window_manager_get_windows manager
    { self with
      manager :=
        { manager with
          windows := all.map (fun win =>
            let win := xrd_window_end_selection win
            if self.pinned_only && !win.pinned then xrd_window_hide win else win) } }

/-- Modelled from the spec: `xrd_window_manager_drag_start`, the grab start of
the window manager for a controller: "if the controller is currently hovering
a draggable-flagged window (...) transition GrabState: record grab-relative
offset = inverse(window transform) ∘ controller pose at grab time; lock no
gesture yet". -/
def xrd_window_manager_drag_start (manager : XrdWindowManager) (controller : XrdController) :
    XrdController :=
  match controller.hover_state.window with
  | none => controller
  | some w =>
    match manager_find_window manager w with
    | none => controller
    | some win =>
      if win.flags.draggable then
        { controller with
          grab_state :=
            { controller.grab_state with
              window := some w
              offset :=
                (graphene_matrix_inverse win.transform).getD graphene_matrix_init_identity *
                  controller.hover_state.pose
              push_pull_scale_lock := LOCKED_NONE } }
      else controller

/-- Source function `_window_grab_start_cb`.  Outside selection mode the
callback is only reached with the handle of a controller of the registry; for
a handle that is not in the registry the C code hands a null controller to the
window manager, and the model leaves the client as it is. -/
def _window_grab_start_cb (self : XrdClient) (window : WindowId)
    (event : XrdControllerIndexEvent) : XrdClient :=
  if self.selection_mode then
    let pinned := xrd_window_manager_is_pinned self.manager window
    let self :=
      { self with manager := xrd_window_manager_set_pin self.manager window (!pinned) }
    _mark_windows_for_selection_mode self
  else if xrd_client_is_grabbed self window then
    self
  else
    match _lookup_controller self event.controller_handle with
    | none => self
    | some controller =>
      let self :=
        store_controller self (xrd_window_manager_drag_start self.manager controller)
      if event.controller_handle = xrd_input_synth_synthing_controller self.input_synth then
        { self with cursor := xrd_desktop_cursor_hide self.cursor }
      else self

/-! ## Orientation reset -/

/-- An `OpenVRDigitalEvent`. -/
structure OpenVRDigitalEvent where
  controller_handle : ControllerHandle
  state : Bool
  changed : Bool
  deriving DecidableEq, Repr

/-- The struct `OrientationTransition`.  The field `grab_state`, a pointer to
the grab state of a controller, is the handle of that controller; the fields
`from` and `to` are named `from_rotation` and `to_rotation` here. -/
structure OrientationTransition where
  grab_state : ControllerHandle
  from_rotation : graphene_quaternion_t
  from_neg : graphene_quaternion_t
  to_rotation : graphene_quaternion_t
  interpolate : ℚ
  deriving DecidableEq, Repr

/-- The type of `graphene_quaternion_slerp`, spherical linear interpolation
from the first to the second quaternion at the given factor.  Its values are
not rational in general; the functions below take it as a parameter. -/
abbrev Slerp := graphene_quaternion_t → graphene_quaternion_t → ℚ → graphene_quaternion_t

/-- Source function `_interpolate_orientation_cb`, on the grab state the
transition points to.  The third component is the returned boolean; when it
is false the transition has been freed. -/
def _interpolate_orientation_cb (slerp : Slerp) (grab_state : GrabState)
    (transition : OrientationTransition) : GrabState × OrientationTransition × Bool :=
  let grab_state :=
    { grab_state with
      window_rotation :=
        slerp transition.from_rotation transition.to_rotation transition.interpolate }
  let grab_state :=
    { grab_state with
      window_transformed_rotation_neg :=
        slerp transition.from_neg transition.to_rotation transition.interpolate }
  let transition := { transition with interpolate := transition.interpolate + 7 / 100 }
  if transition.interpolate > 1 then
    let grab_state :=
      { grab_state with window_transformed_rotation_neg := graphene_quaternion_init_identity }
    let grab_state :=
      { grab_state with window_rotation := graphene_quaternion_init_identity }
    (grab_state, transition, false)
  else
    (grab_state, transition, true)

/-- The timeout source of `g_timeout_add (10, _interpolate_orientation_cb,
transition)` after `n` periods: the callback is invoked once per period as
long as it has returned true.  The third component is the value of the last
invocation (true before the first). -/
def interpolate_orientation_run (slerp : Slerp) :
    Nat → GrabState → OrientationTransition → GrabState × OrientationTransition × Bool
  | 0, grab_state, transition => (grab_state, transition, true)
  | n + 1, grab_state, transition =>
    match interpolate_orientation_run slerp n grab_state transition with
    | (grab_state, transition, true) =>
      _interpolate_orientation_cb slerp grab_state transition
    | (grab_state, transition, false) => (grab_state, transition, false)

/-- Source function `_action_reset_orientation_cb`.  The client is not
changed; the result is the transition handed to `g_timeout_add`, if any. -/
def _action_reset_orientation_cb (self : XrdClient) (event : OpenVRDigitalEvent) :
    Option OrientationTransition :=
  if !(event.changed && event.state) then none
  else
    match _lookup_controller self event.controller_handle with
    | none => none
    | some controller =>
      let grab_state := controller.grab_state
      if grab_state.window = none then none
      else
        some
          { interpolate := 0
            grab_state := controller.controller_handle
            to_rotation := graphene_quaternion_init_identity
            from_rotation := grab_state.window_rotation
            from_neg := grab_state.window_transformed_rotation_neg }

/-- The client together with the timeout sources of the orientation
transitions in flight, oldest first. -/
structure MainLoop where
  client : XrdClient
  orientation_timeouts : List OrientationTransition

/-- Dispatch of a reset-orientation digital event: the callback runs and the
transition it hands to `g_timeout_add`, if any, becomes a timeout source. -/
def dispatch_reset_orientation (m : MainLoop) (event : OpenVRDigitalEvent) : MainLoop :=
  match _action_reset_orientation_cb m.client event with
  | none => m
  | some transition =>
    { m with orientation_timeouts := m.orientation_timeouts ++ [transition] }

/-- One timeout source fires: `_interpolate_orientation_cb` runs on the grab
state of the controller the transition points to; the source stays when the
callback returns true.  A transition whose controller has left the registry
points to freed memory in the C code; the model drops it. -/
def dispatch_orientation_timeout (slerp : Slerp) (m : MainLoop)
    (transition : OrientationTransition) : MainLoop :=
  match _lookup_controller m.client transition.grab_state with
  | none => m
  | some controller =>
    match _interpolate_orientation_cb slerp controller.grab_state transition with
    | (grab_state, transition, keep) =>
      { client := store_controller m.client { controller with grab_state := grab_state }
        orientation_timeouts :=
          if keep then m.orientation_timeouts ++ [transition] else m.orientation_timeouts }

/-- One period of 10 ms: every timeout source in flight fires once, oldest
first. -/
def dispatch_orientation_timeouts (slerp : Slerp) (m : MainLoop) : MainLoop :=
  m.orientation_timeouts.foldl (dispatch_orientation_timeout slerp)
    { m with orientation_timeouts := [] }

/-! ## Controller lifecycle -/

/-- An `OpenVRDeviceIndexEvent`. -/
structure OpenVRDeviceIndexEvent where
  controller_handle : ControllerHandle
  deriving DecidableEq, Repr

/-- Modelled from the spec: `xrd_controller_new` (`xrd-controller.c` is not
among the sources) makes a controller of the given handle that hovers and
grabs nothing.  The pointer ray and the pointer tip, which the class method
`init_controller` of the backend attaches, are there from the start. -/
def xrd_controller_new (controller_handle : ControllerHandle) : XrdController :=
  { controller_handle := controller_handle
    hover_state := { window := none, pose := 1, point := ⟨0, 0, 0⟩, distance := 1 }
    grab_state :=
      { window := none, offset := 1
        window_rotation := graphene_quaternion_init_identity
        window_transformed_rotation_neg := graphene_quaternion_init_identity
        push_pull_scale_lock := LOCKED_NONE }
    pointer_ray := { length := 5, default_length := 5 }
    pointer_tip := { transformation := 1, active := false } }

/-- Source function `xrd_client_init_controller`: the class method
`init_controller` of the backend runs, which attaches the pointer ray and the
pointer tip; in the model the controller has them already. -/
def xrd_client_init_controller (self : XrdClient) (_controller : XrdController) : XrdClient :=
  self

/-- Modelled from the spec: `xrd_input_synth_hand_off_to_controller`
(`xrd-input-synth.c` is not among the sources) makes the given controller the
one mapped onto the desktop pointer; the accumulation of the previous
controller is dropped. -/
def xrd_input_synth_hand_off_to_controller (synth : XrdInputSynth)
    (controller_handle : ControllerHandle) : XrdInputSynth :=
  { xrd_input_synth_reset_press_state (xrd_input_synth_reset_scroll synth) with
    synthing_controller := controller_handle }

/-- Source function `_device_activate_cb`.  `g_hash_table_insert` of a key
that is not in the table puts the controller at the end of the association
list. -/
def _device_activate_cb (self : XrdClient) (event : OpenVRDeviceIndexEvent) : XrdClient :=
  let handle := event.controller_handle
  if self.controllers.any (fun c => c.controller_handle == handle) then
    self
  else
    let controller := xrd_controller_new handle
    let self := { self with controllers := self.controllers ++ [controller] }
    let self := xrd_client_init_controller self controller
    if self.controllers.length = 1 then
      { self with
        input_synth := xrd_input_synth_hand_off_to_controller self.input_synth handle }
    else self

/-- Source function `_activate_controller`. -/
def _activate_controller (self : XrdClient) (controller_handle : ControllerHandle) :
    XrdClient :=
  _device_activate_cb self { controller_handle := controller_handle }

/-- Source function `_device_deactivate_cb`.  `g_hash_table_remove` takes the
entry of the handle out of the association list.  `g_hash_table_get_values`
gives the controllers in an order GLib leaves open; the model takes the order
of the list, so `controllers->data` is its first entry. -/
def _device_deactivate_cb (self : XrdClient) (event : OpenVRDeviceIndexEvent) : XrdClient :=
  let handle := event.controller_handle
  let self :=
    { self with
      controllers := self.controllers.filter (fun c => c.controller_handle != handle) }
  if xrd_input_synth_synthing_controller self.input_synth = handle ∧
      self.controllers.length > 0 then
    match self.controllers with
    | [] => self
    | controller :: _ =>
      { self with
        input_synth :=
          xrd_input_synth_hand_off_to_controller self.input_synth
            controller.controller_handle }
  else self

/-! ## Hover callbacks -/

/-- An `XrdHoverEvent`. -/
structure XrdHoverEvent where
  point : graphene_point3d_t
  pose : graphene_matrix_t
  distance : ℚ
  controller_handle : ControllerHandle

/-- An `XrdNoHoverEvent`. -/
structure XrdNoHoverEvent where
  pose : graphene_matrix_t
  controller_handle : ControllerHandle

/-- Result of `xrd_math_matrix_set_translation_point`, declared in
`xrd-math.h`: the translation of the matrix, its fourth row in graphene's
row-vector convention, is replaced by the point. -/
def xrd_math_matrix_set_translation_point (matrix : graphene_matrix_t)
    (point : graphene_point3d_t) : graphene_matrix_t :=
  Matrix.of (fun i j =>
    if i = 3 then
      (if j = 0 then point.x else if j = 1 then point.y else if j = 2 then point.z
       else matrix i j)
    else matrix i j)

/-- Modelled from the spec: `xrd_window_get_transformation_no_scale`
(`xrd-window.c` is not among the sources).  The window of the model keeps its
scale apart from its transform, so the result is the stored transform; a
window the window manager does not hold reads as the identity. -/
def xrd_window_get_transformation_no_scale (manager : XrdWindowManager) (window : WindowId) :
    graphene_matrix_t :=
  match manager_find_window manager window with
  | none => graphene_matrix_init_identity
  | some win => win.transform

/-- Modelled from the spec: `xrd_pointer_tip_set_transformation`. -/
def xrd_pointer_tip_set_transformation (t : XrdPointerTip) (matrix : graphene_matrix_t) :
    XrdPointerTip :=
  { t with transformation := matrix }

/-- Modelled from the spec: `xrd_pointer_tip_update` puts the pointer tip on
the hovered window, in the orientation of the window at the intersection
point (`xrd-pointer-tip.c` is not among the sources). -/
def xrd_pointer_tip_update (t : XrdPointerTip) (pose : graphene_matrix_t)
    (intersection_point : graphene_point3d_t) : XrdPointerTip :=
  xrd_pointer_tip_set_transformation t
    (xrd_math_matrix_set_translation_point pose intersection_point)

/-- Modelled from the spec: `xrd_input_synth_move_cursor` "translates a
window-local hover point into pixel coordinates" and reports the cursor
position, which is not part of the model; the accumulation is not touched. -/
def xrd_input_synth_move_cursor (synth : XrdInputSynth) (_window : WindowId)
    (_pose : graphene_matrix_t) (_point : graphene_point3d_t) : XrdInputSynth :=
  synth

/-- Modelled from the spec: `xrd_desktop_cursor_update` places the desktop
cursor on the window; the position of the cursor is not part of the model. -/
def xrd_desktop_cursor_update (cursor : XrdDesktopCursor) (_window : WindowId)
    (_point : graphene_point3d_t) : XrdDesktopCursor :=
  cursor

/-- Source function `_window_hover_cb`.  The comparison of the hover window
with `window` reads the hover state after the assignment of `window` to it, as
in the C code.  For a handle that is not in the registry the C code
dereferences a null controller, and the model leaves the client as it is. -/
def _window_hover_cb (self : XrdClient) (window : WindowId) (event : XrdHoverEvent) :
    XrdClient :=
  match _lookup_controller self event.controller_handle with
  | none => self
  | some controller =>
    let window_pose := xrd_window_get_transformation_no_scale self.manager window
    let controller :=
      { controller with
        pointer_tip := xrd_pointer_tip_update controller.pointer_tip window_pose event.point }
    let controller :=
      { controller with
        pointer_ray := xrd_pointer_set_length controller.pointer_ray event.distance }
    let controller :=
      { controller with hover_state := { controller.hover_state with window := some window } }
    let self := store_controller self controller
    if event.controller_handle = xrd_input_synth_synthing_controller self.input_synth then
      let self :=
        { self with
          input_synth :=
            xrd_input_synth_move_cursor self.input_synth window event.pose event.point }
      let self :=
        { self with cursor := xrd_desktop_cursor_update self.cursor window event.point }
      if controller.hover_state.window ≠ some window then
        { self with input_synth := xrd_input_synth_reset_scroll self.input_synth }
      else self
    else self

/-- Source function `_window_hover_start_cb`. -/
def _window_hover_start_cb (self : XrdClient) (_window : WindowId)
    (event : XrdControllerIndexEvent) : XrdClient :=
  match _lookup_controller self event.controller_handle with
  | none => self
  | some controller =>
    store_controller self
      { controller with
        pointer_tip := xrd_pointer_tip_set_active controller.pointer_tip true }

/-- The type of `graphene_quaternion_init_from_matrix`, the rotation of a
matrix as a quaternion.  It takes square roots, so its values are not rational
in general; the functions below take it as a parameter. -/
abbrev QuaternionFromMatrix := graphene_matrix_t → graphene_quaternion_t

/-- Result of `graphene_quaternion_to_matrix`: the rotation matrix of a
quaternion. -/
def graphene_quaternion_to_matrix (q : graphene_quaternion_t) : graphene_matrix_t :=
  !![1 - 2 * (q.y * q.y + q.z * q.z), 2 * (q.x * q.y + q.w * q.z),
      2 * (q.x * q.z - q.w * q.y), 0;
     2 * (q.x * q.y - q.w * q.z), 1 - 2 * (q.x * q.x + q.z * q.z),
      2 * (q.y * q.z + q.w * q.x), 0;
     2 * (q.x * q.z + q.w * q.y), 2 * (q.y * q.z - q.w * q.x),
      1 - 2 * (q.x * q.x + q.y * q.y), 0;
     0, 0, 0, 1]

/-- Result of `graphene_matrix_translate`: the translation is applied after
the transformation the matrix holds. -/
def graphene_matrix_translate (m : graphene_matrix_t) (pos : graphene_point3d_t) :
    graphene_matrix_t :=
  m * graphene_matrix_init_translate pos

/-- Result of `graphene_matrix_rotate_quaternion`: the rotation is applied
after the transformation the matrix holds. -/
def graphene_matrix_rotate_quaternion (m : graphene_matrix_t) (q : graphene_quaternion_t) :
    graphene_matrix_t :=
  m * graphene_quaternion_to_matrix q

/-- Result of `graphene_matrix_get_translation_point3d`: the translation of a
matrix, its fourth row. -/
def graphene_matrix_get_translation_point3d (m : graphene_matrix_t) : graphene_point3d_t :=
  ⟨m 3 0, m 3 1, m 3 2⟩

/-- Source function `_manager_no_hover_cb`.  `xrd_pointer_tip_update_apparent_size`
changes the size the tip is drawn with, which is not part of the model.  For a
handle that is not in the registry the C code dereferences a null controller,
and the model leaves the client as it is. -/
def _manager_no_hover_cb (quaternion_init_from_matrix : QuaternionFromMatrix)
    (self : XrdClient) (event : XrdNoHoverEvent) : XrdClient :=
  match _lookup_controller self event.controller_handle with
  | none => self
  | some controller =>
    let pointer_tip := controller.pointer_tip
    let pointer_ray := controller.pointer_ray
    let distance_translation_point : graphene_point3d_t :=
      ⟨0, 0, -xrd_pointer_get_default_length pointer_ray⟩
    let controller_rotation := quaternion_init_from_matrix event.pose
    let controller_translation_point := graphene_matrix_get_translation_point3d event.pose
    let tip_pose := graphene_matrix_init_identity
    let tip_pose := graphene_matrix_translate tip_pose distance_translation_point
    let tip_pose := graphene_matrix_rotate_quaternion tip_pose controller_rotation
    let tip_pose := graphene_matrix_translate tip_pose controller_translation_point
    let pointer_tip := xrd_pointer_tip_set_transformation pointer_tip tip_pose
    let pointer_tip := xrd_pointer_tip_set_active pointer_tip false
    let controller := { controller with pointer_tip := pointer_tip }
    let self := store_controller self controller
    let self :=
      if xrd_input_synth_synthing_controller self.input_synth = event.controller_handle then
        { self with input_synth := xrd_input_synth_reset_scroll self.input_synth }
      else self
    store_controller self (xrd_controller_reset_hover_state controller)

/-! ## Mode switch with a backend constructor that can fail -/

/-- The backend constructors `xrd_scene_window_new_from_meters` and
`xrd_overlay_window_new_from_meters` are not among the sources; that they can
fail and return NULL is what `xrd_client_button_new_from_text` and
`xrd_client_button_new_from_icon` test their result for.  `fails i` tells
whether the construction of the window of index `i` of the snapshot fails. -/
abbrev ConstructorFailure := Nat → Bool

/-- How far a run of `xrd_client_switch_mode` has come: whether the client
passed in has been given up with `g_object_unref`, the new client, and, once a
constructed window was NULL, the index of that window.  The C code hands a
NULL window on to `g_object_set`, `xrd_window_set_transformation` and
`xrd_client_add_window` without a test; what these do with NULL is outside the
sources, and the run is followed no further. -/
structure SwitchRun where
  original_destroyed : Bool
  ret : XrdClient
  null_window : Option Nat

/-- Source function `_replace_client`, with the `g_object_unref (self)` of
its two branches recorded. -/
def _replace_client_run (self : XrdClient) : SwitchRun :=
  let to_scene : Bool := self.mode == ClientMode.overlay
  if to_scene then
    { original_destroyed := true, ret := _replace_client self, null_window := none }
  else
    { original_destroyed := true, ret := _replace_client self, null_window := none }

/-- Body of the first loop of `xrd_client_switch_mode` when the constructor
can fail: the result of `xrd_client_window_new_from_meters` is not tested. -/
def switch_mode_create_run (fails : ConstructorFailure) (state : List XrdWindowState)
    (run : SwitchRun) (i : Nat) : SwitchRun :=
  match run.null_window with
  | some _ => run
  | none =>
    if fails i then { run with null_window := some i }
    else { run with ret := switch_mode_create state run.ret i }

/-- Source function `xrd_client_switch_mode` when the constructor can fail. -/
def xrd_client_switch_mode_run (fails : ConstructorFailure) (self : XrdClient) : SwitchRun :=
  let show_only_pinned := self.pinned_only
  let manager := xrd_client_get_manager self
  let window_count := (xrd_window_manager_get_windows manager).length
  let state := xrd_window_manager_save_state manager window_count
  let run := _replace_client_run self
  let run := (List.range window_count).foldl (switch_mode_create_run fails state) run
  match run.null_window with
  | some _ => run
  | none =>
    let windows :=
      (xrd_window_manager_get_windows (xrd_client_get_manager run.ret)).map
        (fun win => win.id)
    let ret := (List.range window_count).foldl (switch_mode_link state windows) run.ret
    { run with ret := xrd_client_show_pinned_only ret show_only_pinned }

/-- Source function `_button_select_pinned_press_cb`: the press of the
"select pinned" button switches selection mode on or off (the icon of the
button is not modelled). -/
def _button_select_pinned_press_cb (self : XrdClient) (_button : WindowId)
    (_event : XrdControllerIndexEvent) : XrdClient :=
  let self := { self with selection_mode := !self.selection_mode }
  _mark_windows_for_selection_mode self

/-! ## Matrix decomposition -/

/-- Modelled from the spec: `graphene_matrix_get_translation` of
`graphene-ext.h`, which is not among the sources: "the matrix's translation
component", in graphene's row-vector convention the fourth row. -/
def graphene_matrix_get_translation (m : graphene_matrix_t) : graphene_vec3_t :=
  ⟨m 3 0, m 3 1, m 3 2⟩

/-- The type of `sqrtf`.  Its values are not rational in general; the
functions below take it as a parameter. -/
abbrev Sqrtf := ℚ → ℚ

/-- Result of `graphene_vec3_length`: the square root of the dot product of
the vector with itself. -/
def graphene_vec3_length (sqrtf : Sqrtf) (v : graphene_vec3_t) : ℚ :=
  sqrtf (graphene_vec3_dot v v)

/-- Modelled from the spec: `graphene_matrix_get_scale` of `graphene-ext.h`,
which is not among the sources: the scale of a "rigid+scale matrix", the
lengths of its three basis rows. -/
def graphene_matrix_get_scale (sqrtf : Sqrtf) (m : graphene_matrix_t) : graphene_vec3_t :=
  ⟨graphene_vec3_length sqrtf ⟨m 0 0, m 0 1, m 0 2⟩,
   graphene_vec3_length sqrtf ⟨m 1 0, m 1 1, m 1 2⟩,
   graphene_vec3_length sqrtf ⟨m 2 0, m 2 1, m 2 2⟩⟩

/-- An `OpenVRPoseEvent`. -/
structure OpenVRPoseEvent where
  controller_handle : ControllerHandle
  active : Bool
  pose : graphene_matrix_t
  valid : Bool
  device_connected : Bool

/-- The type of `xrd_window_manager_update_pose`, which is not among the
sources, taken together with the handlers that run on the signals it emits:
from the client, the pose and the handle of the controller to the client
after the hover and grab processing of the window manager. -/
abbrev UpdatePose := XrdClient → graphene_matrix_t → ControllerHandle → XrdClient

/-- Modelled from the spec: `xrd_pointer_move` moves the pointer ray to the
pose of the controller; the pose of the ray is not part of the model. -/
def xrd_pointer_move (p : XrdPointer) (_pose : graphene_matrix_t) : XrdPointer :=
  p

/-- Source function `_action_hand_pose_cb`. -/
def _action_hand_pose_cb (update_pose : UpdatePose) (self : XrdClient)
    (event : OpenVRPoseEvent) : XrdClient :=
  if !event.device_connected || !event.valid || !event.active then
    self
  else
    let self :=
      match _lookup_controller self event.controller_handle with
      | none => _activate_controller self event.controller_handle
      | some _ => self
    match _lookup_controller self event.controller_handle with
    | none => self
    | some controller =>
      let self := update_pose self event.pose controller.controller_handle
      match _lookup_controller self event.controller_handle with
      | none => self
      | some controller =>
        let controller :=
          { controller with pointer_ray := xrd_pointer_move controller.pointer_ray event.pose }
        let self := store_controller self controller
        let hovered_window := controller.hover_state.window
        let buttons := self.manager.buttons
        let hovering_window_for_input : Bool :=
          hovered_window != none &&
            !buttons.any (fun button => some button.id == hovered_window)
        if controller.controller_handle =
              xrd_input_synth_synthing_controller self.input_synth ∧
            hovering_window_for_input = true ∧
            controller.grab_state.window = none then
          { self with cursor := xrd_desktop_cursor_show self.cursor }
        else self

/-- The events that reach the controller registry: the device-activate and
device-deactivate signals of the OpenVR context, and the pose action of a
hand. -/
inductive DeviceEvent where
  | device_activate (event : OpenVRDeviceIndexEvent)
  | device_deactivate (event : OpenVRDeviceIndexEvent)
  | hand_pose (event : OpenVRPoseEvent)

/-- Dispatch of one event to the callback connected to it. -/
def dispatch_device (update_pose : UpdatePose) (self : XrdClient) :
    DeviceEvent → XrdClient
  | DeviceEvent.device_activate event => _device_activate_cb self event
  | DeviceEvent.device_deactivate event => _device_deactivate_cb self event
  | DeviceEvent.hand_pose event => _action_hand_pose_cb update_pose self event

/-- A sequence of events handled in order. -/
def run_device (update_pose : UpdatePose) (self : XrdClient) (events : List DeviceEvent) :
    XrdClient :=
  events.foldl (dispatch_device update_pose) self

/-! ## Concrete states used to exercise the definitions -/

/-- A controller with handle `h`, grabbing `grabbed`, hovering `hovered` at
distance `d`, with scale lock `lock`. -/
def example_controller (h : ControllerHandle) (hovered grabbed : Option WindowId) (d : ℚ)
    (lock : PushPullScaleLock) : XrdController :=
  { controller_handle := h
    hover_state := { window := hovered, pose := 1, point := ⟨0, 0, 0⟩, distance := d }
    grab_state :=
      { window := grabbed, offset := 1
        window_rotation := graphene_quaternion_init_identity
        window_transformed_rotation_neg := graphene_quaternion_init_identity
        push_pull_scale_lock := lock }
    pointer_ray := { length := d, default_length := 5 }
    pointer_tip := { transformation := 1, active := true } }

/-- An overlay client without windows, with analog threshold 0.5, push ratio
2, scale ratio 1 and an input poll rate of 20 ms, holding the given
controllers. -/
def example_client (controllers : List XrdController) : XrdClient :=
  { mode := ClientMode.overlay
    manager := { windows := [], buttons := [], pinned_only := false }
    input_synth :=
      { synthing_controller := 1, button_press_state := 0, scroll_accumulator := ⟨0, 0, 0⟩ }
    pinned_only := false
    selection_mode := false
    poll_input_rate_ms := 20
    analog_threshold := 1 / 2
    scroll_to_push_ratio := 2
    scroll_to_scale_ratio := 1
    cursor := { visible := false }
    controllers := controllers
    gesture_calls := []
    next_window := 0 }

/-- A window of 1 m by 1 m with identity `id`, added to the window list as a
managed, draggable window with the window callbacks connected. -/
def example_window (id : WindowId) (transform : graphene_matrix_t) (scale : ℚ)
    (pinned : Bool) (child_window parent_window : Option WindowId) : XrdWindow :=
  { id := id
    native := 100 + id
    title := "window"
    scale := scale
    initial_width_meters := 1
    initial_height_meters := 1
    current_width_meters := scale
    current_height_meters := scale
    texture_width := 800
    texture_height := 600
    transform := transform
    reset_transform := some 1
    pinned := pinned
    visible := true
    selected := none
    child_window := child_window
    parent_window := parent_window
    child_offset_center := ⟨1 / 4, 1 / 2⟩
    flags :=
      { hoverable := true, draggable := true, managed := true
        destroy_with_parent := true, manager_button := false }
    callbacks := WindowCallbacks.window_callbacks }

/-- The example client with the given windows in its window list. -/
def example_client_with (windows : List XrdWindow) (controllers : List XrdController) :
    XrdClient :=
  { example_client controllers with
    manager := { windows := windows, buttons := [], pinned_only := false } }

/-- Three windows, the first of which (translated, scaled by 2, pinned) has
the third (not draggable) as its child. -/
def example_linked_windows : List XrdWindow :=
  [example_window 10 (graphene_matrix_init_translate ⟨1, 2, 3⟩) 2 true (some 12) none,
   example_window 11 1 (1 / 2) false none none,
   { example_window 12 (graphene_matrix_init_translate ⟨4, 5, 6⟩) 1 false none (some 10) with
     flags :=
       { hoverable := true, draggable := false, managed := false
         destroy_with_parent := true, manager_button := false } }]

/-- The example client with the three linked windows, in pinned-only view. -/
def example_linked_client : XrdClient :=
  { example_client_with example_linked_windows [] with pinned_only := true }

/-- A scene object translated to `(x, y, z)`. -/
def example_scene_object (x y z : ℚ) : XrdSceneObject :=
  { model_matrix := graphene_matrix_init_translate ⟨x, y, z⟩ }

/-- No window is grabbed by two controllers: two registry entries whose grab
states refer to the same window are entries of the same controller. -/
def grab_exclusive (self : XrdClient) : Prop :=
  ∀ c1 ∈ self.controllers, ∀ c2 ∈ self.controllers, ∀ w : WindowId,
    c1.grab_state.window = some w → c2.grab_state.window = some w →
    c1.controller_handle = c2.controller_handle

/-- Componentwise linear interpolation of quaternions, a rational stand-in for
`graphene_quaternion_slerp` in the concrete runs. -/
def example_slerp : Slerp := fun a b factor =>
  ⟨a.x + (b.x - a.x) * factor, a.y + (b.y - a.y) * factor,
   a.z + (b.z - a.z) * factor, a.w + (b.w - a.w) * factor⟩

/-- The main loop of the example client with one window and one controller,
which hovers and grabs the window, and no orientation transition in flight. -/
def example_main_loop : MainLoop :=
  { client :=
      example_client_with [example_window 7 1 1 false none none]
        [example_controller 1 (some 7) (some 7) 1 LOCKED_NONE]
    orientation_timeouts := [] }

/-- The example client with the windows 7 and 8 and one controller, of handle
1, which is the synthing controller and hovers window 7; the input synthesizer
holds a press and a scroll accumulation. -/
def example_hover_client : XrdClient :=
  { example_client_with
      [example_window 7 1 1 false none none, example_window 8 1 1 false none none]
      [example_controller 1 (some 7) none 1 LOCKED_NONE] with
    input_synth :=
      { synthing_controller := 1, button_press_state := 1
        scroll_accumulator := ⟨0, 3 / 10, 0⟩ } }

/-- The handles of the controllers of the registry. -/
def registry_handles (self : XrdClient) : List ControllerHandle :=
  self.controllers.map (fun c => c.controller_handle)

/-- The pose processing of the window manager changes neither the set of
controllers of the registry nor the controller used for input synthesis. -/
def keeps_registry (update_pose : UpdatePose) : Prop :=
  ∀ (self : XrdClient) (pose : graphene_matrix_t) (h : ControllerHandle),
    registry_handles (update_pose self pose h) = registry_handles self ∧
    xrd_input_synth_synthing_controller (update_pose self pose h).input_synth =
      xrd_input_synth_synthing_controller self.input_synth

/-- Invariant of the controller registry: when the registry is not empty, the
controller used for input synthesis is in it; and no handle occurs twice. -/
def registry_invariant (self : XrdClient) : Prop :=
  (self.controllers ≠ [] →
    ∃ c, _lookup_controller self (xrd_input_synth_synthing_controller self.input_synth) =
      some c) ∧
  (registry_handles self).Nodup

/-- A pose processing of the window manager that finds the ray of the
controller on window 7: the handlers of hover-start and hover of the window
run. -/
def example_update_pose : UpdatePose := fun self pose h =>
  _window_hover_cb (_window_hover_start_cb self 7 ⟨h⟩) 7 ⟨⟨1 / 2, 1 / 2, 0⟩, pose, 1, h⟩

/-- A scene pointer at (0.5, 0.5, 1) turned by a quarter turn about the x
axis: its ray runs along the y axis, parallel to the plane `z = 0`. -/
def example_scene_pointer_sideways : XrdSceneObject :=
  { model_matrix := !![1, 0, 0, 0; 0, 0, 1, 0; 0, -1, 0, 0; 1 / 2, 1 / 2, 1, 1] }

/-- The hover distance of a controller lies in `[0.05, 15.0]`. -/
def distance_in_bounds (c : XrdController) : Prop :=
  5 / 100 ≤ c.hover_state.distance ∧ c.hover_state.distance ≤ 15

/-! ## Lemmas on the controller registry -/

theorem lookup_handle {self : XrdClient} {h : ControllerHandle} {c : XrdController}
    (hc : _lookup_controller self h = some c) : c.controller_handle = h := by
  have := List.find?_some hc
  simpa using this

theorem lookup_mem {self : XrdClient} {h : ControllerHandle} {c : XrdController}
    (hc : _lookup_controller self h = some c) : c ∈ self.controllers :=
  List.mem_of_find?_eq_some hc

theorem find_store (l : List XrdController) (h : ControllerHandle) (c c' : XrdController)
    (hc : l.find? (fun k => k.controller_handle == h) = some c)
    (hh : c'.controller_handle = h) :
    (l.map (fun k => if k.controller_handle = c'.controller_handle then c' else k)).find?
      (fun k => k.controller_handle == h) = some c' := by
  induction l with
  | nil => simp at hc
  | cons a t ih =>
    by_cases ha : a.controller_handle = h
    · simp only [List.map_cons, hh, ha, if_true]
      rw [List.find?_cons]
      simp [hh]
    · rw [List.find?_cons] at hc
      simp only [List.map_cons, hh, ha, if_false]
      rw [List.find?_cons]
      have hb : (a.controller_handle == h) = false := by simpa using ha
      rw [hb] at hc ⊢
      simpa only [hh] using ih hc

theorem lookup_store {self : XrdClient} {h : ControllerHandle} {c : XrdController}
    (hc : _lookup_controller self h = some c) (c' : XrdController)
    (hh : c'.controller_handle = h) :
    _lookup_controller (store_controller self c') h = some c' :=
  find_store self.controllers h c c' hc hh

theorem mem_store {self : XrdClient} {c' k : XrdController}
    (hk : k ∈ (store_controller self c').controllers) :
    k = c' ∨ k ∈ self.controllers := by
  simp only [store_controller, List.mem_map] at hk
  obtain ⟨a, ha, rfl⟩ := hk
  by_cases h : a.controller_handle = c'.controller_handle
  · simp [h]
  · simp [h, ha]

/-! ## Push-pull: range check -/

theorem perform_push_pull_handle (self : XrdClient) (c : XrdController) (k : ℚ) :
    (_perform_push_pull self c k).controller_handle = c.controller_handle := by
  unfold _perform_push_pull
  dsimp only
  split <;> rfl

theorem perform_push_pull_grab (self : XrdClient) (c : XrdController) (k : ℚ) :
    (_perform_push_pull self c k).grab_state = c.grab_state := by
  unfold _perform_push_pull
  dsimp only
  split <;> rfl

theorem perform_push_pull_stored (self : XrdClient) (c : XrdController) (k : ℚ) :
    _perform_push_pull self c k = c ∨
      (5 / 100 ≤ (_perform_push_pull self c k).hover_state.distance ∧
        (_perform_push_pull self c k).hover_state.distance ≤ 15) := by
  unfold _perform_push_pull
  dsimp only
  split
  · exact Or.inl rfl
  · rename_i h
    right
    simp only [WINDOW_MIN_DIST, WINDOW_MAX_DIST, not_or, not_lt] at h
    exact ⟨h.1, h.2⟩

/-- C1: in `_perform_push_pull`, when the new distance
`d + ratio * d * strength * (poll_input_rate_ms / 1000)` is below 0.05 or
above 15.0 the request is discarded: the controller, and with it its hover
distance and the length of its pointer, is left exactly as it was. -/
theorem perform_push_pull_out_of_range_discarded (self : XrdClient)
    (controller : XrdController) (strength : ℚ)
    (h : controller.hover_state.distance +
          self.scroll_to_push_ratio * controller.hover_state.distance * strength *
            ((self.poll_input_rate_ms : ℚ) / 1000) < 5 / 100 ∨
        controller.hover_state.distance +
          self.scroll_to_push_ratio * controller.hover_state.distance * strength *
            ((self.poll_input_rate_ms : ℚ) / 1000) > 15) :
    _perform_push_pull self controller strength = controller ∧
      (_perform_push_pull self controller strength).hover_state.distance =
        controller.hover_state.distance ∧
      (_perform_push_pull self controller strength).pointer_ray.length =
        controller.pointer_ray.length := by
  have e : _perform_push_pull self controller strength = controller := by
    unfold _perform_push_pull
    dsimp only
    rw [if_pos]
    simpa only [WINDOW_MIN_DIST, WINDOW_MAX_DIST] using h
  rw [e]
  exact ⟨rfl, rfl, rfl⟩

/-- Witness of C1: at distance 15 with ratio 2, strength 1 and a poll rate of
20 ms the new distance 15.6 is above 15.0, and the controller is unchanged. -/
theorem perform_push_pull_out_of_range_discarded_witness :
    _perform_push_pull (example_client []) (example_controller 1 none (some 7) 15 LOCKED_NONE) 1 =
        example_controller 1 none (some 7) 15 LOCKED_NONE ∧
      (_perform_push_pull (example_client [])
          (example_controller 1 none (some 7) 15 LOCKED_NONE) 1).hover_state.distance = 15 ∧
      (_perform_push_pull (example_client [])
          (example_controller 1 none (some 7) 15 LOCKED_NONE) 1).pointer_ray.length = 15 :=
  perform_push_pull_out_of_range_discarded (example_client [])
    (example_controller 1 none (some 7) 15 LOCKED_NONE) 1
    (by norm_num [example_client, example_controller])

theorem perform_push_pull_in_bounds (self : XrdClient) (c : XrdController) (k : ℚ)
    (hc : distance_in_bounds c) : distance_in_bounds (_perform_push_pull self c k) := by
  rcases perform_push_pull_stored self c k with h | h
  · rw [h]; exact hc
  · exact h

theorem push_pull_scale_cb_in_bounds (self : XrdClient) (event : OpenVRAnalogEvent)
    (h : ∀ c ∈ self.controllers, distance_in_bounds c) :
    ∀ c ∈ (_action_push_pull_scale_cb self event).controllers, distance_in_bounds c := by
  intro k hk
  unfold _action_push_pull_scale_cb at hk
  split at hk
  · exact h k hk
  · rename_i controller hc
    have hin : distance_in_bounds controller := h _ (lookup_mem hc)
    dsimp only at hk
    split_ifs at hk
    all_goals
      rcases mem_store hk with rfl | hk'
      · first
        | exact hin
        | exact perform_push_pull_in_bounds _ _ _ hin
      · exact h k hk'

theorem push_pull_cb_in_bounds (self : XrdClient) (event : OpenVRAnalogEvent)
    (h : ∀ c ∈ self.controllers, distance_in_bounds c) :
    ∀ c ∈ (_action_push_pull_cb self event).controllers, distance_in_bounds c := by
  intro k hk
  unfold _action_push_pull_cb at hk
  split at hk
  · exact h k hk
  · rename_i controller hc
    have hin : distance_in_bounds controller := h _ (lookup_mem hc)
    dsimp only at hk
    split_ifs at hk
    · rcases mem_store hk with rfl | hk'
      · exact perform_push_pull_in_bounds _ _ _ hin
      · exact h k hk'
    · exact h k hk

theorem run_analog_in_bounds (events : List (AnalogAction × OpenVRAnalogEvent)) :
    ∀ self : XrdClient, (∀ c ∈ self.controllers, distance_in_bounds c) →
      ∀ c ∈ (run_analog self events).controllers, distance_in_bounds c := by
  induction events with
  | nil => intro self h; exact h
  | cons a t ih =>
    intro self h
    have step : ∀ c ∈ (dispatch_analog self a).controllers, distance_in_bounds c := by
      unfold dispatch_analog
      cases a.1
      · exact push_pull_scale_cb_in_bounds self a.2 h
      · exact push_pull_cb_in_bounds self a.2 h
    exact ih (dispatch_analog self a) step

/-- C2: push-pull never produces a distance outside `[0.05, 15.0]`.  Every
call of `_perform_push_pull` either leaves the controller as it was or stores
a hover distance inside `[0.05, 15.0]`; hence, when every controller starts
with a hover distance inside the bounds, after every sequence of push-pull and
push-pull-scale analog events every controller's hover distance is inside the
bounds. -/
theorem push_pull_distance_stays_in_bounds (self : XrdClient)
    (events : List (AnalogAction × OpenVRAnalogEvent))
    (h : ∀ c ∈ self.controllers,
      5 / 100 ≤ c.hover_state.distance ∧ c.hover_state.distance ≤ 15) :
    (∀ (client : XrdClient) (controller : XrdController) (strength : ℚ),
      _perform_push_pull client controller strength = controller ∨
        (5 / 100 ≤ (_perform_push_pull client controller strength).hover_state.distance ∧
          (_perform_push_pull client controller strength).hover_state.distance ≤ 15)) ∧
    ∀ c ∈ (run_analog self events).controllers,
      5 / 100 ≤ c.hover_state.distance ∧ c.hover_state.distance ≤ 15 :=
  ⟨perform_push_pull_stored, run_analog_in_bounds events self h⟩

/-- Witness of C2: a controller at distance 14.9 grabbing a window, pushed
three times with full strength (the third time by a push-pull-scale event):
the hover distance of every controller ends inside the bounds. -/
theorem push_pull_distance_stays_in_bounds_witness :
    (run_analog (example_client [example_controller 1 (some 7) (some 7) (149 / 10) LOCKED_NONE])
        [(AnalogAction.push_pull, ⟨1, ⟨0, 1, 0⟩⟩), (AnalogAction.push_pull, ⟨1, ⟨0, 1, 0⟩⟩),
         (AnalogAction.push_pull_scale, ⟨1, ⟨0, 1, 0⟩⟩)]).controllers.all
      (fun c => decide (5 / 100 ≤ c.hover_state.distance ∧ c.hover_state.distance ≤ 15)) =
      true :=
  List.all_eq_true.mpr (fun c hc => decide_eq_true
    ((push_pull_distance_stays_in_bounds
      (example_client [example_controller 1 (some 7) (some 7) (149 / 10) LOCKED_NONE])
      [(AnalogAction.push_pull, ⟨1, ⟨0, 1, 0⟩⟩), (AnalogAction.push_pull, ⟨1, ⟨0, 1, 0⟩⟩),
       (AnalogAction.push_pull_scale, ⟨1, ⟨0, 1, 0⟩⟩)]
      (by
        intro c hc
        simp only [example_client, List.mem_singleton] at hc
        subst hc
        norm_num [example_controller])).2 c hc))

/-! ## Push-pull-scale: the scale lock -/

/-- C3: once the scale lock of a controller is SCALE (resp. PUSHPULL), a
push-pull-scale event in which at least one axis magnitude is not under the
threshold leaves the lock at SCALE (resp. PUSHPULL), and the gesture carried
out by the event is the scale (resp. the push-pull); and whatever the event,
the lock after it is the lock before it or NONE, so that the lock does not go
from SCALE to PUSHPULL or back without passing through NONE. -/
theorem scale_lock_held_while_an_axis_is_over (self : XrdClient) (event : OpenVRAnalogEvent)
    (controller : XrdController)
    (hc : _lookup_controller self event.controller_handle = some controller)
    (hlock : controller.grab_state.push_pull_scale_lock = LOCKED_SCALE ∨
      controller.grab_state.push_pull_scale_lock = LOCKED_PUSHPULL) :
    ((self.analog_threshold ≤ |event.state.x| ∨ self.analog_threshold ≤ |event.state.y|) →
      ∃ c', _lookup_controller (_action_push_pull_scale_cb self event)
            event.controller_handle = some c' ∧
        c'.grab_state.push_pull_scale_lock = controller.grab_state.push_pull_scale_lock ∧
        (controller.grab_state.push_pull_scale_lock = LOCKED_SCALE →
          (_action_push_pull_scale_cb self event).gesture_calls =
            GestureCall.scale event.controller_handle
              (event.state.x * self.scroll_to_scale_ratio) :: self.gesture_calls) ∧
        (controller.grab_state.push_pull_scale_lock = LOCKED_PUSHPULL →
          (_action_push_pull_scale_cb self event).gesture_calls =
            GestureCall.push_pull event.controller_handle event.state.y ::
              self.gesture_calls)) ∧
    ∃ c', _lookup_controller (_action_push_pull_scale_cb self event)
          event.controller_handle = some c' ∧
      (c'.grab_state.push_pull_scale_lock = controller.grab_state.push_pull_scale_lock ∨
        c'.grab_state.push_pull_scale_lock = LOCKED_NONE) := by
  have hh := lookup_handle hc
  have over : ¬ (|event.state.x| < self.analog_threshold ∧
      |event.state.y| < self.analog_threshold) →
      ∃ c', _lookup_controller (_action_push_pull_scale_cb self event)
            event.controller_handle = some c' ∧
        c'.grab_state.push_pull_scale_lock = controller.grab_state.push_pull_scale_lock ∧
        (controller.grab_state.push_pull_scale_lock = LOCKED_SCALE →
          (_action_push_pull_scale_cb self event).gesture_calls =
            GestureCall.scale event.controller_handle
              (event.state.x * self.scroll_to_scale_ratio) :: self.gesture_calls) ∧
        (controller.grab_state.push_pull_scale_lock = LOCKED_PUSHPULL →
          (_action_push_pull_scale_cb self event).gesture_calls =
            GestureCall.push_pull event.controller_handle event.state.y ::
              self.gesture_calls) := by
    intro hnu
    unfold _action_push_pull_scale_cb
    rw [hc]
    dsimp only
    rw [if_neg hnu]
    rcases hlock with hl | hl
    · rw [hl, if_neg (show ¬ LOCKED_SCALE = LOCKED_NONE by decide), if_pos rfl]
      exact ⟨_, lookup_store hc _ hh, rfl, fun _ => rfl, fun h => absurd h (by decide)⟩
    · rw [hl, if_neg (show ¬ LOCKED_PUSHPULL = LOCKED_NONE by decide),
        if_neg (show ¬ LOCKED_PUSHPULL = LOCKED_SCALE by decide), if_pos rfl]
      refine ⟨_, lookup_store hc _ ?_, ?_, fun h => absurd h (by decide), fun _ => rfl⟩
      · rw [perform_push_pull_handle]; exact hh
      · rw [perform_push_pull_grab]
  constructor
  · intro hax
    apply over
    rintro ⟨h1, h2⟩
    rcases hax with h | h
    · exact absurd h1 (not_lt.mpr h)
    · exact absurd h2 (not_lt.mpr h)
  · by_cases hu : |event.state.x| < self.analog_threshold ∧
        |event.state.y| < self.analog_threshold
    · unfold _action_push_pull_scale_cb
      rw [hc]
      dsimp only
      rw [if_pos hu]
      exact ⟨_, lookup_store hc _ hh, Or.inr rfl⟩
    · obtain ⟨c', h1, h2, _⟩ := over hu
      exact ⟨c', h1, Or.inl h2⟩

/-- Witness of C3: with threshold 0.5 the event (0.6, 0.3) locks SCALE; the
following event (0.1, 0.6) keeps SCALE and carries out a scale, not a
push-pull. -/
theorem scale_lock_held_while_an_axis_is_over_witness :
    _lookup_controller
        (_action_push_pull_scale_cb
          (example_client [example_controller 1 (some 7) (some 7) 1 LOCKED_NONE])
          ⟨1, ⟨6 / 10, 3 / 10, 0⟩⟩) 1 =
      some (example_controller 1 (some 7) (some 7) 1 LOCKED_SCALE) ∧
    ∃ c', _lookup_controller
        (_action_push_pull_scale_cb
          (_action_push_pull_scale_cb
            (example_client [example_controller 1 (some 7) (some 7) 1 LOCKED_NONE])
            ⟨1, ⟨6 / 10, 3 / 10, 0⟩⟩)
          ⟨1, ⟨1 / 10, 6 / 10, 0⟩⟩) 1 = some c' ∧
      c'.grab_state.push_pull_scale_lock = LOCKED_SCALE ∧
      (_action_push_pull_scale_cb
          (_action_push_pull_scale_cb
            (example_client [example_controller 1 (some 7) (some 7) 1 LOCKED_NONE])
            ⟨1, ⟨6 / 10, 3 / 10, 0⟩⟩)
          ⟨1, ⟨1 / 10, 6 / 10, 0⟩⟩).gesture_calls =
        [GestureCall.scale 1 (1 / 10 * 1), GestureCall.scale 1 (6 / 10 * 1)] := by
  have hc0 : _lookup_controller
      (example_client [example_controller 1 (some 7) (some 7) 1 LOCKED_NONE]) 1 =
      some (example_controller 1 (some 7) (some 7) 1 LOCKED_NONE) := rfl
  have hc1 : _lookup_controller
      (_action_push_pull_scale_cb
        (example_client [example_controller 1 (some 7) (some 7) 1 LOCKED_NONE])
        ⟨1, ⟨6 / 10, 3 / 10, 0⟩⟩) 1 =
      some (example_controller 1 (some 7) (some 7) 1 LOCKED_SCALE) := by
    unfold _action_push_pull_scale_cb
    rw [hc0]
    norm_num [example_client, example_controller, abs_of_pos, store_controller,
      _lookup_controller]
  have hcalls : (_action_push_pull_scale_cb
        (example_client [example_controller 1 (some 7) (some 7) 1 LOCKED_NONE])
        ⟨1, ⟨6 / 10, 3 / 10, 0⟩⟩).gesture_calls = [GestureCall.scale 1 (6 / 10 * 1)] := by
    unfold _action_push_pull_scale_cb
    rw [hc0]
    norm_num [example_client, example_controller, abs_of_pos, store_controller]
  refine ⟨hc1, ?_⟩
  obtain ⟨c', h1, h2, h3, _⟩ :=
    (scale_lock_held_while_an_axis_is_over
      (_action_push_pull_scale_cb
        (example_client [example_controller 1 (some 7) (some 7) 1 LOCKED_NONE])
        ⟨1, ⟨6 / 10, 3 / 10, 0⟩⟩)
      ⟨1, ⟨1 / 10, 6 / 10, 0⟩⟩
      (example_controller 1 (some 7) (some 7) 1 LOCKED_SCALE) hc1 (Or.inl rfl)).1
      (Or.inr (by
        have e : (_action_push_pull_scale_cb
            (example_client [example_controller 1 (some 7) (some 7) 1 LOCKED_NONE])
            ⟨1, ⟨6 / 10, 3 / 10, 0⟩⟩).analog_threshold = 1 / 2 := by
          unfold _action_push_pull_scale_cb
          rw [hc0]
          norm_num [example_client, example_controller, abs_of_pos, store_controller]
        rw [e]
        norm_num [abs_of_pos]))
  refine ⟨c', h1, h2, ?_⟩
  rw [h3 rfl, hcalls]
  have e : (_action_push_pull_scale_cb
      (example_client [example_controller 1 (some 7) (some 7) 1 LOCKED_NONE])
      ⟨1, ⟨6 / 10, 3 / 10, 0⟩⟩).scroll_to_scale_ratio = 1 := by
    unfold _action_push_pull_scale_cb
    rw [hc0]
    norm_num [example_client, example_controller, abs_of_pos, store_controller]
  rw [e]

/-- C4: with the scale lock at NONE, a push-pull-scale event resolves the
lock by the axis of larger magnitude: `|x| > |y|` with `|x|` over the
threshold locks SCALE and the event carries out the scale; `|y| > |x|` with
`|y|` over the threshold locks PUSHPULL and the event carries out the
push-pull. -/
theorem scale_lock_resolved_by_larger_axis (self : XrdClient) (event : OpenVRAnalogEvent)
    (controller : XrdController)
    (hc : _lookup_controller self event.controller_handle = some controller)
    (hnone : controller.grab_state.push_pull_scale_lock = LOCKED_NONE) :
    (|event.state.x| > |event.state.y| ∧ |event.state.x| > self.analog_threshold →
      ∃ c', _lookup_controller (_action_push_pull_scale_cb self event)
            event.controller_handle = some c' ∧
        c'.grab_state.push_pull_scale_lock = LOCKED_SCALE ∧
        (_action_push_pull_scale_cb self event).gesture_calls =
          GestureCall.scale event.controller_handle
            (event.state.x * self.scroll_to_scale_ratio) :: self.gesture_calls ∧
        (_action_push_pull_scale_cb self event).manager =
          xrd_window_manager_scale self.manager c'.grab_state
            (event.state.x * self.scroll_to_scale_ratio) self.poll_input_rate_ms ∧
        c'.hover_state = controller.hover_state) ∧
    (|event.state.y| > |event.state.x| ∧ |event.state.y| > self.analog_threshold →
      ∃ c', _lookup_controller (_action_push_pull_scale_cb self event)
            event.controller_handle = some c' ∧
        c'.grab_state.push_pull_scale_lock = LOCKED_PUSHPULL ∧
        (_action_push_pull_scale_cb self event).gesture_calls =
          GestureCall.push_pull event.controller_handle event.state.y ::
            self.gesture_calls ∧
        (_action_push_pull_scale_cb self event).manager = self.manager ∧
        c'.hover_state =
          (_perform_push_pull self controller event.state.y).hover_state) := by
  have hh := lookup_handle hc
  constructor
  · rintro ⟨hxy, hxt⟩
    have hnu : ¬ (|event.state.x| < self.analog_threshold ∧
        |event.state.y| < self.analog_threshold) := fun h => absurd h.1 (not_lt.mpr hxt.le)
    unfold _action_push_pull_scale_cb
    rw [hc]
    dsimp only
    rw [if_neg hnu, if_pos hnone, if_pos (And.intro hxy hxt), if_pos rfl]
    exact ⟨_, lookup_store hc _ hh, rfl, rfl, rfl, rfl⟩
  · rintro ⟨hyx, hyt⟩
    have hnu : ¬ (|event.state.x| < self.analog_threshold ∧
        |event.state.y| < self.analog_threshold) := fun h => absurd h.2 (not_lt.mpr hyt.le)
    have hnx : ¬ (|event.state.x| > |event.state.y| ∧
        |event.state.x| > self.analog_threshold) := fun h => absurd h.1 (not_lt.mpr hyx.le)
    unfold _action_push_pull_scale_cb
    rw [hc]
    dsimp only
    rw [if_neg hnu, if_pos hnone, if_neg hnx, if_pos (And.intro hyx hyt),
      if_neg (show ¬ LOCKED_PUSHPULL = LOCKED_SCALE by decide), if_pos rfl]
    refine ⟨_, lookup_store hc _ ?_, ?_, rfl, rfl, ?_⟩
    · rw [perform_push_pull_handle]; exact hh
    · rw [perform_push_pull_grab]
    · unfold _perform_push_pull
      dsimp only
      split <;> rfl

/-- Witness of C4: with threshold 0.5 and the lock at NONE, the event
(0.6, 0.3) locks SCALE and the event (0.3, -0.8) locks PUSHPULL. -/
theorem scale_lock_resolved_by_larger_axis_witness :
    (∃ c', _lookup_controller
        (_action_push_pull_scale_cb
          (example_client [example_controller 1 (some 7) (some 7) 1 LOCKED_NONE])
          ⟨1, ⟨6 / 10, 3 / 10, 0⟩⟩) 1 = some c' ∧
      c'.grab_state.push_pull_scale_lock = LOCKED_SCALE) ∧
    (∃ c', _lookup_controller
        (_action_push_pull_scale_cb
          (example_client [example_controller 1 (some 7) (some 7) 1 LOCKED_NONE])
          ⟨1, ⟨3 / 10, -8 / 10, 0⟩⟩) 1 = some c' ∧
      c'.grab_state.push_pull_scale_lock = LOCKED_PUSHPULL) := by
  constructor
  · obtain ⟨c', h1, h2, _⟩ :=
      (scale_lock_resolved_by_larger_axis
        (example_client [example_controller 1 (some 7) (some 7) 1 LOCKED_NONE])
        ⟨1, ⟨6 / 10, 3 / 10, 0⟩⟩
        (example_controller 1 (some 7) (some 7) 1 LOCKED_NONE) rfl rfl).1
        (by norm_num [example_client, abs_of_pos])
    exact ⟨c', h1, h2⟩
  · obtain ⟨c', h1, h2, _⟩ :=
      (scale_lock_resolved_by_larger_axis
        (example_client [example_controller 1 (some 7) (some 7) 1 LOCKED_NONE])
        ⟨1, ⟨3 / 10, -8 / 10, 0⟩⟩
        (example_controller 1 (some 7) (some 7) 1 LOCKED_NONE) rfl rfl).2
        (by norm_num [example_client, abs_of_pos, abs_of_neg])
    exact ⟨c', h1, h2⟩

/-- C5: a push-pull-scale event with both `|x|` and `|y|` under the analog
threshold sets the scale lock to NONE whatever it was, and carries out neither
a scale nor a push-pull (no gesture call, window manager, hover state and
pointer untouched); an event with an axis at or above the threshold does not
reset a SCALE or PUSHPULL lock to NONE. -/
theorem scale_lock_reset_only_when_both_under (self : XrdClient)
    (event : OpenVRAnalogEvent) (controller : XrdController)
    (hc : _lookup_controller self event.controller_handle = some controller) :
    (|event.state.x| < self.analog_threshold ∧ |event.state.y| < self.analog_threshold →
      ∃ c', _lookup_controller (_action_push_pull_scale_cb self event)
            event.controller_handle = some c' ∧
        c'.grab_state.push_pull_scale_lock = LOCKED_NONE ∧
        (_action_push_pull_scale_cb self event).gesture_calls = self.gesture_calls ∧
        (_action_push_pull_scale_cb self event).manager = self.manager ∧
        c'.hover_state = controller.hover_state ∧
        c'.pointer_ray = controller.pointer_ray) ∧
    ((self.analog_threshold ≤ |event.state.x| ∨ self.analog_threshold ≤ |event.state.y|) →
      controller.grab_state.push_pull_scale_lock ≠ LOCKED_NONE →
      ∃ c', _lookup_controller (_action_push_pull_scale_cb self event)
            event.controller_handle = some c' ∧
        c'.grab_state.push_pull_scale_lock ≠ LOCKED_NONE) := by
  have hh := lookup_handle hc
  constructor
  · intro hu
    unfold _action_push_pull_scale_cb
    rw [hc]
    dsimp only
    rw [if_pos hu]
    exact ⟨_, lookup_store hc _ hh, rfl, rfl, rfl, rfl, rfl⟩
  · intro hax hl
    have hnu : ¬ (|event.state.x| < self.analog_threshold ∧
        |event.state.y| < self.analog_threshold) := by
      rintro ⟨h1, h2⟩
      rcases hax with h | h
      · exact absurd h1 (not_lt.mpr h)
      · exact absurd h2 (not_lt.mpr h)
    unfold _action_push_pull_scale_cb
    rw [hc]
    dsimp only
    rw [if_neg hnu, if_neg hl]
    split_ifs
    · exact ⟨_, lookup_store hc _ hh, hl⟩
    · refine ⟨_, lookup_store hc _ ?_, ?_⟩
      · rw [perform_push_pull_handle]; exact hh
      · rw [perform_push_pull_grab]; exact hl
    · exact ⟨_, lookup_store hc _ hh, hl⟩

/-- Witness of C5: with threshold 0.5, the event (0.1, -0.2) resets a SCALE
lock to NONE without a gesture call, and the event (0.1, 0.5), whose y axis
is at the threshold, does not reset it. -/
theorem scale_lock_reset_only_when_both_under_witness :
    (∃ c', _lookup_controller
        (_action_push_pull_scale_cb
          (example_client [example_controller 1 (some 7) (some 7) 1 LOCKED_SCALE])
          ⟨1, ⟨1 / 10, -2 / 10, 0⟩⟩) 1 = some c' ∧
      c'.grab_state.push_pull_scale_lock = LOCKED_NONE ∧
      (_action_push_pull_scale_cb
          (example_client [example_controller 1 (some 7) (some 7) 1 LOCKED_SCALE])
          ⟨1, ⟨1 / 10, -2 / 10, 0⟩⟩).gesture_calls = []) ∧
    (∃ c', _lookup_controller
        (_action_push_pull_scale_cb
          (example_client [example_controller 1 (some 7) (some 7) 1 LOCKED_SCALE])
          ⟨1, ⟨1 / 10, 5 / 10, 0⟩⟩) 1 = some c' ∧
      c'.grab_state.push_pull_scale_lock ≠ LOCKED_NONE) := by
  constructor
  · obtain ⟨c', h1, h2, h3, _⟩ :=
      (scale_lock_reset_only_when_both_under
        (example_client [example_controller 1 (some 7) (some 7) 1 LOCKED_SCALE])
        ⟨1, ⟨1 / 10, -2 / 10, 0⟩⟩
        (example_controller 1 (some 7) (some 7) 1 LOCKED_SCALE) rfl).1
        (by norm_num [example_client, abs_of_pos, abs_of_neg])
    exact ⟨c', h1, h2, h3⟩
  · exact
      (scale_lock_reset_only_when_both_under
        (example_client [example_controller 1 (some 7) (some 7) 1 LOCKED_SCALE])
        ⟨1, ⟨1 / 10, 5 / 10, 0⟩⟩
        (example_controller 1 (some 7) (some 7) 1 LOCKED_SCALE) rfl).2
        (Or.inr (by norm_num [example_client, abs_of_pos]))
        (by simp [example_controller])

/-! ## Window removal clears the hover and grab states -/

theorem find_store_ne (l : List XrdController) (h : ControllerHandle) (c' : XrdController)
    (hh : h ≠ c'.controller_handle) :
    (l.map (fun k => if k.controller_handle = c'.controller_handle then c' else k)).find?
      (fun k => k.controller_handle == h) =
    l.find? (fun k => k.controller_handle == h) := by
  induction l with
  | nil => rfl
  | cons a t ih =>
    rw [List.map_cons, List.find?_cons, List.find?_cons, ih]
    by_cases ha : a.controller_handle = c'.controller_handle
    · have h1 : (c'.controller_handle == h) = false := by
        simpa using fun e => hh e.symm
      have h2 : (a.controller_handle == h) = false := by
        rw [ha]; exact h1
      simp only [ha, if_true, h1, h2]
    · simp only [ha, if_false]

theorem lookup_store_ne {self : XrdClient} {h : ControllerHandle} (c' : XrdController)
    (hh : h ≠ c'.controller_handle) :
    _lookup_controller (store_controller self c') h = _lookup_controller self h :=
  find_store_ne self.controllers h c' hh

theorem store_handles (self : XrdClient) (c' : XrdController) :
    (store_controller self c').controllers.map (fun c => c.controller_handle) =
      self.controllers.map (fun c => c.controller_handle) := by
  simp only [store_controller, List.map_map]
  apply List.map_congr_left
  intro a _
  by_cases ha : a.controller_handle = c'.controller_handle
  · simp [ha]
  · simp [ha]

theorem window_hover_end_lookup (self : XrdClient) (w : WindowId) (h : ControllerHandle)
    (c : XrdController) (hc : _lookup_controller self h = some c) :
    ∃ c', _lookup_controller (_window_hover_end_cb self w ⟨h⟩) h = some c' ∧
      c'.hover_state = c.hover_state ∧ c'.grab_state = c.grab_state := by
  have hh := lookup_handle hc
  unfold _window_hover_end_cb
  dsimp only
  rw [hc]
  dsimp only
  split_ifs
  · exact ⟨_, lookup_store hc _ hh, rfl, rfl⟩
  · exact ⟨_, lookup_store hc _ hh, rfl, rfl⟩

theorem window_hover_end_lookup_ne (self : XrdClient) (w : WindowId)
    (h h' : ControllerHandle) (hne : h' ≠ h) :
    _lookup_controller (_window_hover_end_cb self w ⟨h⟩) h' = _lookup_controller self h' := by
  unfold _window_hover_end_cb
  dsimp only
  split
  · rfl
  · rename_i c hc
    have hh := lookup_handle hc
    split_ifs
    · exact lookup_store_ne _ (by simpa [hh] using hne)
    · exact lookup_store_ne _ (by simpa [hh] using hne)

theorem window_hover_end_handles (self : XrdClient) (w : WindowId)
    (e : XrdControllerIndexEvent) :
    (_window_hover_end_cb self w e).controllers.map (fun c => c.controller_handle) =
      self.controllers.map (fun c => c.controller_handle) := by
  unfold _window_hover_end_cb
  split
  · rfl
  · dsimp only
    split_ifs
    · exact store_handles _ _
    · exact store_handles _ _

theorem emit_hover_end_lookup (self : XrdClient) (cb : WindowCallbacks) (w : WindowId)
    (h : ControllerHandle) (c : XrdController) (hc : _lookup_controller self h = some c) :
    ∃ c', _lookup_controller (xrd_window_emit_hover_end self cb w ⟨h⟩) h = some c' ∧
      c'.hover_state = c.hover_state ∧ c'.grab_state = c.grab_state := by
  cases cb
  · exact ⟨c, hc, rfl, rfl⟩
  · exact window_hover_end_lookup self w h c hc
  · unfold xrd_window_emit_hover_end _button_hover_end_cb
    dsimp only
    split_ifs
    · exact window_hover_end_lookup _ w h c hc
    · exact window_hover_end_lookup _ w h c hc

theorem emit_hover_end_lookup_ne (self : XrdClient) (cb : WindowCallbacks) (w : WindowId)
    (h h' : ControllerHandle) (hne : h' ≠ h) :
    _lookup_controller (xrd_window_emit_hover_end self cb w ⟨h⟩) h' =
      _lookup_controller self h' := by
  cases cb
  · rfl
  · exact window_hover_end_lookup_ne self w h h' hne
  · unfold xrd_window_emit_hover_end _button_hover_end_cb
    dsimp only
    split_ifs
    · exact window_hover_end_lookup_ne _ w h h' hne
    · exact window_hover_end_lookup_ne _ w h h' hne

theorem emit_hover_end_handles (self : XrdClient) (cb : WindowCallbacks) (w : WindowId)
    (e : XrdControllerIndexEvent) :
    (xrd_window_emit_hover_end self cb w e).controllers.map (fun c => c.controller_handle) =
      self.controllers.map (fun c => c.controller_handle) := by
  cases cb
  · rfl
  · exact window_hover_end_handles self w e
  · unfold xrd_window_emit_hover_end _button_hover_end_cb
    dsimp only
    split_ifs
    · exact window_hover_end_handles _ w e
    · exact window_hover_end_handles _ w e

theorem remove_window_hover_lookup (cb : WindowCallbacks) (w : WindowId) (self : XrdClient)
    (h : ControllerHandle) (c : XrdController) (hc : _lookup_controller self h = some c) :
    ∃ c', _lookup_controller (remove_window_hover cb w self h) h = some c' ∧
      c'.hover_state.window ≠ some w ∧ c'.grab_state = c.grab_state := by
  unfold remove_window_hover
  rw [hc]
  dsimp only
  split_ifs with hw
  · obtain ⟨c1, h1, _, h3⟩ := emit_hover_end_lookup self cb w h c hc
    rw [h1]
    dsimp only
    have hh1 : c1.controller_handle = h := lookup_handle h1
    refine ⟨_, lookup_store h1 _ hh1, ?_, ?_⟩
    · simp [xrd_controller_reset_hover_state]
    · simpa [xrd_controller_reset_hover_state] using h3
  · exact ⟨c, hc, hw, rfl⟩

theorem remove_window_hover_lookup_ne (cb : WindowCallbacks) (w : WindowId) (self : XrdClient)
    (h h' : ControllerHandle) (hne : h' ≠ h) :
    _lookup_controller (remove_window_hover cb w self h) h' = _lookup_controller self h' := by
  unfold remove_window_hover
  split
  · rfl
  · rename_i c hc
    split_ifs
    · obtain ⟨c1, h1, _, _⟩ := emit_hover_end_lookup self cb w h c hc
      dsimp only
      rw [h1]
      dsimp only
      rw [lookup_store_ne _ (by simpa [xrd_controller_reset_hover_state, lookup_handle h1] using hne)]
      exact emit_hover_end_lookup_ne self cb w h h' hne
    · rfl

theorem remove_window_hover_none (cb : WindowCallbacks) (w : WindowId) (self : XrdClient)
    (h : ControllerHandle) (hc : _lookup_controller self h = none) :
    remove_window_hover cb w self h = self := by
  unfold remove_window_hover
  rw [hc]

theorem remove_window_grab_lookup (w : WindowId) (self : XrdClient)
    (h : ControllerHandle) (c : XrdController) (hc : _lookup_controller self h = some c) :
    ∃ c', _lookup_controller (remove_window_grab w self h) h = some c' ∧
      c'.hover_state = c.hover_state ∧ c'.grab_state.window ≠ some w ∧
      (c'.grab_state.window = c.grab_state.window ∨ c'.grab_state.window = none) := by
  unfold remove_window_grab
  rw [hc]
  dsimp only
  split_ifs with hw
  · have hh : c.controller_handle = h := lookup_handle hc
    refine ⟨_, lookup_store hc _ hh, rfl, ?_, Or.inr rfl⟩
    simp [xrd_controller_reset_grab_state]
  · exact ⟨c, hc, rfl, hw, Or.inl rfl⟩

theorem remove_window_grab_lookup_ne (w : WindowId) (self : XrdClient)
    (h h' : ControllerHandle) (hne : h' ≠ h) :
    _lookup_controller (remove_window_grab w self h) h' = _lookup_controller self h' := by
  unfold remove_window_grab
  split
  · rfl
  · rename_i c hc
    split_ifs
    · exact lookup_store_ne _
        (by simpa [xrd_controller_reset_grab_state, lookup_handle hc] using hne)
    · rfl

theorem remove_window_controller_lookup (cb : WindowCallbacks) (w : WindowId)
    (self : XrdClient) (h : ControllerHandle) (c : XrdController)
    (hc : _lookup_controller self h = some c) :
    ∃ c', _lookup_controller (remove_window_controller cb w self h) h = some c' ∧
      c'.hover_state.window ≠ some w ∧ c'.grab_state.window ≠ some w ∧
      (c'.grab_state.window = c.grab_state.window ∨ c'.grab_state.window = none) := by
  obtain ⟨c1, h1, h2, h3⟩ := remove_window_hover_lookup cb w self h c hc
  obtain ⟨c2, k1, k2, k3, k4⟩ := remove_window_grab_lookup w _ h c1 h1
  refine ⟨c2, k1, ?_, k3, ?_⟩
  · rw [k2]; exact h2
  · rw [← h3]; exact k4

theorem remove_window_controller_lookup_ne (cb : WindowCallbacks) (w : WindowId)
    (self : XrdClient) (h h' : ControllerHandle) (hne : h' ≠ h) :
    _lookup_controller (remove_window_controller cb w self h) h' =
      _lookup_controller self h' := by
  unfold remove_window_controller
  rw [remove_window_grab_lookup_ne w _ h h' hne, remove_window_hover_lookup_ne cb w self h h' hne]

theorem remove_window_controller_none (cb : WindowCallbacks) (w : WindowId)
    (self : XrdClient) (h : ControllerHandle) (hc : _lookup_controller self h = none) :
    remove_window_controller cb w self h = self := by
  unfold remove_window_controller
  rw [remove_window_hover_none cb w self h hc]
  unfold remove_window_grab
  rw [hc]

theorem remove_window_fold_lookup_not_mem (cb : WindowCallbacks) (w : WindowId)
    (h : ControllerHandle) (hs : List ControllerHandle) :
    ∀ self : XrdClient, h ∉ hs →
      _lookup_controller (hs.foldl (remove_window_controller cb w) self) h =
        _lookup_controller self h := by
  induction hs with
  | nil => intro self _; rfl
  | cons a t ih =>
    intro self hn
    rw [List.foldl_cons, ih _ (fun m => hn (List.mem_cons_of_mem _ m))]
    exact remove_window_controller_lookup_ne cb w self a h
      (fun e => hn (by rw [e]; exact List.mem_cons_self _ _))

theorem remove_window_fold_lookup_grab (cb : WindowCallbacks) (w : WindowId)
    (h : ControllerHandle) (hs : List ControllerHandle) :
    ∀ (self : XrdClient) (c : XrdController), _lookup_controller self h = some c →
      ∃ c', _lookup_controller (hs.foldl (remove_window_controller cb w) self) h = some c' ∧
        (c'.grab_state.window = c.grab_state.window ∨ c'.grab_state.window = none) := by
  induction hs with
  | nil => intro self c hc; exact ⟨c, hc, Or.inl rfl⟩
  | cons a t ih =>
    intro self c hc
    rw [List.foldl_cons]
    by_cases ha : h = a
    · subst ha
      obtain ⟨c1, h1, _, _, h4⟩ := remove_window_controller_lookup cb w self h c hc
      obtain ⟨c2, k1, k2⟩ := ih _ c1 h1
      refine ⟨c2, k1, ?_⟩
      rcases k2 with k2 | k2
      · rw [k2]; exact h4
      · exact Or.inr k2
    · have h1 : _lookup_controller (remove_window_controller cb w self a) h = some c := by
        rw [remove_window_controller_lookup_ne cb w self a h ha]; exact hc
      exact ih _ c h1

theorem remove_window_fold_lookup_mem (cb : WindowCallbacks) (w : WindowId)
    (h : ControllerHandle) (hs : List ControllerHandle) :
    ∀ self : XrdClient, h ∈ hs → ∀ c',
      _lookup_controller (hs.foldl (remove_window_controller cb w) self) h = some c' →
      c'.hover_state.window ≠ some w ∧ c'.grab_state.window ≠ some w := by
  induction hs with
  | nil => intro self hm; simp at hm
  | cons a t ih =>
    intro self hm c' hc'
    rw [List.foldl_cons] at hc'
    by_cases ht : h ∈ t
    · exact ih _ ht c' hc'
    · have ha : h = a := by
        rcases List.mem_cons.mp hm with e | e
        · exact e
        · exact absurd e ht
      subst ha
      rw [remove_window_fold_lookup_not_mem cb w h t _ ht] at hc'
      cases hl : _lookup_controller self h with
      | none =>
        rw [remove_window_controller_none cb w self h hl, hl] at hc'
        cases hc'
      | some c =>
        obtain ⟨c1, h1, h2, h3, _⟩ := remove_window_controller_lookup cb w self h c hl
        rw [h1] at hc'
        cases hc'
        exact ⟨h2, h3⟩

theorem remove_window_controller_handles (cb : WindowCallbacks) (w : WindowId)
    (self : XrdClient) (h : ControllerHandle) :
    (remove_window_controller cb w self h).controllers.map (fun c => c.controller_handle) =
      self.controllers.map (fun c => c.controller_handle) := by
  have hover : (remove_window_hover cb w self h).controllers.map
      (fun c => c.controller_handle) = self.controllers.map (fun c => c.controller_handle) := by
    unfold remove_window_hover
    split
    · rfl
    · split_ifs
      · dsimp only
        split
        · exact emit_hover_end_handles self cb w _
        · rw [store_handles]
          exact emit_hover_end_handles self cb w _
      · rfl
  unfold remove_window_controller remove_window_grab
  split
  · exact hover
  · split_ifs
    · rw [store_handles]; exact hover
    · exact hover

theorem remove_window_fold_handles (cb : WindowCallbacks) (w : WindowId)
    (hs : List ControllerHandle) :
    ∀ self : XrdClient,
      (hs.foldl (remove_window_controller cb w) self).controllers.map
          (fun c => c.controller_handle) =
        self.controllers.map (fun c => c.controller_handle) := by
  induction hs with
  | nil => intro self; rfl
  | cons a t ih =>
    intro self
    rw [List.foldl_cons, ih, remove_window_controller_handles]

theorem find_of_mem_nodup (l : List XrdController)
    (hn : (l.map (fun c => c.controller_handle)).Nodup) (c : XrdController) (hc : c ∈ l) :
    l.find? (fun k => k.controller_handle == c.controller_handle) = some c := by
  induction l with
  | nil => simp at hc
  | cons a t ih =>
    rw [List.map_cons, List.nodup_cons] at hn
    rw [List.find?_cons]
    rcases List.mem_cons.mp hc with e | e
    · subst e
      simp
    · have hne : a.controller_handle ≠ c.controller_handle := by
        intro e'
        apply hn.1
        rw [e']
        exact List.mem_map_of_mem _ e
      have hb : (a.controller_handle == c.controller_handle) = false := by simpa using hne
      rw [hb]
      exact ih hn.2 e

/-- C6: after `xrd_client_remove_window (window)` no controller of the
registry has a hover state or a grab state whose window is the removed window
(a reset of a hover or grab state clears its window reference), be the
registry read by handle or, its handles being distinct, enumerated; and a
controller that was grabbing the window has no grabbed window any more. -/
theorem remove_window_clears_references (self : XrdClient) (window : WindowId) :
    (∀ h c, _lookup_controller (xrd_client_remove_window self window) h = some c →
      c.hover_state.window ≠ some window ∧ c.grab_state.window ≠ some window) ∧
    ((self.controllers.map (fun c => c.controller_handle)).Nodup →
      ∀ c ∈ (xrd_client_remove_window self window).controllers,
        c.hover_state.window ≠ some window ∧ c.grab_state.window ≠ some window) ∧
    (∀ h c, _lookup_controller self h = some c → c.grab_state.window = some window →
      ∃ c', _lookup_controller (xrd_client_remove_window self window) h = some c' ∧
        c'.grab_state.window = none) := by
  have byHandle : ∀ h c, _lookup_controller (xrd_client_remove_window self window) h = some c →
      c.hover_state.window ≠ some window ∧ c.grab_state.window ≠ some window := by
    intro h c hc
    unfold xrd_client_remove_window at hc
    dsimp only at hc
    by_cases hm : h ∈ self.controllers.map (fun controller => controller.controller_handle)
    · exact remove_window_fold_lookup_mem _ window h _ _ hm c hc
    · rw [remove_window_fold_lookup_not_mem _ window h _ _ hm] at hc
      exfalso
      apply hm
      have h1 := lookup_mem hc
      have h2 := lookup_handle hc
      rw [← h2]
      exact List.mem_map_of_mem _ h1
  refine ⟨byHandle, ?_, ?_⟩
  · intro hn c hc
    have hh : (xrd_client_remove_window self window).controllers.map
        (fun c => c.controller_handle) = self.controllers.map (fun c => c.controller_handle) := by
      unfold xrd_client_remove_window
      dsimp only
      rw [remove_window_fold_handles]
    have hn' : ((xrd_client_remove_window self window).controllers.map
        (fun c => c.controller_handle)).Nodup := by rw [hh]; exact hn
    exact byHandle c.controller_handle c (find_of_mem_nodup _ hn' c hc)
  · intro h c hc hg
    have hc0 : _lookup_controller
        { self with manager := xrd_window_manager_remove_window self.manager window } h =
        some c := hc
    obtain ⟨c', h1, h2⟩ := remove_window_fold_lookup_grab
      (match manager_find_window self.manager window with
        | none => WindowCallbacks.unconnected
        | some win => win.callbacks) window h
      (self.controllers.map (fun controller => controller.controller_handle)) _ c hc0
    have h1' : _lookup_controller (xrd_client_remove_window self window) h = some c' := h1
    refine ⟨c', h1', ?_⟩
    rcases h2 with h2 | h2
    · exfalso
      exact (byHandle h c' h1').2 (by rw [h2]; exact hg)
    · exact h2

/-- Witness of C6: controller 1 hovers and grabs window 7, controller 2
hovers window 8; after the removal of window 7 no controller refers to it,
and controller 1 grabs nothing. -/
theorem remove_window_clears_references_witness :
    (xrd_client_remove_window
        (example_client_with
          [example_window 7 1 1 false none none, example_window 8 1 1 false none none]
          [example_controller 1 (some 7) (some 7) 1 LOCKED_NONE,
           example_controller 2 (some 8) none 2 LOCKED_NONE]) 7).controllers.all
      (fun c => decide (c.hover_state.window ≠ some 7 ∧ c.grab_state.window ≠ some 7)) =
      true ∧
    ∃ c', _lookup_controller
        (xrd_client_remove_window
          (example_client_with
            [example_window 7 1 1 false none none, example_window 8 1 1 false none none]
            [example_controller 1 (some 7) (some 7) 1 LOCKED_NONE,
             example_controller 2 (some 8) none 2 LOCKED_NONE]) 7) 1 = some c' ∧
      c'.grab_state.window = none :=
  ⟨List.all_eq_true.mpr (fun c hc => decide_eq_true
    ((remove_window_clears_references
      (example_client_with
        [example_window 7 1 1 false none none, example_window 8 1 1 false none none]
        [example_controller 1 (some 7) (some 7) 1 LOCKED_NONE,
         example_controller 2 (some 8) none 2 LOCKED_NONE]) 7).2.1 (by decide) c hc)),
   (remove_window_clears_references
      (example_client_with
        [example_window 7 1 1 false none none, example_window 8 1 1 false none none]
        [example_controller 1 (some 7) (some 7) 1 LOCKED_NONE,
         example_controller 2 (some 8) none 2 LOCKED_NONE]) 7).2.2 1
      (example_controller 1 (some 7) (some 7) 1 LOCKED_NONE) rfl rfl⟩

/-! ## Gestures after a window removal -/

theorem push_pull_cb_without_grab (self : XrdClient) (event : OpenVRAnalogEvent)
    (c : XrdController) (hc : _lookup_controller self event.controller_handle = some c)
    (hg : c.grab_state.window = none) : _action_push_pull_cb self event = self := by
  unfold _action_push_pull_cb
  rw [hc]
  dsimp only
  rw [if_neg]
  rw [hg]
  simp

/-- C7 (evaluation at the failing input): controller 1 hovers and grabs
window 7 at distance 1 with the lock at NONE; window 7 is removed, which
clears the grab state; a push-pull event for the controller is then a no-op,
but the push-pull-scale event (0, 1) sets the lock to PUSHPULL and moves the
hover distance and the pointer length to 1.04. -/
theorem push_pull_scale_after_remove_window_changes_state :
    ∃ c1 c2,
      _lookup_controller
        (xrd_client_remove_window
          (example_client_with [example_window 7 1 1 false none none]
            [example_controller 1 (some 7) (some 7) 1 LOCKED_NONE]) 7) 1 = some c1 ∧
      c1.grab_state.window = none ∧
      c1.hover_state.distance = 1 ∧
      c1.pointer_ray.length = 5 ∧
      c1.grab_state.push_pull_scale_lock = LOCKED_NONE ∧
      _action_push_pull_cb
        (xrd_client_remove_window
          (example_client_with [example_window 7 1 1 false none none]
            [example_controller 1 (some 7) (some 7) 1 LOCKED_NONE]) 7) ⟨1, ⟨0, 1, 0⟩⟩ =
        xrd_client_remove_window
          (example_client_with [example_window 7 1 1 false none none]
            [example_controller 1 (some 7) (some 7) 1 LOCKED_NONE]) 7 ∧
      _lookup_controller
        (_action_push_pull_scale_cb
          (xrd_client_remove_window
            (example_client_with [example_window 7 1 1 false none none]
              [example_controller 1 (some 7) (some 7) 1 LOCKED_NONE]) 7)
          ⟨1, ⟨0, 1, 0⟩⟩) 1 = some c2 ∧
      c2.hover_state.distance = 26 / 25 ∧
      c2.pointer_ray.length = 26 / 25 ∧
      c2.grab_state.push_pull_scale_lock = LOCKED_PUSHPULL := by
  have e1 : xrd_client_remove_window
      (example_client_with [example_window 7 1 1 false none none]
        [example_controller 1 (some 7) (some 7) 1 LOCKED_NONE]) 7 =
      example_client_with []
        [{ example_controller 1 none none 1 LOCKED_NONE with
            pointer_ray := { length := 5, default_length := 5 } }] := by
    rfl
  have hc1 : _lookup_controller
      (example_client_with []
        [{ example_controller 1 none none 1 LOCKED_NONE with
            pointer_ray := { length := 5, default_length := 5 } }]) 1 =
      some { example_controller 1 none none 1 LOCKED_NONE with
            pointer_ray := { length := 5, default_length := 5 } } := rfl
  rw [e1]
  refine ⟨_, example_controller 1 none none (26 / 25) LOCKED_PUSHPULL, hc1, rfl, rfl, rfl, rfl,
    push_pull_cb_without_grab _ _ _ hc1 rfl, ?_, rfl, rfl, rfl⟩
  unfold _action_push_pull_scale_cb
  rw [hc1]
  norm_num [example_client_with, example_client, example_controller, abs_of_pos,
    store_controller, _lookup_controller, _perform_push_pull, WINDOW_MIN_DIST,
    WINDOW_MAX_DIST, xrd_pointer_set_length]
  rfl

/-! ## Mode switch: the first loop -/

theorem update_window_getElem? (ws : List XrdWindow) (w : WindowId)
    (f : XrdWindow → XrdWindow) (p : Nat) :
    (update_window ws w f)[p]? = (ws[p]?).map (fun x => if x.id = w then f x else x) := by
  simp [update_window, List.getElem?_map]

theorem update_window_length (ws : List XrdWindow) (w : WindowId)
    (f : XrdWindow → XrdWindow) : (update_window ws w f).length = ws.length := by
  simp [update_window]

theorem update_window_fresh (ws : List XrdWindow) (w : WindowId) (f : XrdWindow → XrdWindow)
    (h : ∀ x ∈ ws, x.id ≠ w) : update_window ws w f = ws := by
  unfold update_window
  conv_rhs => rw [← List.map_id ws]
  apply List.map_congr_left
  intro x hx
  simp [h x hx]

theorem update_window_append_last (ws : List XrdWindow) (x : XrdWindow) (w : WindowId)
    (f : XrdWindow → XrdWindow) (hx : x.id = w) (h : ∀ y ∈ ws, y.id ≠ w) :
    update_window (ws ++ [x]) w f = ws ++ [f x] := by
  have e : update_window (ws ++ [x]) w f =
      update_window ws w f ++ update_window [x] w f := by
    simp [update_window]
  rw [e, update_window_fresh ws w f h]
  simp [update_window, hx]

theorem switch_mode_create_windows (state : List XrdWindowState) (ret : XrdClient) (k : Nat)
    (st : XrdWindowState) (hst : state[k]? = some st) (hp : ret.pinned_only = false)
    (hb : ret.manager.buttons = [])
    (hfresh : ∀ x ∈ ret.manager.windows, x.id ≠ ret.next_window) :
    (switch_mode_create state ret k).manager.windows =
        ret.manager.windows ++ [window_after_create ret.next_window st] ∧
      (switch_mode_create state ret k).manager.buttons = [] ∧
      (switch_mode_create state ret k).pinned_only = false ∧
      (switch_mode_create state ret k).next_window = ret.next_window + 1 := by
  unfold switch_mode_create
  rw [hst]
  simp only [xrd_client_window_new_from_meters, xrd_client_add_window, xrd_client_get_manager,
    xrd_window_manager_add_window, hp, Bool.false_and, Bool.false_eq_true, if_false,
    xrd_client_add_window_callbacks, manager_update_window, xrd_window_manager_set_pin,
    hb, window_new_from_meters, xrd_window_set_transformation]
  refine ⟨?_, by simp [update_window], trivial, trivial⟩
  rw [update_window_append_last _ _ _ _ rfl hfresh, update_window_append_last _ _ _ _ rfl hfresh,
    update_window_append_last _ _ _ _ rfl hfresh]
  rfl

theorem first_loop_windows (state : List XrdWindowState) (ret : XrdClient)
    (hp : ret.pinned_only = false) (hb : ret.manager.buttons = [])
    (hw : ret.manager.windows = []) :
    ∀ k, k ≤ state.length →
      ((List.range k).foldl (switch_mode_create state) ret).manager.windows =
          (state.take k).mapIdx (fun p st => window_after_create (ret.next_window + p) st) ∧
        ((List.range k).foldl (switch_mode_create state) ret).manager.buttons = [] ∧
        ((List.range k).foldl (switch_mode_create state) ret).pinned_only = false ∧
        ((List.range k).foldl (switch_mode_create state) ret).next_window =
          ret.next_window + k := by
  intro k
  induction k with
  | zero =>
    intro _
    simp [hw, hb, hp]
  | succ k ih =>
    intro hk
    obtain ⟨h1, h2, h3, h4⟩ := ih (Nat.le_of_succ_le hk)
    have hlt : k < state.length := hk
    have hst : state[k]? = some state[k] := List.getElem?_eq_getElem hlt
    have hfresh : ∀ x ∈ ((List.range k).foldl (switch_mode_create state) ret).manager.windows,
        x.id ≠ ((List.range k).foldl (switch_mode_create state) ret).next_window := by
      intro x hx
      rw [h1] at hx
      rw [h4]
      obtain ⟨p, hp'⟩ := List.mem_iff_getElem?.mp hx
      rw [List.getElem?_mapIdx] at hp'
      cases hq : (List.take k state)[p]? with
      | none => rw [hq] at hp'; cases hp'
      | some st =>
        rw [hq] at hp'
        simp only [Option.map_some', Option.some.injEq] at hp'
        have hpk : p < k := by
          have := (List.getElem?_eq_some_iff.mp hq).1
          rw [List.length_take] at this
          exact lt_of_lt_of_le this (min_le_left _ _)
        rw [← hp']
        intro e
        have e' : p = k := Nat.add_left_cancel e
        omega
    obtain ⟨g1, g2, g3, g4⟩ := switch_mode_create_windows state _ k state[k] hst h3 h2 hfresh
    rw [List.range_succ, List.foldl_append, List.foldl_cons, List.foldl_nil]
    refine ⟨?_, g2, g3, ?_⟩
    · rw [g1, h1, h4, List.take_succ, hst, Option.toList_some, List.mapIdx_append_one,
        List.length_take, min_eq_left (Nat.le_of_succ_le hk)]
    · rw [g4, h4, Nat.add_assoc]

/-! ## Mode switch: the second loop -/

theorem link_updates_getElem? (ws : List XrdWindow) (b : WindowId) (j c p : Nat)
    (off : graphene_point_t) (R T : graphene_matrix_t) (X : XrdWindow)
    (hX : ws[p]? = some X) (hid : X.id = b + p) :
    (update_window
        (update_window
          (update_window ws (b + j) (fun win =>
            { win with child_window := some (b + c), child_offset_center := off }))
          (b + c) (fun win => { win with parent_window := some (b + j), transform := R }))
        (b + c) (fun win => xrd_window_set_transformation win T))[p]? =
      some
        { X with
          child_window := if p = j then some (b + c) else X.child_window
          child_offset_center := if p = j then off else X.child_offset_center
          parent_window := if p = c then some (b + j) else X.parent_window
          transform := if p = c then T else X.transform } := by
  have e1 : ∀ q : Nat, (b + p = b + q) ↔ p = q := fun q => Nat.add_left_cancel_iff
  simp only [update_window_getElem?, hX, Option.map_some', xrd_window_set_transformation]
  by_cases hj : p = j
  · subst hj
    by_cases hc : p = c
    · subst hc
      simp [hid]
    · simp [hid, e1, hc]
  · by_cases hc : p = c
    · subst hc
      simp [hid, e1, hj]
    · simp [hid, e1, hj, hc]
      rw [← hid]

theorem getElem?_unique {α : Type} {l : List α} {p : Nat} {a a' : α}
    (h : l[p]? = some a) (h' : l[p]? = some a') : a = a' := by
  rw [h] at h'
  exact Option.some.inj h'

theorem switch_mode_link_step (state : List XrdWindowState) (b : WindowId)
    (ids : List WindowId) (hids : ∀ p, p < state.length → ids[p]? = some (b + p))
    (hvalid : ∀ (p : Nat) (st : XrdWindowState), state[p]? = some st →
      st.child_index < (state.length : Int))
    (ret : XrdClient) (j : Nat) (hj : j < state.length) (hb : ret.manager.buttons = [])
    (hinv : linked_below state b j ret.manager.windows) :
    linked_below state b (j + 1) (switch_mode_link state ids ret j).manager.windows ∧
      (switch_mode_link state ids ret j).manager.buttons = [] := by
  have hst : state[j]? = some state[j] := List.getElem?_eq_getElem hj
  unfold switch_mode_link
  rw [hids j hj, hst]
  dsimp only
  by_cases hci : state[j].child_index ≥ 0
  · rw [if_pos hci]
    have hc : state[j].child_index.toNat < state.length := by
      have := hvalid j _ hst
      omega
    have hcst : state[state[j].child_index.toNat]? = some state[state[j].child_index.toNat] :=
      List.getElem?_eq_getElem hc
    rw [hids _ hc, hcst]
    dsimp only
    simp only [xrd_window_add_child, manager_update_window, hb]
    refine ⟨⟨?_, ?_⟩, by simp [update_window]⟩
    · rw [update_window_length, update_window_length, update_window_length]
      exact hinv.1
    · intro p stp hp
      obtain ⟨cw, pw, off, hX, h1, h2, h3⟩ := hinv.2 p stp hp
      refine ⟨if p = j then some (b + state[j].child_index.toNat) else cw,
        if p = state[j].child_index.toNat then some (b + j) else pw,
        if p = j then state[j].child_offset_center else off, ?_, ?_, ?_, ?_⟩
      · rw [link_updates_getElem? _ b j _ p _ _ _ _ hX rfl]
        by_cases hpc : p = state[j].child_index.toNat
        · have e : stp = state[state[j].child_index.toNat] := by
            rw [hpc] at hp
            exact getElem?_unique hp hcst
          rw [if_pos hpc, e]
          rfl
        · rw [if_neg hpc]
      · intro hlt h0
        by_cases hpj : p = j
        · have e : stp = state[j] := by
            rw [hpj] at hp
            exact getElem?_unique hp hst
          rw [if_pos hpj, if_pos hpj, e]
          exact ⟨rfl, rfl⟩
        · rw [if_neg hpj, if_neg hpj]
          exact h1 (by omega) h0
      · intro hn
        by_cases hpj : p = j
        · exfalso
          apply hn
          have e : stp = state[j] := by
            rw [hpj] at hp
            exact getElem?_unique hp hst
          rw [e, hpj]
          exact ⟨Nat.lt_succ_self j, hci⟩
        · rw [if_neg hpj]
          exact h2 (fun h => hn ⟨by omega, h.2⟩)
      · intro q hq
        by_cases hpc : p = state[j].child_index.toNat
        · rw [if_pos hpc] at hq
          exact ⟨j, hj, (Option.some.inj hq).symm⟩
        · rw [if_neg hpc] at hq
          exact h3 q hq
  · rw [if_neg hci]
    refine ⟨⟨hinv.1, ?_⟩, hb⟩
    intro p stp hp
    obtain ⟨cw, pw, off, hX, h1, h2, h3⟩ := hinv.2 p stp hp
    refine ⟨cw, pw, off, hX, ?_, ?_, h3⟩
    · intro hlt h0
      by_cases hpj : p = j
      · exfalso
        have e : stp = state[j] := by
          rw [hpj] at hp
          exact getElem?_unique hp hst
        rw [e] at h0
        exact hci h0
      · exact h1 (by omega) h0
    · intro hn
      apply h2
      intro h
      exact hn ⟨by omega, h.2⟩

theorem second_loop_windows (state : List XrdWindowState) (b : WindowId)
    (ids : List WindowId) (hids : ∀ p, p < state.length → ids[p]? = some (b + p))
    (hvalid : ∀ (p : Nat) (st : XrdWindowState), state[p]? = some st →
      st.child_index < (state.length : Int))
    (ret : XrdClient) (hb : ret.manager.buttons = [])
    (hinv : linked_below state b 0 ret.manager.windows) :
    ∀ k, k ≤ state.length →
      linked_below state b k
          ((List.range k).foldl (switch_mode_link state ids) ret).manager.windows ∧
        ((List.range k).foldl (switch_mode_link state ids) ret).manager.buttons = [] := by
  intro k
  induction k with
  | zero => intro _; exact ⟨hinv, hb⟩
  | succ k ih =>
    intro hk
    obtain ⟨h1, h2⟩ := ih (Nat.le_of_succ_le hk)
    rw [List.range_succ, List.foldl_append, List.foldl_cons, List.foldl_nil]
    exact switch_mode_link_step state b ids hids hvalid _ k hk h2 h1

theorem save_state_all (manager : XrdWindowManager) :
    xrd_window_manager_save_state manager (xrd_window_manager_get_windows manager).length =
      manager.windows.map (window_state manager.windows) := by
  simp [xrd_window_manager_save_state, xrd_window_manager_get_windows]

theorem window_state_child_index_lt (windows : List XrdWindow) (win : XrdWindow) :
    (window_state windows win).child_index < (windows.length : Int) := by
  unfold window_state
  dsimp only
  split
  · have : (0 : Int) ≤ windows.length := Int.natCast_nonneg _
    omega
  · split
    · have : (0 : Int) ≤ windows.length := Int.natCast_nonneg _
      omega
    · rename_i k hk
      have := (List.findIdx?_eq_some_iff_findIdx_eq.mp hk).1
      exact_mod_cast this

theorem switch_mode_windows (self : XrdClient) :
    ∃ ws,
      linked_below (self.manager.windows.map (window_state self.manager.windows))
        self.next_window self.manager.windows.length ws ∧
      (xrd_client_switch_mode self).manager.windows =
        ws.map (fun win =>
          if self.pinned_only && !win.pinned then xrd_window_hide win
          else xrd_window_show win) := by
  have hlen : (self.manager.windows.map (window_state self.manager.windows)).length =
      self.manager.windows.length := List.length_map _ _
  obtain ⟨p1, p2, _, _⟩ := first_loop_windows
    (self.manager.windows.map (window_state self.manager.windows)) (_replace_client self)
    rfl rfl rfl self.manager.windows.length (le_of_eq hlen.symm)
  have hnext : (_replace_client self).next_window = self.next_window := rfl
  rw [hnext, ← hlen, List.take_length] at p1
  have hinv0 : linked_below (self.manager.windows.map (window_state self.manager.windows))
      self.next_window 0
      ((List.range self.manager.windows.length).foldl
        (switch_mode_create (self.manager.windows.map (window_state self.manager.windows)))
        (_replace_client self)).manager.windows := by
    rw [← hlen, p1]
    refine ⟨List.length_mapIdx, ?_⟩
    intro p st hp
    refine ⟨none, none, ⟨0, 0⟩, ?_, ?_, fun _ => rfl, fun q hq => by cases hq⟩
    · rw [List.getElem?_mapIdx, hp]
      rfl
    · intro h
      exact absurd h (Nat.not_lt_zero p)
  have hids : ∀ p, p < (self.manager.windows.map (window_state self.manager.windows)).length →
      (((List.range self.manager.windows.length).foldl
        (switch_mode_create (self.manager.windows.map (window_state self.manager.windows)))
        (_replace_client self)).manager.windows.map (fun win => win.id))[p]? =
        some (self.next_window + p) := by
    intro p hp
    rw [← hlen, p1, List.getElem?_map, List.getElem?_mapIdx, List.getElem?_eq_getElem hp]
    rfl
  have hvalid : ∀ (p : Nat) (st : XrdWindowState),
      (self.manager.windows.map (window_state self.manager.windows))[p]? = some st →
      st.child_index <
        ((self.manager.windows.map (window_state self.manager.windows)).length : Int) := by
    intro p st hp
    rw [List.getElem?_map] at hp
    cases hw : self.manager.windows[p]? with
    | none => rw [hw] at hp; cases hp
    | some win =>
      rw [hw] at hp
      simp only [Option.map_some', Option.some.injEq] at hp
      rw [← hp, hlen]
      exact window_state_child_index_lt _ _
  obtain ⟨q1, _⟩ := second_loop_windows _ self.next_window _ hids hvalid _ p2 hinv0
    (self.manager.windows.map (window_state self.manager.windows)).length (le_refl _)
  rw [hlen] at q1
  refine ⟨_, q1, ?_⟩
  have hs : xrd_window_manager_save_state self.manager self.manager.windows.length =
      self.manager.windows.map (window_state self.manager.windows) := save_state_all self.manager
  unfold xrd_client_switch_mode
  simp only [xrd_client_get_manager, xrd_client_show_pinned_only,
    xrd_window_manager_show_pinned_only, xrd_window_manager_get_windows]
  rw [hs]

theorem switch_mode_length (self : XrdClient) :
    (xrd_client_switch_mode self).manager.windows.length = self.manager.windows.length := by
  obtain ⟨ws, h1, h2⟩ := switch_mode_windows self
  rw [h2, List.length_map, h1.1, List.length_map]

theorem switch_mode_window_at (self : XrdClient) (p : Nat) (win : XrdWindow)
    (hw : self.manager.windows[p]? = some win) :
    ∃ cw pw off vis,
      (xrd_client_switch_mode self).manager.windows[p]? = some
        { window_after_create (self.next_window + p)
            (window_state self.manager.windows win) with
          child_window := cw, parent_window := pw, child_offset_center := off,
          visible := vis } ∧
      (0 ≤ (window_state self.manager.windows win).child_index →
        cw = some (self.next_window +
            (window_state self.manager.windows win).child_index.toNat) ∧
          off = win.child_offset_center) ∧
      ((window_state self.manager.windows win).child_index < 0 → cw = none) ∧
      (∀ q, pw = some q → ∃ i : Nat, i < self.manager.windows.length ∧
        q = self.next_window + i) := by
  obtain ⟨ws, h1, h2⟩ := switch_mode_windows self
  have hp : (self.manager.windows.map (window_state self.manager.windows))[p]? =
      some (window_state self.manager.windows win) := by
    rw [List.getElem?_map, hw]
    rfl
  have hlt : p < self.manager.windows.length := (List.getElem?_eq_some_iff.mp hw).1
  obtain ⟨cw, pw, off, g1, g2, g3, g4⟩ := h1.2 p _ hp
  by_cases hv : (self.pinned_only && !win.pinned) = true
  · refine ⟨cw, pw, off, false, ?_, fun h0 => g2 hlt h0, fun hneg => g3 (fun h => ?_), ?_⟩
    · rw [h2, List.getElem?_map, g1]
      simp only [Option.map_some']
      change some (if (self.pinned_only && !win.pinned) = true then _ else _) = _
      rw [if_pos hv]
      rfl
    · omega
    · intro q hq
      obtain ⟨i, hi, e⟩ := g4 q hq
      exact ⟨i, by simpa using hi, e⟩
  · refine ⟨cw, pw, off, true, ?_, fun h0 => g2 hlt h0, fun hneg => g3 (fun h => ?_), ?_⟩
    · rw [h2, List.getElem?_map, g1]
      simp only [Option.map_some']
      change some (if (self.pinned_only && !win.pinned) = true then _ else _) = _
      rw [if_neg hv]
      rfl
    · omega
    · intro q hq
      obtain ⟨i, hi, e⟩ := g4 q hq
      exact ⟨i, by simpa using hi, e⟩

theorem switch_mode_window_none (self : XrdClient) (p : Nat)
    (hw : self.manager.windows[p]? = none) :
    (xrd_client_switch_mode self).manager.windows[p]? = none := by
  rw [List.getElem?_eq_none_iff] at hw ⊢
  rw [switch_mode_length]
  exact hw

/-- C9: `xrd_client_switch_mode` recreates exactly one window per snapshot
entry, in insertion order: the window list of the new client, read attribute
by attribute (native handle, scale, initial width and height, texture width
and height, transform, reset transform, pinned flag, draggable flag), is the
snapshot of the old window list read the same way. -/
theorem switch_mode_recreates_snapshot (self : XrdClient) :
    (xrd_client_switch_mode self).manager.windows.map (fun w =>
        (w.native, w.scale, w.initial_width_meters, w.initial_height_meters,
          w.texture_width, w.texture_height, w.transform, w.reset_transform, w.pinned,
          w.flags.draggable)) =
      (xrd_window_manager_save_state (xrd_client_get_manager self)
          (xrd_window_manager_get_windows (xrd_client_get_manager self)).length).map
        (fun st =>
          (st.native, st.scale, st.initial_width, st.initial_height, st.texture_width,
            st.texture_height, st.transform, some st.reset_transform, st.pinned,
            st.is_draggable)) := by
  apply List.ext_getElem?
  intro p
  rw [List.getElem?_map, List.getElem?_map, xrd_client_get_manager, save_state_all,
    List.getElem?_map]
  cases hw : self.manager.windows[p]? with
  | none => rw [switch_mode_window_none self p hw]; rfl
  | some win =>
    obtain ⟨cw, pw, off, vis, h, _⟩ := switch_mode_window_at self p win hw
    rw [h]
    rfl

theorem switch_mode_window_id (self : XrdClient) (p : Nat)
    (hp : p < self.manager.windows.length) :
    ∃ x, (xrd_client_switch_mode self).manager.windows[p]? = some x ∧
      x.id = self.next_window + p ∧
      x.transform = (self.manager.windows[p]).transform := by
  have hw : self.manager.windows[p]? = some self.manager.windows[p] :=
    List.getElem?_eq_getElem hp
  obtain ⟨cw, pw, off, vis, h, _⟩ := switch_mode_window_at self p _ hw
  exact ⟨_, h, rfl, rfl⟩

/-- C10: in `xrd_client_switch_mode` the parent/child pass runs after every
window has been recreated: for a snapshot index `i` whose entry has
`child_index >= 0`, window `i` of the new list has window `child_index` of
the new list as its child, with the captured child offset, and that child has
its captured transform; and no child or parent link of a window of the new
list refers to a window that is not in the new list. -/
theorem switch_mode_links_children (self : XrdClient) (i : Nat) (st : XrdWindowState)
    (hst : (xrd_window_manager_save_state (xrd_client_get_manager self)
      (xrd_window_manager_get_windows (xrd_client_get_manager self)).length)[i]? = some st)
    (hci : 0 ≤ st.child_index) :
    (∃ w cw cst,
      (xrd_client_switch_mode self).manager.windows[i]? = some w ∧
      (xrd_client_switch_mode self).manager.windows[st.child_index.toNat]? = some cw ∧
      (xrd_window_manager_save_state (xrd_client_get_manager self)
        (xrd_window_manager_get_windows (xrd_client_get_manager self)).length)[
          st.child_index.toNat]? = some cst ∧
      w.child_window = some cw.id ∧
      w.child_offset_center = st.child_offset_center ∧
      cw.transform = cst.transform) ∧
    (∀ w ∈ (xrd_client_switch_mode self).manager.windows,
      (∀ c, w.child_window = some c →
        ∃ x ∈ (xrd_client_switch_mode self).manager.windows, x.id = c) ∧
      (∀ q, w.parent_window = some q →
        ∃ x ∈ (xrd_client_switch_mode self).manager.windows, x.id = q)) := by
  rw [xrd_client_get_manager, save_state_all] at hst ⊢
  constructor
  · rw [List.getElem?_map] at hst
    cases hw : self.manager.windows[i]? with
    | none => rw [hw] at hst; cases hst
    | some win =>
      rw [hw] at hst
      simp only [Option.map_some', Option.some.injEq] at hst
      subst hst
      obtain ⟨cw, pw, off, vis, h, h1, _, _⟩ := switch_mode_window_at self i win hw
      obtain ⟨e1, e2⟩ := h1 hci
      have hlt : (window_state self.manager.windows win).child_index.toNat <
          self.manager.windows.length := by
        have := window_state_child_index_lt self.manager.windows win
        omega
      obtain ⟨x, hx, hid, htr⟩ := switch_mode_window_id self _ hlt
      refine ⟨_, x, window_state self.manager.windows
        (self.manager.windows[(window_state self.manager.windows win).child_index.toNat]),
        h, hx, ?_, ?_, e2, htr⟩
      · rw [List.getElem?_map, List.getElem?_eq_getElem hlt]
        rfl
      · rw [hid]
        exact e1
  · intro w hw
    obtain ⟨p, hp⟩ := List.mem_iff_getElem?.mp hw
    have hlt : p < self.manager.windows.length := by
      have := (List.getElem?_eq_some_iff.mp hp).1
      rw [switch_mode_length] at this
      exact this
    obtain ⟨cw, pw, off, vis, h, h1, h2, h3⟩ := switch_mode_window_at self p _
      (List.getElem?_eq_getElem hlt)
    have ew := getElem?_unique hp h
    constructor
    · intro c hc
      rw [ew] at hc
      change cw = some c at hc
      by_cases h0 : 0 ≤ (window_state self.manager.windows self.manager.windows[p]).child_index
      · obtain ⟨e1, _⟩ := h1 h0
        have hlt' : (window_state self.manager.windows
            self.manager.windows[p]).child_index.toNat < self.manager.windows.length := by
          have := window_state_child_index_lt self.manager.windows self.manager.windows[p]
          omega
        obtain ⟨x, hx, hid, _⟩ := switch_mode_window_id self _ hlt'
        refine ⟨x, List.mem_iff_getElem?.mpr ⟨_, hx⟩, ?_⟩
        rw [hid]
        rw [e1] at hc
        exact Option.some.inj hc
      · rw [h2 (by omega)] at hc
        cases hc
    · intro q hq
      rw [ew] at hq
      change pw = some q at hq
      obtain ⟨k, hk, e⟩ := h3 q hq
      obtain ⟨x, hx, hid, _⟩ := switch_mode_window_id self k hk
      exact ⟨x, List.mem_iff_getElem?.mpr ⟨_, hx⟩, by rw [hid, e]⟩

/-- Witness of C10: in the example client window 0 has window 2 as its child;
after the switch window 0 of the new list has window 2 of the new list as its
child at the captured offset, and window 2 has its captured transform. -/
theorem switch_mode_links_children_witness :
    ∃ w cw,
      (xrd_client_switch_mode example_linked_client).manager.windows[0]? = some w ∧
      (xrd_client_switch_mode example_linked_client).manager.windows[2]? = some cw ∧
      w.child_window = some cw.id ∧
      w.child_offset_center = ⟨1 / 4, 1 / 2⟩ ∧
      cw.transform = graphene_matrix_init_translate ⟨4, 5, 6⟩ := by
  obtain ⟨⟨w, cw, cst, h1, h2, h3, h4, h5, h6⟩, _⟩ :=
    switch_mode_links_children example_linked_client 0
      (window_state example_linked_windows
        (example_window 10 (graphene_matrix_init_translate ⟨1, 2, 3⟩) 2 true (some 12) none))
      rfl (by decide)
  refine ⟨w, cw, h1, h2, h4, h5, ?_⟩
  rw [h6]
  have e : cst = window_state example_linked_windows
      { example_window 12 (graphene_matrix_init_translate ⟨4, 5, 6⟩) 1 false none (some 10) with
        flags :=
          { hoverable := true, draggable := false, managed := false
            destroy_with_parent := true, manager_button := false } } :=
    (Option.some.inj h3).symm
  rw [e]
  rfl

/-! ## Mode switch: round trip -/

theorem switch_mode_getElem_id (self : XrdClient) (p : Nat)
    (hp : p < (xrd_client_switch_mode self).manager.windows.length) :
    ((xrd_client_switch_mode self).manager.windows[p]).id = self.next_window + p := by
  have hp' : p < self.manager.windows.length := by
    rw [switch_mode_length] at hp
    exact hp
  obtain ⟨x, hx, hid, _⟩ := switch_mode_window_id self p hp'
  have e := (List.getElem?_eq_some_iff.mp hx).2
  rw [e]
  exact hid

theorem switch_mode_findIdx (self : XrdClient) (k : Nat)
    (hk : k < self.manager.windows.length) :
    (xrd_client_switch_mode self).manager.windows.findIdx?
      (fun x => x.id == self.next_window + k) = some k := by
  rw [List.findIdx?_eq_some_iff_getElem]
  have hk' : k < (xrd_client_switch_mode self).manager.windows.length := by
    rw [switch_mode_length]
    exact hk
  refine ⟨hk', ?_, ?_⟩
  · rw [switch_mode_getElem_id self k hk']
    simp
  · intro j hj
    rw [switch_mode_getElem_id self j (Nat.lt_trans hj hk')]
    simp only [beq_iff_eq]
    intro e
    have e' : j = k := Nat.add_left_cancel e
    omega

theorem switch_mode_preserves (self : XrdClient) :
    (xrd_client_switch_mode self).manager.windows.map
        (fun w => (w.transform, w.scale, w.pinned)) =
      self.manager.windows.map (fun w => (w.transform, w.scale, w.pinned)) ∧
    child_links (xrd_client_switch_mode self).manager = child_links self.manager := by
  constructor
  · apply List.ext_getElem?
    intro p
    rw [List.getElem?_map, List.getElem?_map]
    cases hw : self.manager.windows[p]? with
    | none => rw [switch_mode_window_none self p hw]
    | some win =>
      obtain ⟨cw, pw, off, vis, h, _⟩ := switch_mode_window_at self p win hw
      rw [h]
      rfl
  · apply List.ext_getElem?
    intro p
    unfold child_links
    rw [List.getElem?_map, List.getElem?_map]
    cases hw : self.manager.windows[p]? with
    | none => rw [switch_mode_window_none self p hw]; rfl
    | some win =>
      obtain ⟨cw, pw, off, vis, h, h1, h2, _⟩ := switch_mode_window_at self p win hw
      rw [h]
      simp only [Option.map_some', Option.some.injEq]
      cases hc : win.child_window with
      | none =>
        have hneg : (window_state self.manager.windows win).child_index < 0 := by
          simp [window_state, hc]
        rw [h2 hneg]
      | some child =>
        cases hf : self.manager.windows.findIdx? (fun x => x.id == child) with
        | none =>
          have hneg : (window_state self.manager.windows win).child_index < 0 := by
            simp [window_state, hc, hf]
          rw [h2 hneg]
          simp only [hf, Option.map_none']
        | some k =>
          have hci : (window_state self.manager.windows win).child_index = (k : Int) := by
            simp [window_state, hc, hf]
          have h0 : 0 ≤ (window_state self.manager.windows win).child_index := by
            rw [hci]; exact Int.natCast_nonneg k
          obtain ⟨e1, e2⟩ := h1 h0
          have hk : k < self.manager.windows.length :=
            (List.findIdx?_eq_some_iff_findIdx_eq.mp hf).1
          rw [e1, e2, hci, Int.toNat_ofNat]
          simp only [switch_mode_findIdx self k hk, hf, Option.map_some']

/-- C8: mode switch round trip.  For every client, whatever the number of its
windows, their transforms, scales, pinned flags and child links, the client
obtained by applying `xrd_client_switch_mode` twice has a window list which
has, index by index, the same transform, scale and pinned flag as the window
list before the first switch, and the same parent-child relationship (the same
child index and child offset at every index). -/
theorem switch_mode_round_trip (self : XrdClient) :
    (xrd_client_switch_mode (xrd_client_switch_mode self)).manager.windows.map
        (fun w => (w.transform, w.scale, w.pinned)) =
      self.manager.windows.map (fun w => (w.transform, w.scale, w.pinned)) ∧
    child_links (xrd_client_switch_mode (xrd_client_switch_mode self)).manager =
      child_links self.manager := by
  obtain ⟨a1, a2⟩ := switch_mode_preserves self
  obtain ⟨b1, b2⟩ := switch_mode_preserves (xrd_client_switch_mode self)
  exact ⟨b1.trans a1, b2.trans a2⟩

/-- The round trip on the example client: three windows, the first with the
third as its child at offset (1/4, 1/2). -/
theorem switch_mode_round_trip_example :
    child_links (xrd_client_switch_mode (xrd_client_switch_mode example_linked_client)).manager =
      [some (2, ⟨1 / 4, 1 / 2⟩), none, none] ∧
    (xrd_client_switch_mode (xrd_client_switch_mode example_linked_client)).manager.windows.map
        (fun w => (w.scale, w.pinned)) = [(2, true), (1 / 2, false), (1, false)] := by
  constructor
  · rw [(switch_mode_round_trip example_linked_client).2]
    rfl
  · have h := congrArg (List.map (fun t : graphene_matrix_t × ℚ × Bool => t.2))
      (switch_mode_round_trip example_linked_client).1
    simp only [List.map_map] at h
    exact h.trans rfl

/-- The recreated windows of the example client keep the native handles of
the three windows, in order. -/
theorem switch_mode_recreates_snapshot_example :
    (xrd_client_switch_mode example_linked_client).manager.windows.map (fun w => w.native) =
      [110, 111, 112] := by
  have h := congrArg
    (List.map (fun t : Nat × ℚ × ℚ × ℚ × Nat × Nat × graphene_matrix_t ×
      Option graphene_matrix_t × Bool × Bool => t.1))
    (switch_mode_recreates_snapshot example_linked_client)
  simp only [List.map_map] at h
  exact h.trans rfl

/-! ## Mode switch: kind of the client and pinned-only view -/

theorem foldl_invariant {α β : Type} (f : α → β → α) (P : α → Prop)
    (h : ∀ a b, P a → P (f a b)) : ∀ (l : List β) (a : α), P a → P (l.foldl f a) := by
  intro l
  induction l with
  | nil => intro a ha; exact ha
  | cons b t ih => intro a ha; exact ih (f a b) (h a b ha)

theorem switch_mode_create_mode (state : List XrdWindowState) (ret : XrdClient) (i : Nat) :
    (switch_mode_create state ret i).mode = ret.mode := by
  unfold switch_mode_create
  split
  · rfl
  · simp only [xrd_client_window_new_from_meters, xrd_client_add_window,
      xrd_client_add_window_callbacks]
    split_ifs <;> rfl

theorem switch_mode_link_mode (state : List XrdWindowState) (windows : List WindowId)
    (ret : XrdClient) (i : Nat) :
    (switch_mode_link state windows ret i).mode = ret.mode ∧
      (switch_mode_link state windows ret i).pinned_only = ret.pinned_only := by
  unfold switch_mode_link
  split
  · split_ifs
    · dsimp only
      split
      · exact ⟨rfl, rfl⟩
      · exact ⟨rfl, rfl⟩
    · exact ⟨rfl, rfl⟩
  · exact ⟨rfl, rfl⟩

/-- C11: `xrd_client_switch_mode` returns a client of the opposite mode than
the one passed in: an overlay client yields a scene client and a scene client
yields an overlay client, so that switching twice returns a client of the
original mode. -/
theorem switch_mode_opposite_mode (self : XrdClient) :
    (self.mode = ClientMode.overlay →
      (xrd_client_switch_mode self).mode = ClientMode.scene) ∧
    (self.mode = ClientMode.scene →
      (xrd_client_switch_mode self).mode = ClientMode.overlay) ∧
    (xrd_client_switch_mode (xrd_client_switch_mode self)).mode = self.mode := by
  have key : ∀ s : XrdClient, (xrd_client_switch_mode s).mode = (_replace_client s).mode := by
    intro s
    unfold xrd_client_switch_mode
    simp only [xrd_client_show_pinned_only]
    apply foldl_invariant _ (fun r : XrdClient => r.mode = (_replace_client s).mode)
    · intro a b ha
      rw [(switch_mode_link_mode _ _ a b).1]
      exact ha
    · apply foldl_invariant _ (fun r : XrdClient => r.mode = (_replace_client s).mode)
      · intro a b ha
        rw [switch_mode_create_mode]
        exact ha
      · rfl
  have flip : ∀ s : XrdClient, (_replace_client s).mode =
      if s.mode = ClientMode.overlay then ClientMode.scene else ClientMode.overlay := by
    intro s
    unfold _replace_client
    cases s.mode <;> rfl
  refine ⟨fun h => ?_, fun h => ?_, ?_⟩
  · rw [key, flip, if_pos h]
  · rw [key, flip, h]
    rfl
  · rw [key, flip, key, flip]
    cases self.mode <;> rfl

/-- Witness of C11: the example client is an overlay client; switched once
it is a scene client, switched twice an overlay client again. -/
theorem switch_mode_opposite_mode_witness :
    (xrd_client_switch_mode example_linked_client).mode = ClientMode.scene ∧
      (xrd_client_switch_mode (xrd_client_switch_mode example_linked_client)).mode =
        ClientMode.overlay :=
  ⟨(switch_mode_opposite_mode example_linked_client).1 rfl,
   (switch_mode_opposite_mode example_linked_client).2.2⟩

theorem switch_mode_eq_show_pinned_only (self : XrdClient) :
    xrd_client_switch_mode self =
      xrd_client_show_pinned_only (switch_mode_after_loops self) self.pinned_only := rfl

theorem switch_mode_after_loops_pinned_only (self : XrdClient) :
    (switch_mode_after_loops self).pinned_only = false := by
  unfold switch_mode_after_loops
  simp only [xrd_client_get_manager, xrd_window_manager_get_windows]
  apply foldl_invariant _ (fun r : XrdClient => r.pinned_only = false)
  · intro a b ha
    rw [(switch_mode_link_mode _ _ a b).2]
    exact ha
  · have hlen : (xrd_window_manager_save_state self.manager self.manager.windows.length).length =
        self.manager.windows.length := by
      rw [show xrd_window_manager_save_state self.manager self.manager.windows.length =
        self.manager.windows.map (window_state self.manager.windows) from
          save_state_all self.manager, List.length_map]
    exact (first_loop_windows _ (_replace_client self) rfl rfl rfl
      self.manager.windows.length (le_of_eq hlen.symm)).2.2.1

theorem child_links_map (manager : XrdWindowManager) (f : XrdWindow → XrdWindow)
    (hid : ∀ w, (f w).id = w.id) (hc : ∀ w, (f w).child_window = w.child_window)
    (ho : ∀ w, (f w).child_offset_center = w.child_offset_center) :
    child_links { manager with windows := manager.windows.map f } = child_links manager := by
  unfold child_links
  simp only [List.map_map]
  apply List.map_congr_left
  intro w _
  simp only [Function.comp, hc, ho, List.findIdx?_map]
  cases hw : w.child_window with
  | none => rfl
  | some c =>
    have e' : ((fun x : XrdWindow => x.id == c) ∘ f) = (fun x : XrdWindow => x.id == c) := by
      funext x
      simp [hid]
    simp only [e']

theorem child_links_show_pinned_only (ret : XrdClient) (b : Bool) :
    child_links (xrd_client_show_pinned_only ret b).manager = child_links ret.manager := by
  have h := child_links_map ret.manager
    (fun win => if b && !win.pinned then xrd_window_hide win else xrd_window_show win)
    (by intro w; dsimp only; split_ifs <;> rfl)
    (by intro w; dsimp only; split_ifs <;> rfl)
    (by intro w; dsimp only; split_ifs <;> rfl)
  unfold xrd_client_show_pinned_only xrd_window_manager_show_pinned_only
  unfold child_links at h ⊢
  exact h

/-- C12: `xrd_client_switch_mode` restores the pinned-only view mode last.
The returned client is `xrd_client_show_pinned_only` applied, with the
pinned-only flag of the client passed in, to a client in which pinned-only is
off and which already holds all recreated windows with their child links; so
the pinned-only flag of the returned client and of its window manager is the
flag of the client passed in, and every window of the returned client is
hidden exactly when the flag is set and the window is not pinned. -/
theorem switch_mode_restores_pinned_only_last (self : XrdClient) :
    xrd_client_switch_mode self =
      xrd_client_show_pinned_only (switch_mode_after_loops self) self.pinned_only ∧
    (switch_mode_after_loops self).pinned_only = false ∧
    (switch_mode_after_loops self).manager.windows.length = self.manager.windows.length ∧
    child_links (switch_mode_after_loops self).manager = child_links self.manager ∧
    (xrd_client_switch_mode self).pinned_only = self.pinned_only ∧
    (xrd_client_switch_mode self).manager.pinned_only = self.pinned_only ∧
    (xrd_client_switch_mode self).manager.windows.all
      (fun w => w.visible == !(self.pinned_only && !w.pinned)) = true := by
  refine ⟨rfl, switch_mode_after_loops_pinned_only self, ?_, ?_, rfl, rfl, ?_⟩
  · have h := switch_mode_length self
    rw [switch_mode_eq_show_pinned_only] at h
    simpa [xrd_client_show_pinned_only, xrd_window_manager_show_pinned_only] using h
  · rw [← child_links_show_pinned_only (switch_mode_after_loops self) self.pinned_only,
      ← switch_mode_eq_show_pinned_only]
    exact (switch_mode_preserves self).2
  · rw [switch_mode_eq_show_pinned_only, List.all_eq_true]
    intro w hw
    simp only [xrd_client_show_pinned_only, xrd_window_manager_show_pinned_only,
      List.mem_map] at hw
    obtain ⟨x, _, rfl⟩ := hw
    by_cases hv : (self.pinned_only && !x.pinned) = true
    · rw [if_pos hv]
      simp [xrd_window_hide, hv]
    · rw [if_neg hv]
      simp only [Bool.not_eq_true] at hv
      simp [xrd_window_show, hv]

/-- Example for C12: the example client is in pinned-only view with only its
first window pinned; after the switch the view is still pinned-only and the
windows are visible, hidden, hidden. -/
theorem switch_mode_restores_pinned_only_last_example :
    (xrd_client_switch_mode example_linked_client).pinned_only = true ∧
      (xrd_client_switch_mode example_linked_client).manager.windows.map
        (fun w => w.visible) = [true, false, false] := by
  refine ⟨(switch_mode_restores_pinned_only_last example_linked_client).2.2.2.2.1, ?_⟩
  rfl

/-! ## Scene pointer: intersection test -/

theorem matrix_inverse_mul (m inv : graphene_matrix_t)
    (h : graphene_matrix_inverse m = some inv) : m * inv = 1 ∧ inv * m = 1 := by
  unfold graphene_matrix_inverse at h
  split_ifs at h with hd
  have e : inv = m.det⁻¹ • m.adjugate := (Option.some.inj h).symm
  subst e
  constructor
  · rw [Matrix.mul_smul, Matrix.mul_adjugate, smul_smul, inv_mul_cancel₀ hd, one_smul]
  · rw [Matrix.smul_mul, Matrix.adjugate_mul, smul_smul, inv_mul_cancel₀ hd, one_smul]

theorem transform_vec4_mul (a b : graphene_matrix_t) (v : graphene_vec4_t) :
    graphene_matrix_transform_vec4 b (graphene_matrix_transform_vec4 a v) =
      graphene_matrix_transform_vec4 (a * b) v := by
  simp only [graphene_matrix_transform_vec4, Matrix.mul_apply, Fin.sum_univ_four,
    graphene_vec4_t.mk.injEq]
  refine ⟨?_, ?_, ?_, ?_⟩ <;> ring

theorem transform_vec4_one (v : graphene_vec4_t) :
    graphene_matrix_transform_vec4 1 v = v := by
  simp [graphene_matrix_transform_vec4, Matrix.one_apply]

theorem distance_to_plane_on_plane (r : graphene_ray_t) (p : graphene_plane_t) (dist : ℚ)
    (h : graphene_ray_get_distance_to_plane r p = some dist) :
    0 ≤ dist ∧
      graphene_vec3_dot p.normal
        (graphene_vec3_add r.origin (graphene_vec3_scale r.direction dist)) + p.constant = 0 := by
  unfold graphene_ray_get_distance_to_plane at h
  dsimp only at h
  split_ifs at h with hd ht
  have e := Option.some.inj h
  constructor
  · rw [← e]; exact ht
  · rw [← e]
    simp only [graphene_vec3_dot, graphene_vec3_add, graphene_vec3_scale] at hd ⊢
    field_simp
    ring

/-- C13: for a window whose model matrix is invertible,
`xrd_scene_pointer_get_intersection` returns a result, and it returns TRUE iff
the pointer ray hits the plane of the window (the ray/plane distance is not
the sentinel) and the intersection point, taken to the local space of the
window by the inverse of the model matrix, has local x and local y both in
`[0, 1]`, the bounds 0 and 1 included; the local point is the one the model
matrix maps to the intersection point. -/
theorem get_intersection_iff_in_unit_square (pointer window : XrdSceneObject)
    (inverse : graphene_matrix_t)
    (hinv : graphene_matrix_inverse window.model_matrix = some inverse) :
    (window.model_matrix * inverse = 1 ∧ inverse * window.model_matrix = 1) ∧
    (∃ r, xrd_scene_pointer_get_intersection pointer window = some r) ∧
    ((xrd_scene_pointer_get_intersection pointer window).map (fun r => r.hit) = some true ↔
      ∃ dist l,
        graphene_ray_get_distance_to_plane (xrd_scene_pointer_get_ray pointer)
          (xrd_scene_window_get_plane window) = some dist ∧
        l = graphene_matrix_transform_vec4 inverse
          (graphene_vec4_init_from_vec3
            (graphene_vec3_add (xrd_scene_pointer_get_ray pointer).origin
              (graphene_vec3_scale (xrd_scene_pointer_get_ray pointer).direction dist)) 1) ∧
        graphene_matrix_transform_vec4 window.model_matrix l =
          graphene_vec4_init_from_vec3
            (graphene_vec3_add (xrd_scene_pointer_get_ray pointer).origin
              (graphene_vec3_scale (xrd_scene_pointer_get_ray pointer).direction dist)) 1 ∧
        0 ≤ l.x ∧ l.x ≤ 1 ∧ 0 ≤ l.y ∧ l.y ≤ 1) := by
  have hm := matrix_inverse_mul _ _ hinv
  refine ⟨hm, ?_, ?_⟩
  · unfold xrd_scene_pointer_get_intersection
    dsimp only
    cases graphene_ray_get_distance_to_plane (xrd_scene_pointer_get_ray pointer)
        (xrd_scene_window_get_plane window) with
    | none => exact ⟨_, rfl⟩
    | some dist =>
      dsimp only
      rw [hinv]
      dsimp only
      split_ifs
      · exact ⟨_, rfl⟩
      · exact ⟨_, rfl⟩
  · unfold xrd_scene_pointer_get_intersection
    dsimp only
    cases hd : graphene_ray_get_distance_to_plane (xrd_scene_pointer_get_ray pointer)
        (xrd_scene_window_get_plane window) with
    | none =>
      constructor
      · intro h
        simp at h
      · rintro ⟨dist, l, h, _⟩
        cases h
    | some dist =>
      dsimp only
      rw [hinv]
      dsimp only
      constructor
      · intro h
        split_ifs at h with hb
        · refine ⟨dist, _, rfl, rfl, ?_, hb.1, hb.2.1, hb.2.2.1, hb.2.2.2⟩
          rw [transform_vec4_mul, hm.2, transform_vec4_one]
        · simp at h
      · rintro ⟨dist', l, h1, h2, _, h4, h5, h6, h7⟩
        have e : dist' = dist := (Option.some.inj h1).symm
        subst e
        subst h2
        rw [if_pos ⟨h4, h5, h6, h7⟩]
        rfl

/-- Witness of C13: a window with the identity model matrix and a pointer
translated to (1, 0, 1), whose ray meets the plane of the window at the local
point (1, 0), on the bounds of the unit square: the intersection test returns
TRUE. -/
theorem get_intersection_iff_in_unit_square_witness :
    (xrd_scene_pointer_get_intersection (example_scene_object 1 0 1)
      { model_matrix := 1 }).map (fun r => r.hit) = some true := by
  have hinv : graphene_matrix_inverse (1 : graphene_matrix_t) = some 1 := by
    simp [graphene_matrix_inverse]
  have hd : graphene_ray_get_distance_to_plane
      (xrd_scene_pointer_get_ray (example_scene_object 1 0 1))
      (xrd_scene_window_get_plane { model_matrix := 1 }) = some (49 / 1999) := by
    simp [graphene_ray_get_distance_to_plane, xrd_scene_pointer_get_ray,
      xrd_scene_window_get_plane, example_scene_object, graphene_matrix_init_translate,
      graphene_matrix_transform_vec4, graphene_vec4_get_xyz, graphene_vec4_subtract,
      graphene_ray_init, graphene_vec3_dot, Matrix.one_apply, Matrix.vecHead, Matrix.vecTail]
    norm_num
  refine (get_intersection_iff_in_unit_square (example_scene_object 1 0 1)
    { model_matrix := 1 } 1 hinv).2.2.mpr ⟨49 / 1999, _, hd, rfl, ?_, ?_, ?_, ?_, ?_⟩
  · rw [transform_vec4_one, transform_vec4_one]
  all_goals
    simp [xrd_scene_pointer_get_ray, example_scene_object, graphene_matrix_init_translate,
      graphene_matrix_transform_vec4, graphene_vec4_get_xyz, graphene_vec4_subtract,
      graphene_ray_init, graphene_vec3_add, graphene_vec3_scale,
      graphene_vec4_init_from_vec3, Matrix.one_apply, Matrix.vecHead, Matrix.vecTail]

/-- C14: when the ray/plane distance is the no-intersection sentinel,
`xrd_scene_pointer_get_intersection` returns FALSE, and it does so without
reading the inverse of the model matrix, for every pointer and every window
transform (invertible or not); the distance is the sentinel when the ray is
parallel to the plane and when the plane lies behind the origin of the ray. -/
theorem get_intersection_false_on_sentinel (pointer window : XrdSceneObject)
    (h : graphene_ray_get_distance_to_plane (xrd_scene_pointer_get_ray pointer)
      (xrd_scene_window_get_plane window) = none) :
    xrd_scene_pointer_get_intersection pointer window = some { hit := false, res := none } ∧
    (∀ (r : graphene_ray_t) (p : graphene_plane_t),
      graphene_vec3_dot p.normal r.direction = 0 →
        graphene_ray_get_distance_to_plane r p = none) ∧
    (∀ (r : graphene_ray_t) (p : graphene_plane_t),
      -(graphene_vec3_dot r.origin p.normal + p.constant) /
          graphene_vec3_dot p.normal r.direction < 0 →
        graphene_ray_get_distance_to_plane r p = none) := by
  refine ⟨?_, ?_, ?_⟩
  · unfold xrd_scene_pointer_get_intersection
    dsimp only
    rw [h]
  · intro r p hp
    unfold graphene_ray_get_distance_to_plane
    dsimp only
    rw [if_pos hp]
  · intro r p hp
    unfold graphene_ray_get_distance_to_plane
    dsimp only
    split_ifs with h1 h2
    · rfl
    · exact absurd h2 (not_le.mpr hp)
    · rfl

/-- Witness of C14, at the window with the identity as model matrix, the unit
square of the plane `z = 0`.  The pointer at (0.5, 0.5, -1) points along the
negative z axis, away from the window, which lies behind the origin of its
ray; the pointer at (0.5, 0.5, 1) turned by a quarter turn about the x axis
has a ray parallel to the plane of the window.  In both cases the distance is
the sentinel and the intersection test returns FALSE. -/
theorem get_intersection_false_on_sentinel_witness :
    (graphene_vec3_dot (xrd_scene_window_get_plane { model_matrix := 1 }).normal
        (xrd_scene_pointer_get_ray (example_scene_object (1 / 2) (1 / 2) (-1))).direction ≠ 0 ∧
      graphene_ray_get_distance_to_plane
        (xrd_scene_pointer_get_ray (example_scene_object (1 / 2) (1 / 2) (-1)))
        (xrd_scene_window_get_plane { model_matrix := 1 }) = none ∧
      xrd_scene_pointer_get_intersection (example_scene_object (1 / 2) (1 / 2) (-1))
          { model_matrix := 1 } = some { hit := false, res := none }) ∧
    (graphene_vec3_dot (xrd_scene_window_get_plane { model_matrix := 1 }).normal
        (xrd_scene_pointer_get_ray example_scene_pointer_sideways).direction = 0 ∧
      xrd_scene_pointer_get_intersection example_scene_pointer_sideways
          { model_matrix := 1 } = some { hit := false, res := none }) := by
  have hbehind : graphene_ray_get_distance_to_plane
      (xrd_scene_pointer_get_ray (example_scene_object (1 / 2) (1 / 2) (-1)))
      (xrd_scene_window_get_plane { model_matrix := 1 }) = none := by
    simp [graphene_ray_get_distance_to_plane, xrd_scene_pointer_get_ray,
      xrd_scene_window_get_plane, example_scene_object, graphene_matrix_init_translate,
      graphene_matrix_transform_vec4, graphene_vec4_get_xyz, graphene_vec4_subtract,
      graphene_ray_init, graphene_vec3_dot, Matrix.one_apply, Matrix.vecHead, Matrix.vecTail]
    norm_num
  have hne : graphene_vec3_dot (xrd_scene_window_get_plane { model_matrix := 1 }).normal
      (xrd_scene_pointer_get_ray (example_scene_object (1 / 2) (1 / 2) (-1))).direction ≠ 0 := by
    simp [xrd_scene_pointer_get_ray, xrd_scene_window_get_plane, example_scene_object,
      graphene_matrix_init_translate, graphene_matrix_transform_vec4, graphene_vec4_get_xyz,
      graphene_vec4_subtract, graphene_ray_init, graphene_vec3_dot, Matrix.one_apply,
      Matrix.vecHead, Matrix.vecTail]
    norm_num
  have hdot : graphene_vec3_dot (xrd_scene_window_get_plane { model_matrix := 1 }).normal
      (xrd_scene_pointer_get_ray example_scene_pointer_sideways).direction = 0 := by
    simp [xrd_scene_pointer_get_ray, xrd_scene_window_get_plane,
      example_scene_pointer_sideways, graphene_matrix_transform_vec4, graphene_vec4_get_xyz,
      graphene_vec4_subtract, graphene_ray_init, graphene_vec3_dot, Matrix.one_apply,
      Matrix.vecHead, Matrix.vecTail]
  have hparallel : graphene_ray_get_distance_to_plane
      (xrd_scene_pointer_get_ray example_scene_pointer_sideways)
      (xrd_scene_window_get_plane { model_matrix := 1 }) = none := by
    unfold graphene_ray_get_distance_to_plane
    dsimp only
    rw [if_pos hdot]
  exact ⟨⟨hne, hbehind,
      (get_intersection_false_on_sentinel (example_scene_object (1 / 2) (1 / 2) (-1))
        { model_matrix := 1 } hbehind).1⟩,
    ⟨hdot,
      (get_intersection_false_on_sentinel example_scene_pointer_sideways
        { model_matrix := 1 } hparallel).1⟩⟩

/-! ## Grab start -/

theorem find_window_map (l : List XrdWindow) (g : XrdWindow → XrdWindow)
    (hid : ∀ x, (g x).id = x.id) (w : WindowId) :
    (l.map g).find? (fun win => win.id == w) = (l.find? (fun win => win.id == w)).map g := by
  rw [List.find?_map]
  have e : ((fun win : XrdWindow => win.id == w) ∘ g) = (fun win : XrdWindow => win.id == w) := by
    funext x
    simp [hid]
  rw [e]

theorem is_pinned_map (m : XrdWindowManager) (g1 g2 : XrdWindow → XrdWindow)
    (hid1 : ∀ x, (g1 x).id = x.id) (hid2 : ∀ x, (g2 x).id = x.id) (q : XrdWindow → Bool)
    (hq1 : ∀ x, (g1 x).pinned = q x) (hq2 : ∀ x, (g2 x).pinned = q x) (w : WindowId) :
    xrd_window_manager_is_pinned
        { m with windows := m.windows.map g1, buttons := m.buttons.map g2 } w =
      match manager_find_window m w with
      | none => false
      | some x => q x := by
  unfold xrd_window_manager_is_pinned manager_find_window
  simp only [List.find?_append, find_window_map _ g1 hid1, find_window_map _ g2 hid2]
  cases h1 : m.windows.find? (fun win => win.id == w) with
  | some x => simp [hq1]
  | none =>
    cases h2 : m.buttons.find? (fun win => win.id == w) with
    | some x => simp [hq2]
    | none => simp

theorem find_window_id {m : XrdWindowManager} {w : WindowId} {win : XrdWindow}
    (h : manager_find_window m w = some win) : win.id = w := by
  have := List.find?_some h
  simpa using this

/-- C15: while selection mode is on, a grab-start on a window of the window
manager toggles the pinned flag of that window and leaves the pinned flag of
every other window as it is; no drag is started, whether or not the window is
already grabbed: the controllers, and with them all grab states, are
unchanged. -/
theorem grab_start_in_selection_mode_toggles_pin (self : XrdClient) (window : WindowId)
    (event : XrdControllerIndexEvent) (hsel : self.selection_mode = true) :
    (_window_grab_start_cb self window event).controllers = self.controllers ∧
    (∀ win, manager_find_window self.manager window = some win →
      xrd_window_manager_is_pinned (_window_grab_start_cb self window event).manager window =
        !win.pinned) ∧
    (∀ w', w' ≠ window →
      xrd_window_manager_is_pinned (_window_grab_start_cb self window event).manager w' =
        xrd_window_manager_is_pinned self.manager w') := by
  have key : ∀ w', xrd_window_manager_is_pinned
      (_window_grab_start_cb self window event).manager w' =
      match manager_find_window self.manager w' with
      | none => false
      | some x =>
        if x.id = window then !xrd_window_manager_is_pinned self.manager window
        else x.pinned := by
    intro w'
    have h := is_pinned_map self.manager
      (fun win =>
        xrd_window_show
          (if (if win.id = window then
              { win with pinned := !xrd_window_manager_is_pinned self.manager window }
            else win).pinned then
            xrd_window_select (if win.id = window then
              { win with pinned := !xrd_window_manager_is_pinned self.manager window }
            else win)
          else
            xrd_window_deselect (if win.id = window then
              { win with pinned := !xrd_window_manager_is_pinned self.manager window }
            else win)))
      (fun win => if win.id = window then
          { win with pinned := !xrd_window_manager_is_pinned self.manager window }
        else win)
      (by intro x; dsimp only; split_ifs <;> rfl)
      (by intro x; dsimp only; split_ifs <;> rfl)
      (fun x => if x.id = window then !xrd_window_manager_is_pinned self.manager window
        else x.pinned)
      (by intro x; dsimp only; split_ifs <;> rfl)
      (by intro x; dsimp only; split_ifs <;> rfl) w'
    rw [← h]
    unfold _window_grab_start_cb
    rw [if_pos hsel]
    simp only [_mark_windows_for_selection_mode, hsel, if_true, xrd_client_get_manager,
      xrd_window_manager_get_windows, xrd_window_manager_set_pin, manager_update_window,
      update_window, List.map_map]
    rfl
  refine ⟨?_, ?_, ?_⟩
  · unfold _window_grab_start_cb
    rw [if_pos hsel]
    simp only [_mark_windows_for_selection_mode, hsel, if_true]
  · intro win hw
    rw [key window, hw]
    dsimp only
    rw [if_pos (find_window_id hw)]
    unfold xrd_window_manager_is_pinned
    rw [hw]
  · intro w' hne
    rw [key w']
    unfold xrd_window_manager_is_pinned
    cases hw : manager_find_window self.manager w' with
    | none => rfl
    | some x =>
      dsimp only
      rw [if_neg]
      rw [find_window_id hw]
      exact hne

/-- Witness of C15: in selection mode, controller 2 starts a grab on window 7,
which controller 1 already grabs and which is not pinned: window 7 is pinned
afterwards and the controllers are unchanged. -/
theorem grab_start_in_selection_mode_toggles_pin_witness :
    (_window_grab_start_cb
        { example_client_with [example_window 7 1 1 false none none]
            [example_controller 1 (some 7) (some 7) 1 LOCKED_NONE,
             example_controller 2 (some 7) none 1 LOCKED_NONE] with selection_mode := true }
        7 ⟨2⟩).controllers =
      [example_controller 1 (some 7) (some 7) 1 LOCKED_NONE,
       example_controller 2 (some 7) none 1 LOCKED_NONE] ∧
    xrd_window_manager_is_pinned
      (_window_grab_start_cb
        { example_client_with [example_window 7 1 1 false none none]
            [example_controller 1 (some 7) (some 7) 1 LOCKED_NONE,
             example_controller 2 (some 7) none 1 LOCKED_NONE] with selection_mode := true }
        7 ⟨2⟩).manager 7 = true :=
  ⟨(grab_start_in_selection_mode_toggles_pin
      { example_client_with [example_window 7 1 1 false none none]
          [example_controller 1 (some 7) (some 7) 1 LOCKED_NONE,
           example_controller 2 (some 7) none 1 LOCKED_NONE] with selection_mode := true }
      7 ⟨2⟩ rfl).1,
   (grab_start_in_selection_mode_toggles_pin
      { example_client_with [example_window 7 1 1 false none none]
          [example_controller 1 (some 7) (some 7) 1 LOCKED_NONE,
           example_controller 2 (some 7) none 1 LOCKED_NONE] with selection_mode := true }
      7 ⟨2⟩ rfl).2.1 (example_window 7 1 1 false none none) rfl⟩

theorem drag_start_spec (m : XrdWindowManager) (c : XrdController) :
    (xrd_window_manager_drag_start m c).controller_handle = c.controller_handle ∧
      (xrd_window_manager_drag_start m c).hover_state = c.hover_state ∧
      ((xrd_window_manager_drag_start m c).grab_state.window = c.grab_state.window ∨
        (xrd_window_manager_drag_start m c).grab_state.window = c.hover_state.window) := by
  unfold xrd_window_manager_drag_start
  split
  · exact ⟨rfl, rfl, Or.inl rfl⟩
  · rename_i w hw
    split
    · exact ⟨rfl, rfl, Or.inl rfl⟩
    · split_ifs
      · exact ⟨rfl, rfl, Or.inr hw.symm⟩
      · exact ⟨rfl, rfl, Or.inl rfl⟩

theorem not_grabbed_mem {self : XrdClient} {window : WindowId}
    (h : xrd_client_is_grabbed self window = false) :
    ∀ k ∈ self.controllers, k.grab_state.window ≠ some window := by
  intro k hk e
  unfold xrd_client_is_grabbed at h
  rw [List.any_eq_false] at h
  exact h k hk (by simp [e])

/-- C16: a grab is exclusive.  Outside selection mode a grab-start on a window
that some controller already grabs changes nothing; a grab-start changes the
registry entry of no controller but the one of the event; and when the
grab-start comes from the window the controller hovers, as the window manager
emits it, and no window was grabbed by two controllers before, no window is
grabbed by two controllers afterwards. -/
theorem grab_start_is_exclusive (self : XrdClient) (window : WindowId)
    (event : XrdControllerIndexEvent) (hsel : self.selection_mode = false) :
    (xrd_client_is_grabbed self window = true →
      _window_grab_start_cb self window event = self) ∧
    (∀ h, h ≠ event.controller_handle →
      _lookup_controller (_window_grab_start_cb self window event) h =
        _lookup_controller self h) ∧
    (∀ controller, _lookup_controller self event.controller_handle = some controller →
      controller.hover_state.window = some window →
      grab_exclusive self → grab_exclusive (_window_grab_start_cb self window event)) := by
  have hs : ¬ self.selection_mode = true := by simp [hsel]
  refine ⟨?_, ?_, ?_⟩
  · intro hg
    unfold _window_grab_start_cb
    rw [if_neg hs, if_pos hg]
  · intro h hne
    unfold _window_grab_start_cb
    rw [if_neg hs]
    split_ifs
    · rfl
    · split
      · rfl
      · rename_i c hc
        have hh : c.controller_handle = event.controller_handle := lookup_handle hc
        dsimp only
        split_ifs
        · exact lookup_store_ne _
            (by rw [(drag_start_spec self.manager c).1, hh]; exact hne)
        · exact lookup_store_ne _
            (by rw [(drag_start_spec self.manager c).1, hh]; exact hne)
  · intro controller hc hhov hex
    unfold _window_grab_start_cb
    rw [if_neg hs]
    by_cases hg : xrd_client_is_grabbed self window = true
    · rw [if_pos hg]; exact hex
    · rw [if_neg hg, hc]
      have hng := not_grabbed_mem (by simpa using hg : xrd_client_is_grabbed self window = false)
      have hcm := lookup_mem hc
      obtain ⟨d1, _, d3⟩ := drag_start_spec self.manager controller
      have core : grab_exclusive
          (store_controller self (xrd_window_manager_drag_start self.manager controller)) := by
        intro k1 hk1 k2 hk2 w e1 e2
        rcases mem_store hk1 with rfl | m1 <;> rcases mem_store hk2 with rfl | m2
        · rfl
        · rcases d3 with d | d
          · rw [d1]
            exact hex controller hcm k2 m2 w (by rw [← d]; exact e1) e2
          · exfalso
            rw [d, hhov] at e1
            have : w = window := (Option.some.inj e1).symm
            subst this
            exact hng k2 m2 e2
        · rcases d3 with d | d
          · rw [d1]
            exact hex k1 m1 controller hcm w e1 (by rw [← d]; exact e2)
          · exfalso
            rw [d, hhov] at e2
            have : w = window := (Option.some.inj e2).symm
            subst this
            exact hng k1 m1 e1
        · exact hex k1 m1 k2 m2 w e1 e2
      dsimp only
      split_ifs
      · exact core
      · exact core

/-- Witness of C16: controller 1 grabs window 7 and controller 2 hovers it; a
grab-start of controller 2 on window 7 changes nothing.  When nobody grabs
window 7, the grab-start of controller 2 makes controller 2 grab it, and no
window is grabbed twice. -/
theorem grab_start_is_exclusive_witness :
    _window_grab_start_cb
        (example_client_with [example_window 7 1 1 false none none]
          [example_controller 1 (some 7) (some 7) 1 LOCKED_NONE,
           example_controller 2 (some 7) none 1 LOCKED_NONE]) 7 ⟨2⟩ =
      example_client_with [example_window 7 1 1 false none none]
        [example_controller 1 (some 7) (some 7) 1 LOCKED_NONE,
         example_controller 2 (some 7) none 1 LOCKED_NONE] ∧
    (_lookup_controller
        (_window_grab_start_cb
          (example_client_with [example_window 7 1 1 false none none]
            [example_controller 1 (some 7) none 1 LOCKED_NONE,
             example_controller 2 (some 7) none 1 LOCKED_NONE]) 7 ⟨2⟩) 2).map
      (fun c => c.grab_state.window) = some (some 7) ∧
    grab_exclusive
      (_window_grab_start_cb
        (example_client_with [example_window 7 1 1 false none none]
          [example_controller 1 (some 7) none 1 LOCKED_NONE,
           example_controller 2 (some 7) none 1 LOCKED_NONE]) 7 ⟨2⟩) :=
  ⟨(grab_start_is_exclusive
      (example_client_with [example_window 7 1 1 false none none]
        [example_controller 1 (some 7) (some 7) 1 LOCKED_NONE,
         example_controller 2 (some 7) none 1 LOCKED_NONE]) 7 ⟨2⟩ rfl).1 rfl,
   rfl,
   (grab_start_is_exclusive
      (example_client_with [example_window 7 1 1 false none none]
        [example_controller 1 (some 7) none 1 LOCKED_NONE,
         example_controller 2 (some 7) none 1 LOCKED_NONE]) 7 ⟨2⟩ rfl).2.2
      (example_controller 2 (some 7) none 1 LOCKED_NONE) rfl rfl
      (by
        intro c1 h1 c2 h2 w e1 e2
        simp only [example_client_with, example_client, List.mem_cons, List.mem_singleton,
          List.not_mem_nil, or_false] at h1
        rcases h1 with rfl | rfl <;> simp [example_controller] at e1)⟩

/-! ## Push-pull: the formula, and the grab it needs -/

/-- C17: when the controller grabs a window and the axis value `y` of a
push-pull event has `|y|` above the analog threshold, and the new distance
`d + ratio * d * y * (poll_input_rate_ms / 1000)` is in `[0.05, 15.0]`, the
event sets the hover distance to the new distance and the pointer length to
the same value. -/
theorem push_pull_cb_applies_formula (self : XrdClient) (event : OpenVRAnalogEvent)
    (controller : XrdController) (w : WindowId)
    (hc : _lookup_controller self event.controller_handle = some controller)
    (hg : controller.grab_state.window = some w)
    (hy : |event.state.y| > self.analog_threshold)
    (hlo : 5 / 100 ≤ controller.hover_state.distance +
      self.scroll_to_push_ratio * controller.hover_state.distance * event.state.y *
        ((self.poll_input_rate_ms : ℚ) / 1000))
    (hhi : controller.hover_state.distance +
      self.scroll_to_push_ratio * controller.hover_state.distance * event.state.y *
        ((self.poll_input_rate_ms : ℚ) / 1000) ≤ 15) :
    ∃ c', _lookup_controller (_action_push_pull_cb self event) event.controller_handle =
        some c' ∧
      c'.hover_state.distance = controller.hover_state.distance +
        self.scroll_to_push_ratio * controller.hover_state.distance * event.state.y *
          ((self.poll_input_rate_ms : ℚ) / 1000) ∧
      c'.pointer_ray.length = controller.hover_state.distance +
        self.scroll_to_push_ratio * controller.hover_state.distance * event.state.y *
          ((self.poll_input_rate_ms : ℚ) / 1000) := by
  have hh := lookup_handle hc
  have hin : ¬ (controller.hover_state.distance +
      self.scroll_to_push_ratio * controller.hover_state.distance * event.state.y *
        ((self.poll_input_rate_ms : ℚ) / 1000) < WINDOW_MIN_DIST ∨
      controller.hover_state.distance +
      self.scroll_to_push_ratio * controller.hover_state.distance * event.state.y *
        ((self.poll_input_rate_ms : ℚ) / 1000) > WINDOW_MAX_DIST) := by
    simp only [WINDOW_MIN_DIST, WINDOW_MAX_DIST, not_or, not_lt]
    exact ⟨hlo, hhi⟩
  unfold _action_push_pull_cb
  rw [hc]
  dsimp only
  rw [if_pos (And.intro (by rw [hg]; rfl) hy)]
  refine ⟨_, lookup_store hc _ (by rw [perform_push_pull_handle]; exact hh), ?_, ?_⟩
  · unfold _perform_push_pull
    dsimp only
    rw [if_neg hin]
  · unfold _perform_push_pull
    dsimp only
    rw [if_neg hin]
    rfl

/-- Witness of C17: a controller grabbing window 7 at distance 1, with ratio
2 and a poll rate of 20 ms, pushed with y = 1: the hover distance and the
pointer length become 1.04. -/
theorem push_pull_cb_applies_formula_witness :
    ∃ c', _lookup_controller
        (_action_push_pull_cb
          (example_client [example_controller 1 (some 7) (some 7) 1 LOCKED_NONE])
          ⟨1, ⟨0, 1, 0⟩⟩) 1 = some c' ∧
      c'.hover_state.distance = 26 / 25 ∧ c'.pointer_ray.length = 26 / 25 := by
  obtain ⟨c', h1, h2, h3⟩ := push_pull_cb_applies_formula
    (example_client [example_controller 1 (some 7) (some 7) 1 LOCKED_NONE])
    ⟨1, ⟨0, 1, 0⟩⟩ (example_controller 1 (some 7) (some 7) 1 LOCKED_NONE) 7 rfl rfl
    (by norm_num [example_client, abs_of_pos])
    (by norm_num [example_client, example_controller])
    (by norm_num [example_client, example_controller])
  refine ⟨c', h1, ?_, ?_⟩
  · rw [h2]; norm_num [example_client, example_controller]
  · rw [h3]; norm_num [example_client, example_controller]

/-- C18 as stated fails: a controller hovers window 7 at distance 1 and grabs
nothing; the push-pull event with y = 1 is over the threshold 0.5 and the
formula gives 1.04, inside the bounds; after the event the hover distance is
still 1. -/
theorem push_pull_cb_hover_only_counterexample :
    (example_controller 1 (some 7) none 1 LOCKED_NONE).hover_state.window = some 7 ∧
    (example_controller 1 (some 7) none 1 LOCKED_NONE).grab_state.window = none ∧
    |(1 : ℚ)| > (example_client [example_controller 1 (some 7) none 1 LOCKED_NONE]).analog_threshold ∧
    (1 : ℚ) + 2 * 1 * 1 * ((20 : ℚ) / 1000) = 26 / 25 ∧
    ∃ c', _lookup_controller
        (_action_push_pull_cb
          (example_client [example_controller 1 (some 7) none 1 LOCKED_NONE])
          ⟨1, ⟨0, 1, 0⟩⟩) 1 = some c' ∧
      c'.hover_state.distance = 1 ∧ c'.hover_state.distance ≠ 26 / 25 := by
  refine ⟨rfl, rfl, by norm_num [example_client, abs_of_pos], by norm_num, ?_⟩
  rw [push_pull_cb_without_grab
    (example_client [example_controller 1 (some 7) none 1 LOCKED_NONE]) ⟨1, ⟨0, 1, 0⟩⟩
    (example_controller 1 (some 7) none 1 LOCKED_NONE) rfl rfl]
  refine ⟨_, rfl, rfl, ?_⟩
  norm_num [example_controller]

/-- C18 amended: through `_action_push_pull_cb` push-pull is triggered only
while a window is grabbed: for a controller that grabs no window, be it
hovering a window or not, a push-pull analog event changes nothing, whatever
its axis value. -/
theorem push_pull_cb_only_while_grabbed (self : XrdClient) (event : OpenVRAnalogEvent)
    (controller : XrdController)
    (hc : _lookup_controller self event.controller_handle = some controller)
    (hg : controller.grab_state.window = none) :
    _action_push_pull_cb self event = self ∧
      _lookup_controller (_action_push_pull_cb self event) event.controller_handle =
        some controller := by
  have e := push_pull_cb_without_grab self event controller hc hg
  rw [e]
  exact ⟨rfl, hc⟩

/-- Witness of C18 amended: the controller hovering window 7 without a grab
keeps its hover distance 1 under the push-pull event with y = 1. -/
theorem push_pull_cb_only_while_grabbed_witness :
    _lookup_controller
        (_action_push_pull_cb
          (example_client [example_controller 1 (some 7) none 1 LOCKED_NONE])
          ⟨1, ⟨0, 1, 0⟩⟩) 1 =
      some (example_controller 1 (some 7) none 1 LOCKED_NONE) :=
  (push_pull_cb_only_while_grabbed
    (example_client [example_controller 1 (some 7) none 1 LOCKED_NONE]) ⟨1, ⟨0, 1, 0⟩⟩
    (example_controller 1 (some 7) none 1 LOCKED_NONE) rfl rfl).2

/-! ## Orientation reset -/

theorem interpolate_orientation_running (slerp : Slerp) (grab_state : GrabState)
    (transition : OrientationTransition) (h0 : transition.interpolate = 0) :
    ∀ k : Nat, k ≤ 14 →
      ∃ g, interpolate_orientation_run slerp k grab_state transition =
        (g, { transition with interpolate := 7 * (k : ℚ) / 100 }, true) := by
  intro k
  induction k with
  | zero =>
    intro _
    refine ⟨grab_state, ?_⟩
    unfold interpolate_orientation_run
    have e : ({ transition with interpolate := 7 * ((0 : Nat) : ℚ) / 100 } :
        OrientationTransition) = transition := by
      cases transition
      simp only [OrientationTransition.mk.injEq, true_and] at h0 ⊢
      rw [h0]
      norm_num
    rw [e]
  | succ k ih =>
    intro hk
    obtain ⟨g, hg⟩ := ih (Nat.le_of_succ_le hk)
    unfold interpolate_orientation_run
    rw [hg]
    dsimp only
    unfold _interpolate_orientation_cb
    dsimp only
    have hle : ¬ (7 * (k : ℚ) / 100 + 7 / 100 > 1) := by
      have hk' : (k : ℚ) ≤ 13 := by exact_mod_cast Nat.le_of_succ_le_succ hk
      intro h
      linarith
    rw [if_neg hle]
    have e : 7 * (k : ℚ) / 100 + 7 / 100 = 7 * ((k + 1 : Nat) : ℚ) / 100 := by
      push_cast
      ring
    rw [e]
    exact ⟨_, rfl⟩

/-- C19: the orientation-reset animation terminates at the identity.  Started
with the interpolation parameter 0, `_interpolate_orientation_cb` returns true
on each of its first 14 invocations and false on its 15th, and after the 15th
both `window_rotation` and `window_transformed_rotation_neg` of the grab state
are the identity quaternion, whatever the rotations the animation started
from and whatever the values of the interpolation; and a transition created by
`_action_reset_orientation_cb` starts with the parameter 0. -/
theorem orientation_reset_terminates_at_identity (slerp : Slerp) (grab_state : GrabState)
    (transition : OrientationTransition) (h0 : transition.interpolate = 0) :
    (∀ k : Nat, k ≤ 14 →
      (interpolate_orientation_run slerp k grab_state transition).2.2 = true) ∧
    (interpolate_orientation_run slerp 15 grab_state transition).2.2 = false ∧
    (interpolate_orientation_run slerp 15 grab_state transition).1.window_rotation =
      graphene_quaternion_init_identity ∧
    (interpolate_orientation_run slerp 15 grab_state
        transition).1.window_transformed_rotation_neg =
      graphene_quaternion_init_identity ∧
    (∀ (self : XrdClient) (event : OpenVRDigitalEvent) (t : OrientationTransition),
      _action_reset_orientation_cb self event = some t → t.interpolate = 0) := by
  have run := interpolate_orientation_running slerp grab_state transition h0
  have last : ∃ g : GrabState, interpolate_orientation_run slerp 15 grab_state transition =
      ({ g with
          window_rotation := graphene_quaternion_init_identity
          window_transformed_rotation_neg := graphene_quaternion_init_identity },
        { transition with interpolate := 105 / 100 }, false) := by
    obtain ⟨g, hg⟩ := run 14 (le_refl _)
    unfold interpolate_orientation_run
    rw [hg]
    dsimp only
    unfold _interpolate_orientation_cb
    dsimp only
    have hgt : 7 * ((14 : Nat) : ℚ) / 100 + 7 / 100 > 1 := by norm_num
    rw [if_pos hgt]
    have e : 7 * ((14 : Nat) : ℚ) / 100 + 7 / 100 = 105 / 100 := by norm_num
    rw [e]
    exact ⟨g, rfl⟩
  refine ⟨?_, ?_, ?_, ?_, ?_⟩
  · intro k hk
    obtain ⟨g, hg⟩ := run k hk
    rw [hg]
  · obtain ⟨g, hg⟩ := last
    rw [hg]
  · obtain ⟨g, hg⟩ := last
    rw [hg]
  · obtain ⟨g, hg⟩ := last
    rw [hg]
  · intro self event t ht
    unfold _action_reset_orientation_cb at ht
    split_ifs at ht
    split at ht
    · cases ht
    · dsimp only at ht
      split_ifs at ht
      cases ht
      rfl

/-- Witness of C19: an animation from the rotation (1, 0, 0, 0), with the
linear interpolation standing in for the spherical one: the 14th invocation
returns true, the 15th false, and the rotation is the identity then. -/
theorem orientation_reset_terminates_at_identity_witness :
    (interpolate_orientation_run example_slerp 14
        { (example_controller 1 (some 7) (some 7) 1 LOCKED_NONE).grab_state with
          window_rotation := ⟨1, 0, 0, 0⟩ }
        { grab_state := 1, from_rotation := ⟨1, 0, 0, 0⟩
          from_neg := graphene_quaternion_init_identity
          to_rotation := graphene_quaternion_init_identity, interpolate := 0 }).2.2 = true ∧
    (interpolate_orientation_run example_slerp 15
        { (example_controller 1 (some 7) (some 7) 1 LOCKED_NONE).grab_state with
          window_rotation := ⟨1, 0, 0, 0⟩ }
        { grab_state := 1, from_rotation := ⟨1, 0, 0, 0⟩
          from_neg := graphene_quaternion_init_identity
          to_rotation := graphene_quaternion_init_identity, interpolate := 0 }).2.2 = false ∧
    (interpolate_orientation_run example_slerp 15
        { (example_controller 1 (some 7) (some 7) 1 LOCKED_NONE).grab_state with
          window_rotation := ⟨1, 0, 0, 0⟩ }
        { grab_state := 1, from_rotation := ⟨1, 0, 0, 0⟩
          from_neg := graphene_quaternion_init_identity
          to_rotation := graphene_quaternion_init_identity
          interpolate := 0 }).1.window_rotation = ⟨0, 0, 0, 1⟩ :=
  ⟨(orientation_reset_terminates_at_identity example_slerp _ _ rfl).1 14 (le_refl _),
   (orientation_reset_terminates_at_identity example_slerp _ _ rfl).2.1,
   (orientation_reset_terminates_at_identity example_slerp _ _ rfl).2.2.1⟩

theorem reset_orientation_adds_timeout (cl : XrdClient)
    (ts : List OrientationTransition) (h : ControllerHandle)
    (c : XrdController) (hc : _lookup_controller cl h = some c)
    (hw : c.grab_state.window ≠ none) :
    ∃ t : OrientationTransition, t.grab_state = h ∧ t.interpolate = 0 ∧
      dispatch_reset_orientation ⟨cl, ts⟩ ⟨h, true, true⟩ = ⟨cl, ts ++ [t]⟩ := by
  have hh := lookup_handle hc
  unfold dispatch_reset_orientation _action_reset_orientation_cb
  simp only [Bool.and_self, Bool.not_true, Bool.false_eq_true, if_false, hc, hw]
  exact ⟨_, hh, rfl, rfl⟩

theorem orientation_timeout_keeps (slerp : Slerp) (cl : XrdClient)
    (ts : List OrientationTransition) (t : OrientationTransition) (c : XrdController)
    (hc : _lookup_controller cl t.grab_state = some c)
    (hlt : ¬ t.interpolate + 7 / 100 > 1) :
    ∃ (cl' : XrdClient) (t' : OrientationTransition) (c' : XrdController),
      t'.grab_state = t.grab_state ∧ t'.interpolate = t.interpolate + 7 / 100 ∧
      c'.grab_state.window = c.grab_state.window ∧
      _lookup_controller cl' t.grab_state = some c' ∧
      dispatch_orientation_timeout slerp ⟨cl, ts⟩ t = ⟨cl', ts ++ [t']⟩ := by
  have hh := lookup_handle hc
  unfold dispatch_orientation_timeout
  dsimp only
  rw [hc]
  unfold _interpolate_orientation_cb
  dsimp only
  rw [if_neg hlt]
  dsimp only
  exact ⟨store_controller cl
      { c with
        grab_state :=
          { c.grab_state with
            window_rotation := slerp t.from_rotation t.to_rotation t.interpolate
            window_transformed_rotation_neg := slerp t.from_neg t.to_rotation t.interpolate } },
    { t with interpolate := t.interpolate + 7 / 100 },
    { c with
      grab_state :=
        { c.grab_state with
          window_rotation := slerp t.from_rotation t.to_rotation t.interpolate
          window_transformed_rotation_neg := slerp t.from_neg t.to_rotation t.interpolate } },
    rfl, rfl, rfl, lookup_store hc _ hh, rfl⟩

/-- C20 (evaluation at the failing input): the controller of the example main
loop grabs window 7; a reset-orientation press starts a transition; one
timeout period later, with that transition still in flight, a second press
adds a second transition: two transitions, at the parameters 0.07 and 0, are
then in flight for the grab state of the same controller, and after the next
period both are still in flight, each having run once more. -/
theorem reset_orientation_transitions_stack :
    (dispatch_reset_orientation
        (dispatch_orientation_timeouts example_slerp
          (dispatch_reset_orientation example_main_loop ⟨1, true, true⟩))
        ⟨1, true, true⟩).orientation_timeouts.map
      (fun t => (t.grab_state, t.interpolate)) = [(1, 7 / 100), (1, 0)] ∧
    (dispatch_orientation_timeouts example_slerp
        (dispatch_reset_orientation
          (dispatch_orientation_timeouts example_slerp
            (dispatch_reset_orientation example_main_loop ⟨1, true, true⟩))
          ⟨1, true, true⟩)).orientation_timeouts.map
      (fun t => (t.grab_state, t.interpolate)) = [(1, 14 / 100), (1, 7 / 100)] := by
  have e0 : example_main_loop = ⟨example_main_loop.client, []⟩ := rfl
  obtain ⟨t0, a1, a2, a3⟩ := reset_orientation_adds_timeout example_main_loop.client [] 1
    (example_controller 1 (some 7) (some 7) 1 LOCKED_NONE) rfl (by simp [example_controller])
  rw [e0, a3]
  have hc0 : _lookup_controller example_main_loop.client t0.grab_state =
      some (example_controller 1 (some 7) (some 7) 1 LOCKED_NONE) := by rw [a1]; rfl
  obtain ⟨cl1, t0', c1, b1, b2, b3, b4, b5⟩ := orientation_timeout_keeps example_slerp
    example_main_loop.client [] t0 _ hc0 (by rw [a2]; norm_num)
  have e2 : dispatch_orientation_timeouts example_slerp
      ⟨example_main_loop.client, [] ++ [t0]⟩ =
      dispatch_orientation_timeout example_slerp ⟨example_main_loop.client, []⟩ t0 := rfl
  rw [e2, b5]
  rw [a1] at b4
  obtain ⟨t1, d1, d2, d3⟩ := reset_orientation_adds_timeout cl1 ([] ++ [t0']) 1 c1 b4
    (by rw [b3]; simp [example_controller])
  rw [d3]
  constructor
  · simp [a1, a2, b1, b2, d1, d2]
  · have e3 : dispatch_orientation_timeouts example_slerp ⟨cl1, [] ++ [t0'] ++ [t1]⟩ =
        dispatch_orientation_timeout example_slerp
          (dispatch_orientation_timeout example_slerp ⟨cl1, []⟩ t0') t1 := rfl
    rw [e3]
    have hcA : _lookup_controller cl1 t0'.grab_state = some c1 := by
      rw [b1, a1]; exact b4
    obtain ⟨cl2, t0'', c2, f1, f2, f3, f4, f5⟩ := orientation_timeout_keeps example_slerp
      cl1 [] t0' c1 hcA (by rw [b2, a2]; norm_num)
    rw [f5]
    have hcB : _lookup_controller cl2 t1.grab_state = some c2 := by
      rw [d1]; rw [b1, a1] at f4; exact f4
    obtain ⟨cl3, t1', c3, g1, g2, g3, g4, g5⟩ := orientation_timeout_keeps example_slerp
      cl2 ([] ++ [t0'']) t1 c2 hcB (by rw [d2]; norm_num)
    rw [g5]
    simp [a1, a2, b1, b2, d1, d2, f1, f2, g1, g2]
    norm_num

/-! ## Controller lifecycle: hand-off of the input synthesis -/

theorem hand_off_synthing (synth : XrdInputSynth) (h : ControllerHandle) :
    xrd_input_synth_synthing_controller
        (xrd_input_synth_hand_off_to_controller synth h) = h := rfl

theorem deactivate_controllers (self : XrdClient) (event : OpenVRDeviceIndexEvent) :
    (_device_deactivate_cb self event).controllers =
      self.controllers.filter (fun c => c.controller_handle != event.controller_handle) := by
  unfold _device_deactivate_cb
  dsimp only
  split_ifs
  · split <;> rfl
  · rfl

theorem find_of_head (a : XrdController) (t : List XrdController) :
    (a :: t).find? (fun c => c.controller_handle == a.controller_handle) = some a := by
  simp

theorem deactivate_hands_off_lookup (self : XrdClient) (event : OpenVRDeviceIndexEvent)
    (hs : xrd_input_synth_synthing_controller self.input_synth = event.controller_handle)
    (hex : ∃ c ∈ self.controllers, c.controller_handle ≠ event.controller_handle) :
    ∃ c', _lookup_controller (_device_deactivate_cb self event)
        (xrd_input_synth_synthing_controller
          (_device_deactivate_cb self event).input_synth) = some c' ∧
      c' ∈ self.controllers ∧ c'.controller_handle ≠ event.controller_handle := by
  obtain ⟨c, hc, hne⟩ := hex
  have hmem : c ∈ self.controllers.filter
      (fun c => c.controller_handle != event.controller_handle) := by
    rw [List.mem_filter]
    exact ⟨hc, by simpa using hne⟩
  unfold _device_deactivate_cb _lookup_controller
  dsimp only
  cases hf : self.controllers.filter
      (fun c => c.controller_handle != event.controller_handle) with
  | nil => rw [hf] at hmem; simp at hmem
  | cons a t =>
    have ha : a ∈ self.controllers ∧ a.controller_handle ≠ event.controller_handle := by
      have : a ∈ self.controllers.filter
          (fun c => c.controller_handle != event.controller_handle) := by
        rw [hf]; exact List.mem_cons_self a t
      rw [List.mem_filter] at this
      exact ⟨this.1, by simpa using this.2⟩
    rw [if_pos (And.intro hs (by simp))]
    dsimp only
    rw [hand_off_synthing]
    exact ⟨a, find_of_head a t, ha.1, ha.2⟩

/-- C21: when the controller used for input synthesis is deactivated and
another controller is in the registry, the input synthesis is handed off to a
controller that is in the registry after the deactivation (and is therefore
not the deactivated one); when a controller other than the synthing one is
deactivated, the synthing controller, as the whole input synthesizer, is
unchanged. -/
theorem deactivate_hands_off_to_remaining_controller (self : XrdClient)
    (event : OpenVRDeviceIndexEvent) :
    (xrd_input_synth_synthing_controller self.input_synth = event.controller_handle →
      (∃ c ∈ self.controllers, c.controller_handle ≠ event.controller_handle) →
      ∃ c', _lookup_controller (_device_deactivate_cb self event)
          (xrd_input_synth_synthing_controller
            (_device_deactivate_cb self event).input_synth) = some c' ∧
        c' ∈ self.controllers ∧ c'.controller_handle ≠ event.controller_handle) ∧
    (xrd_input_synth_synthing_controller self.input_synth ≠ event.controller_handle →
      (_device_deactivate_cb self event).input_synth = self.input_synth) := by
  constructor
  · intro hs hex
    exact deactivate_hands_off_lookup self event hs hex
  · intro hs
    unfold _device_deactivate_cb
    dsimp only
    rw [if_neg (fun h => hs h.1)]

theorem deactivate_hands_off_to_remaining_controller_witness :
    xrd_input_synth_synthing_controller
        (_device_deactivate_cb
          (example_client [example_controller 1 none none 1 LOCKED_NONE,
            example_controller 2 none none 1 LOCKED_NONE]) ⟨1⟩).input_synth = 2 ∧
      ∃ c', _lookup_controller
          (_device_deactivate_cb
            (example_client [example_controller 1 none none 1 LOCKED_NONE,
              example_controller 2 none none 1 LOCKED_NONE]) ⟨1⟩)
          (xrd_input_synth_synthing_controller
            (_device_deactivate_cb
              (example_client [example_controller 1 none none 1 LOCKED_NONE,
                example_controller 2 none none 1 LOCKED_NONE]) ⟨1⟩).input_synth) = some c' ∧
        c' ∈ (example_client [example_controller 1 none none 1 LOCKED_NONE,
            example_controller 2 none none 1 LOCKED_NONE]).controllers ∧
        c'.controller_handle ≠ 1 :=
  ⟨rfl,
    (deactivate_hands_off_to_remaining_controller
      (example_client [example_controller 1 none none 1 LOCKED_NONE,
        example_controller 2 none none 1 LOCKED_NONE]) ⟨1⟩).1 rfl
      ⟨example_controller 2 none none 1 LOCKED_NONE, by simp [example_client],
        by simp [example_controller]⟩⟩

/-! ## Hover callbacks and the accumulation of the input synthesizer -/

theorem store_controller_input_synth (self : XrdClient) (c : XrdController) :
    (store_controller self c).input_synth = self.input_synth := rfl

theorem window_hover_cb_scroll (self : XrdClient) (window : WindowId) (event : XrdHoverEvent) :
    (_window_hover_cb self window event).input_synth = self.input_synth := by
  unfold _window_hover_cb
  split
  · rfl
  · dsimp only
    split_ifs with h1 h2
    · exact absurd rfl h2
    · rfl
    · rfl

theorem window_hover_cb_hover_window (self : XrdClient) (window : WindowId)
    (event : XrdHoverEvent) (c : XrdController)
    (hc : _lookup_controller self event.controller_handle = some c) :
    ∃ c', _lookup_controller (_window_hover_cb self window event) event.controller_handle =
        some c' ∧ c'.hover_state.window = some window := by
  have hh := lookup_handle hc
  unfold _window_hover_cb
  rw [hc]
  dsimp only
  split_ifs with h1 h2
  · exact absurd rfl h2
  · exact ⟨_, lookup_store hc _ hh, rfl⟩
  · exact ⟨_, lookup_store hc _ hh, rfl⟩

theorem window_hover_start_cb_input_synth (self : XrdClient) (window : WindowId)
    (event : XrdControllerIndexEvent) :
    (_window_hover_start_cb self window event).input_synth = self.input_synth := by
  unfold _window_hover_start_cb
  split <;> rfl

theorem window_hover_end_cb_scroll (self : XrdClient) (window : WindowId)
    (event : XrdControllerIndexEvent) :
    (_window_hover_end_cb self window event).input_synth.scroll_accumulator =
      self.input_synth.scroll_accumulator := by
  unfold _window_hover_end_cb
  split
  · rfl
  · dsimp only
    split_ifs <;> rfl

/-- C22 (evaluation at the failing input): controller 1 is the synthing
controller and hovers window 7, and the input synthesizer holds the scroll
accumulation (0, 0.3, 0).  The pointer moves directly to window 8: hover-end of
window 7, hover-start of window 8 and hover of window 8 are handled.
Afterwards the controller hovers window 8, the press accumulation has been
reset, and the scroll accumulation is still (0, 0.3, 0): the hover callback,
whatever the client, the window and the event, never changes the input
synthesizer. -/
theorem hover_move_keeps_scroll_accumulation :
    (∀ (self : XrdClient) (window : WindowId) (event : XrdHoverEvent),
      (_window_hover_cb self window event).input_synth = self.input_synth) ∧
    (_lookup_controller example_hover_client 1).map (fun c => c.hover_state.window) =
      some (some 7) ∧
    (_lookup_controller
        (_window_hover_cb
          (_window_hover_start_cb (_window_hover_end_cb example_hover_client 7 ⟨1⟩) 8 ⟨1⟩)
          8 ⟨⟨1 / 2, 1 / 2, 0⟩, 1, 2, 1⟩) 1).map (fun c => c.hover_state.window) =
      some (some 8) ∧
    (_window_hover_cb
        (_window_hover_start_cb (_window_hover_end_cb example_hover_client 7 ⟨1⟩) 8 ⟨1⟩)
        8 ⟨⟨1 / 2, 1 / 2, 0⟩, 1, 2, 1⟩).input_synth.button_press_state = 0 ∧
    (_window_hover_cb
        (_window_hover_start_cb (_window_hover_end_cb example_hover_client 7 ⟨1⟩) 8 ⟨1⟩)
        8 ⟨⟨1 / 2, 1 / 2, 0⟩, 1, 2, 1⟩).input_synth.scroll_accumulator = ⟨0, 3 / 10, 0⟩ ∧
    (⟨0, 3 / 10, 0⟩ : graphene_vec3_t) ≠ ⟨0, 0, 0⟩ := by
  refine ⟨window_hover_cb_scroll, rfl, ?_, ?_, ?_, ?_⟩
  · have h0 : _lookup_controller example_hover_client 1 =
        some (example_controller 1 (some 7) none 1 LOCKED_NONE) := rfl
    obtain ⟨c1, h1, _⟩ := window_hover_end_lookup example_hover_client 7 1 _ h0
    have h2 : ∃ c2, _lookup_controller
        (_window_hover_start_cb (_window_hover_end_cb example_hover_client 7 ⟨1⟩) 8 ⟨1⟩) 1 =
          some c2 := by
      unfold _window_hover_start_cb
      dsimp only
      rw [h1]
      have hh1 : c1.controller_handle = 1 := lookup_handle h1
      exact ⟨_, lookup_store h1 _ hh1⟩
    obtain ⟨c2, h2⟩ := h2
    obtain ⟨c3, h3, h4⟩ := window_hover_cb_hover_window
      (_window_hover_start_cb (_window_hover_end_cb example_hover_client 7 ⟨1⟩) 8 ⟨1⟩) 8
      ⟨⟨1 / 2, 1 / 2, 0⟩, 1, 2, 1⟩ c2 h2
    rw [h3]
    simp [h4]
  · rw [window_hover_cb_scroll, window_hover_start_cb_input_synth]
    rfl
  · rw [window_hover_cb_scroll, window_hover_start_cb_input_synth, window_hover_end_cb_scroll]
    rfl
  · intro h
    have := congrArg graphene_vec3_t.y h
    norm_num at this

/-! ## Mode switch with a backend constructor that can fail -/

theorem create_run_stopped (fails : ConstructorFailure) (state : List XrdWindowState)
    (l : List Nat) :
    ∀ (run : SwitchRun) (i : Nat), run.null_window = some i →
      l.foldl (switch_mode_create_run fails state) run = run := by
  induction l with
  | nil => intro run i _; rfl
  | cons a t ih =>
    intro run i h
    rw [List.foldl_cons]
    have e : switch_mode_create_run fails state run a = run := by
      unfold switch_mode_create_run
      rw [h]
    rw [e]
    exact ih run i h

theorem create_run_no_failure (fails : ConstructorFailure) (state : List XrdWindowState)
    (l : List Nat) (hl : ∀ i ∈ l, fails i = false) :
    ∀ (run : SwitchRun), run.null_window = none →
      l.foldl (switch_mode_create_run fails state) run =
        { run with ret := l.foldl (switch_mode_create state) run.ret } := by
  induction l with
  | nil => intro run _; rfl
  | cons a t ih =>
    intro run h
    rw [List.foldl_cons, List.foldl_cons]
    have e : switch_mode_create_run fails state run a =
        { run with ret := switch_mode_create state run.ret a } := by
      unfold switch_mode_create_run
      rw [h]
      dsimp only
      rw [if_neg (by rw [hl a (List.mem_cons_self a t)]; decide)]
    rw [e]
    exact ih (fun i hi => hl i (List.mem_cons_of_mem a hi)) _ h

theorem create_run_first_failure (fails : ConstructorFailure) (state : List XrdWindowState)
    (n i : Nat) (hi : i < n) (hf : fails i = true) (hb : ∀ j, j < i → fails j = false)
    (run : SwitchRun) (h : run.null_window = none) :
    (List.range n).foldl (switch_mode_create_run fails state) run =
      { run with
        ret := (List.range i).foldl (switch_mode_create state) run.ret
        null_window := some i } := by
  have hsplit : List.range n = List.range i ++ i :: List.range' (i + 1) (n - (i + 1)) := by
    rw [List.range_eq_range', List.range_eq_range']
    have e1 : n = (n - (i + 1) + 1) + i := by omega
    have e2 : List.range' 0 ((n - (i + 1) + 1) + i) =
        List.range' 0 i ++ List.range' (0 + i) (n - (i + 1) + 1) :=
      (List.range'_append_1 0 i (n - (i + 1) + 1)).symm
    conv_lhs => rw [e1]
    rw [e2, Nat.zero_add]
    rfl
  rw [hsplit, List.foldl_append, List.foldl_cons]
  rw [create_run_no_failure fails state (List.range i)
    (fun j hj => hb j (List.mem_range.mp hj)) run h]
  have e : switch_mode_create_run fails state
      { run with ret := (List.range i).foldl (switch_mode_create state) run.ret } i =
      { run with
        ret := (List.range i).foldl (switch_mode_create state) run.ret
        null_window := some i } := by
    unfold switch_mode_create_run
    dsimp only
    rw [h]
    dsimp only
    rw [if_pos hf]
  rw [e]
  exact create_run_stopped fails state _ _ i rfl

theorem replace_client_run_eq (self : XrdClient) :
    _replace_client_run self =
      { original_destroyed := true, ret := _replace_client self, null_window := none } := by
  unfold _replace_client_run
  dsimp only
  split_ifs <;> rfl

/-- C23 as stated fails: the example client holds three windows and the
construction of the second one (index 1) fails in the alternate backend.  The
switch is not aborted: the original client has been given up, and the run
reaches the NULL window with one window of three recreated in the new
client. -/
theorem switch_mode_failure_counterexample :
    example_linked_client.manager.windows.length = 3 ∧
    (xrd_client_switch_mode_run (fun i => i == 1) example_linked_client).original_destroyed =
      true ∧
    (xrd_client_switch_mode_run (fun i => i == 1) example_linked_client).null_window =
      some 1 ∧
    (xrd_client_switch_mode_run (fun i => i == 1)
      example_linked_client).ret.manager.windows.length = 1 := by
  refine ⟨rfl, rfl, rfl, rfl⟩

/-- C23 amended: `xrd_client_switch_mode` has no abort path.  Whether or not a
window fails to be reconstructed, the client passed in is given up before the
first window is recreated.  When no window fails, the run ends with the client
`xrd_client_switch_mode` returns, all windows recreated.  When the window of
index `i` is the first to fail, the run reaches the NULL window with exactly
the `i` windows before it recreated in the new client. -/
theorem switch_mode_run_has_no_abort (fails : ConstructorFailure) (self : XrdClient) :
    (xrd_client_switch_mode_run fails self).original_destroyed = true ∧
    ((∀ i, i < self.manager.windows.length → fails i = false) →
      (xrd_client_switch_mode_run fails self).null_window = none ∧
      (xrd_client_switch_mode_run fails self).ret = xrd_client_switch_mode self) ∧
    (∀ i, i < self.manager.windows.length → fails i = true →
      (∀ j, j < i → fails j = false) →
      (xrd_client_switch_mode_run fails self).null_window = some i ∧
      (xrd_client_switch_mode_run fails self).ret.manager.windows.length = i) := by
  have hno : (∀ i, i < self.manager.windows.length → fails i = false) →
      (xrd_client_switch_mode_run fails self).null_window = none ∧
      (xrd_client_switch_mode_run fails self).ret = xrd_client_switch_mode self ∧
      (xrd_client_switch_mode_run fails self).original_destroyed = true := by
    intro h
    unfold xrd_client_switch_mode_run xrd_client_switch_mode
    simp only [xrd_client_get_manager, xrd_window_manager_get_windows]
    rw [create_run_no_failure fails _ _ (fun i hi => h i (List.mem_range.mp hi)) _
      (by rw [replace_client_run_eq]), replace_client_run_eq]
    exact ⟨rfl, rfl, rfl⟩
  have hfail : ∀ i, i < self.manager.windows.length → fails i = true →
      (∀ j, j < i → fails j = false) →
      (xrd_client_switch_mode_run fails self).null_window = some i ∧
      (xrd_client_switch_mode_run fails self).ret.manager.windows.length = i ∧
      (xrd_client_switch_mode_run fails self).original_destroyed = true := by
    intro i hi hf hb
    have hlen : (self.manager.windows.map (window_state self.manager.windows)).length =
        self.manager.windows.length := List.length_map _ _
    obtain ⟨p1, _, _, _⟩ := first_loop_windows
      (self.manager.windows.map (window_state self.manager.windows)) (_replace_client self)
      rfl rfl rfl i (by rw [hlen]; exact Nat.le_of_lt hi)
    unfold xrd_client_switch_mode_run
    simp only [xrd_client_get_manager, xrd_window_manager_get_windows]
    rw [create_run_first_failure fails _ _ i hi hf hb _ (by rw [replace_client_run_eq]),
      replace_client_run_eq]
    dsimp only
    refine ⟨rfl, ?_, rfl⟩
    have hs := save_state_all self.manager
    simp only [xrd_window_manager_get_windows] at hs
    rw [hs, p1, List.length_mapIdx, List.length_take, hlen]
    exact Nat.min_eq_left (Nat.le_of_lt hi)
  refine ⟨?_, fun h => ⟨(hno h).1, (hno h).2.1⟩, fun i hi hf hb =>
    ⟨(hfail i hi hf hb).1, (hfail i hi hf hb).2.1⟩⟩
  by_cases hall : ∀ i, i < self.manager.windows.length → fails i = false
  · exact (hno hall).2.2
  · have hex : ∃ i, i < self.manager.windows.length ∧ fails i = true := by
      by_contra hcon
      apply hall
      intro i hi
      cases hfi : fails i with
      | false => rfl
      | true => exact absurd ⟨i, hi, hfi⟩ hcon
    classical
    have hmin := Nat.find_spec hex
    have hlt : ∀ j, j < Nat.find hex → fails j = false := by
      intro j hj
      have := Nat.find_min hex hj
      cases hfj : fails j with
      | false => rfl
      | true =>
        exact absurd ⟨lt_trans hj hmin.1, hfj⟩ this
    exact (hfail _ hmin.1 hmin.2 hlt).2.2

theorem switch_mode_run_has_no_abort_witness :
    ((xrd_client_switch_mode_run (fun i => i == 2) example_linked_client).null_window =
        some 2 ∧
      (xrd_client_switch_mode_run (fun i => i == 2)
        example_linked_client).ret.manager.windows.length = 2) ∧
    ((xrd_client_switch_mode_run (fun _ => false) example_linked_client).null_window = none ∧
      (xrd_client_switch_mode_run (fun _ => false) example_linked_client).ret =
        xrd_client_switch_mode example_linked_client) :=
  ⟨(switch_mode_run_has_no_abort (fun i => i == 2) example_linked_client).2.2 2
      (by decide) rfl (fun j hj => by
        have : j ≠ 2 := Nat.ne_of_lt hj
        simpa using this),
    (switch_mode_run_has_no_abort (fun _ => false) example_linked_client).2.1
      (fun _ _ => rfl)⟩

/-! ## Adding a window; pinned-only view -/

theorem add_window_windows (self : XrdClient) (window : XrdWindow) (draggable : Bool)
    (hfresh : ∀ x ∈ self.manager.windows, x.id ≠ window.id) :
    (xrd_client_add_window self window draggable).manager.windows =
      self.manager.windows ++
        [{ window with
            flags :=
              { hoverable := true, destroy_with_parent := true, draggable := draggable
                managed := draggable, manager_button := false }
            reset_transform :=
              match window.reset_transform with
              | none => some window.transform
              | some r => some r
            visible := window.visible && !(self.pinned_only && !window.pinned)
            callbacks := WindowCallbacks.window_callbacks }] := by
  have hfind : ∀ (w : XrdWindow) (bs : List XrdWindow), w.id = window.id →
      (self.manager.windows ++ [w] ++ bs).find? (fun win => win.id == window.id) = some w := by
    intro w bs hw
    rw [List.append_assoc, List.find?_append]
    have hnone : self.manager.windows.find? (fun win => win.id == window.id) = none := by
      rw [List.find?_eq_none]
      intro x hx
      simpa using hfresh x hx
    rw [hnone]
    simp [hw]
  unfold xrd_client_add_window
  simp only [xrd_client_get_manager, xrd_window_manager_add_window, Bool.false_eq_true,
    if_false, xrd_window_manager_is_pinned, manager_find_window, Bool.not_false, Bool.and_true]
  rw [hfind _ _ (by rfl)]
  dsimp only
  cases hp : self.pinned_only <;> cases hw : window.pinned <;>
    simp only [Bool.false_and, Bool.true_and, Bool.not_true, Bool.not_false, Bool.false_eq_true,
      if_false, if_true, Bool.and_true, Bool.and_false, xrd_client_add_window_callbacks,
      manager_update_window]
  all_goals repeat rw [update_window_append_last _ _ _ _ (by rfl) hfresh]
  all_goals simp [xrd_window_hide, hw]

theorem mark_windows_leaving (self : XrdClient) (hs : self.selection_mode = false) :
    (_mark_windows_for_selection_mode self).manager.windows =
      self.manager.windows.map (fun win =>
        if self.pinned_only && !win.pinned then
          xrd_window_hide (xrd_window_end_selection win)
        else xrd_window_end_selection win) := by
  unfold _mark_windows_for_selection_mode
  simp only [hs, Bool.false_eq_true, if_false, xrd_client_get_manager,
    xrd_window_manager_get_windows]
  apply List.map_congr_left
  intro win _
  rfl

/-- C24: `xrd_client_add_window` hides a newly added window exactly when
pinned-only is on and the window is not pinned (otherwise the window keeps the
visibility it has); and the press that leaves selection mode hides every
window of the window list that is not pinned exactly when pinned-only is on:
afterwards a window is visible iff it was visible and it is pinned or
pinned-only is off, so no pinned window is hidden and, in pinned-only view,
every window that is not pinned is hidden. -/
theorem pinned_only_hides_unpinned_windows (self : XrdClient) :
    (∀ (window : XrdWindow) (draggable : Bool),
      (∀ x ∈ self.manager.windows, x.id ≠ window.id) →
      ∃ w', (xrd_client_add_window self window draggable).manager.windows =
          self.manager.windows ++ [w'] ∧
        w'.id = window.id ∧ w'.pinned = window.pinned ∧
        w'.visible = (window.visible && !(self.pinned_only && !window.pinned))) ∧
    (self.selection_mode = true →
      ∀ (button : WindowId) (event : XrdControllerIndexEvent),
        (_button_select_pinned_press_cb self button event).selection_mode = false ∧
        (_button_select_pinned_press_cb self button event).pinned_only = self.pinned_only ∧
        (_button_select_pinned_press_cb self button event).manager.windows.length =
          self.manager.windows.length ∧
        ∀ (i : Nat) (win : XrdWindow), self.manager.windows[i]? = some win →
          ∃ win', (_button_select_pinned_press_cb self button event).manager.windows[i]? =
              some win' ∧
            win'.id = win.id ∧ win'.pinned = win.pinned ∧
            win'.visible = (win.visible && !(self.pinned_only && !win.pinned))) := by
  constructor
  · intro window draggable hfresh
    exact ⟨_, add_window_windows self window draggable hfresh, rfl, rfl, rfl⟩
  · intro hs button event
    have hw : (_button_select_pinned_press_cb self button event).manager.windows =
        self.manager.windows.map (fun win =>
          if self.pinned_only && !win.pinned then
            xrd_window_hide (xrd_window_end_selection win)
          else xrd_window_end_selection win) := by
      unfold _button_select_pinned_press_cb
      dsimp only
      rw [mark_windows_leaving _ (by simp [hs])]
    refine ⟨?_, ?_, ?_, ?_⟩
    · unfold _button_select_pinned_press_cb _mark_windows_for_selection_mode
      simp [hs]
    · unfold _button_select_pinned_press_cb _mark_windows_for_selection_mode
      simp [hs]
    · rw [hw, List.length_map]
    · intro i win hi
      rw [hw, List.getElem?_map, hi]
      refine ⟨_, rfl, ?_, ?_, ?_⟩
      · dsimp only
        split_ifs <;> rfl
      · dsimp only
        split_ifs <;> rfl
      · dsimp only
        cases hp : self.pinned_only <;> cases hq : win.pinned <;>
          simp [xrd_window_hide, xrd_window_end_selection, hq]

theorem pinned_only_hides_unpinned_windows_witness :
    (∃ w', (xrd_client_add_window example_linked_client
          (example_window 13 1 1 false none none) true).manager.windows =
          example_linked_client.manager.windows ++ [w'] ∧
        w'.id = 13 ∧ w'.pinned = false ∧ w'.visible = false) ∧
      (_button_select_pinned_press_cb
        { example_linked_client with selection_mode := true } 20 ⟨1⟩).manager.windows.map
          (fun win => win.visible) = [true, false, false] :=
  ⟨(pinned_only_hides_unpinned_windows example_linked_client).1
      (example_window 13 1 1 false none none) true (by decide),
    by
      have h := (pinned_only_hides_unpinned_windows
        { example_linked_client with selection_mode := true }).2 rfl 20 ⟨1⟩
      rfl⟩

theorem update_window_concat (ws : List XrdWindow) (x : XrdWindow) (w : WindowId)
    (f : XrdWindow → XrdWindow) :
    update_window (ws ++ [x]) w f =
      update_window ws w f ++ [if x.id = w then f x else x] := by
  simp [update_window]

/-- C25: `xrd_client_add_window` registers the window, at the end of the
window list, with the flags HOVERABLE and DESTROY_WITH_PARENT set, with
DRAGGABLE and MANAGED set exactly when `draggable` is true, and without the
flag MANAGER_BUTTON; no other window of the list gets other flags. -/
theorem add_window_registers_flags (self : XrdClient) (window : XrdWindow)
    (draggable : Bool) :
    ∃ ws w',
      (xrd_client_add_window self window draggable).manager.windows = ws ++ [w'] ∧
      w'.id = window.id ∧
      w'.flags.hoverable = true ∧ w'.flags.destroy_with_parent = true ∧
      w'.flags.draggable = draggable ∧ w'.flags.managed = draggable ∧
      w'.flags.manager_button = false ∧
      ws.map (fun x => (x.id, x.flags)) =
        self.manager.windows.map (fun x => (x.id, x.flags)) := by
  unfold xrd_client_add_window
  simp only [xrd_client_get_manager, xrd_window_manager_add_window, Bool.false_eq_true,
    if_false, Bool.not_false, Bool.and_true, xrd_client_add_window_callbacks,
    manager_update_window]
  split_ifs with h
  · dsimp only
    rw [update_window_concat, update_window_concat]
    refine ⟨_, _, rfl, ?_, ?_, ?_, ?_, ?_, ?_, ?_⟩
    · simp [xrd_window_hide]
    · simp [xrd_window_hide]
    · simp [xrd_window_hide]
    · simp [xrd_window_hide]
    · simp [xrd_window_hide]
    · simp [xrd_window_hide]
    · simp only [update_window, List.map_map]
      apply List.map_congr_left
      intro x _
      simp only [Function.comp]
      split_ifs <;> rfl
  · dsimp only
    rw [update_window_concat]
    refine ⟨_, _, rfl, ?_, ?_, ?_, ?_, ?_, ?_, ?_⟩
    · simp
    · simp
    · simp
    · simp
    · simp
    · simp
    · simp only [update_window, List.map_map]
      apply List.map_congr_left
      intro x _
      simp only [Function.comp]
      split_ifs <;> rfl

/-! ## No hover: the pointer tip is parked -/

theorem tip_pose_translation (l : ℚ) (q : graphene_quaternion_t) (p : graphene_point3d_t) :
    graphene_matrix_get_translation_point3d
        (graphene_matrix_translate
          (graphene_matrix_rotate_quaternion
            (graphene_matrix_translate graphene_matrix_init_identity ⟨0, 0, -l⟩) q) p) =
      ⟨p.x + (graphene_matrix_transform_vec4 (graphene_quaternion_to_matrix q) ⟨0, 0, -l, 0⟩).x,
       p.y + (graphene_matrix_transform_vec4 (graphene_quaternion_to_matrix q) ⟨0, 0, -l, 0⟩).y,
       p.z + (graphene_matrix_transform_vec4 (graphene_quaternion_to_matrix q) ⟨0, 0, -l, 0⟩).z⟩ := by
  simp only [graphene_matrix_get_translation_point3d, graphene_matrix_translate,
    graphene_matrix_rotate_quaternion, graphene_matrix_init_identity, Matrix.one_mul,
    graphene_matrix_transform_vec4, graphene_point3d_t.mk.injEq]
  simp [Matrix.mul_apply, Fin.sum_univ_four, graphene_matrix_init_translate,
    graphene_quaternion_to_matrix, Matrix.vecHead, Matrix.vecTail]
  refine ⟨?_, ?_, ?_⟩ <;> ring

theorem rotated_length (l : ℚ) (q : graphene_quaternion_t)
    (hq : q.x * q.x + q.y * q.y + q.z * q.z + q.w * q.w = 1) :
    (graphene_matrix_transform_vec4 (graphene_quaternion_to_matrix q) ⟨0, 0, -l, 0⟩).x ^ 2 +
      (graphene_matrix_transform_vec4 (graphene_quaternion_to_matrix q) ⟨0, 0, -l, 0⟩).y ^ 2 +
      (graphene_matrix_transform_vec4 (graphene_quaternion_to_matrix q) ⟨0, 0, -l, 0⟩).z ^ 2 =
      l ^ 2 := by
  simp [graphene_matrix_transform_vec4, graphene_quaternion_to_matrix, Matrix.vecHead,
    Matrix.vecTail]
  have e : (l * (2 * (q.x * q.z + q.w * q.y))) ^ 2 + (l * (2 * (q.y * q.z - q.w * q.x))) ^ 2 +
      (l * (1 - 2 * (q.x * q.x + q.y * q.y))) ^ 2 =
      l ^ 2 * (1 + 4 * (q.x * q.x + q.y * q.y) *
        (q.x * q.x + q.y * q.y + q.z * q.z + q.w * q.w - 1)) := by ring
  rw [e, hq]
  ring

/-- C26: on a no-hover event of a controller of the registry,
`_manager_no_hover_cb` sets the transform of the pointer tip to the
translation by (0, 0, -default_length), followed by the rotation of the
controller, followed by the translation to the position of the controller:
the translation of the tip is the position of the controller plus the
rotation of the controller applied to (0, 0, -default_length).  When the
rotation read from the pose is a unit quaternion, as it is for a rigid pose,
the squared distance from the controller to the tip is the square of the
default length.  The tip is set inactive, and the hover state of the
controller is reset. -/
theorem no_hover_parks_tip_at_default_length (quaternion_init_from_matrix : QuaternionFromMatrix)
    (self : XrdClient) (event : XrdNoHoverEvent) (controller : XrdController)
    (hc : _lookup_controller self event.controller_handle = some controller) :
    ∃ c', _lookup_controller (_manager_no_hover_cb quaternion_init_from_matrix self event)
        event.controller_handle = some c' ∧
      c'.pointer_tip.active = false ∧
      c'.hover_state.window = none ∧
      c'.pointer_tip.transformation =
        graphene_matrix_init_translate ⟨0, 0, -controller.pointer_ray.default_length⟩ *
          graphene_quaternion_to_matrix (quaternion_init_from_matrix event.pose) *
          graphene_matrix_init_translate ⟨event.pose 3 0, event.pose 3 1, event.pose 3 2⟩ ∧
      graphene_matrix_get_translation_point3d c'.pointer_tip.transformation =
        ⟨event.pose 3 0 +
            (graphene_matrix_transform_vec4
              (graphene_quaternion_to_matrix (quaternion_init_from_matrix event.pose))
              ⟨0, 0, -controller.pointer_ray.default_length, 0⟩).x,
          event.pose 3 1 +
            (graphene_matrix_transform_vec4
              (graphene_quaternion_to_matrix (quaternion_init_from_matrix event.pose))
              ⟨0, 0, -controller.pointer_ray.default_length, 0⟩).y,
          event.pose 3 2 +
            (graphene_matrix_transform_vec4
              (graphene_quaternion_to_matrix (quaternion_init_from_matrix event.pose))
              ⟨0, 0, -controller.pointer_ray.default_length, 0⟩).z⟩ ∧
      ((quaternion_init_from_matrix event.pose).x * (quaternion_init_from_matrix event.pose).x +
          (quaternion_init_from_matrix event.pose).y * (quaternion_init_from_matrix event.pose).y +
          (quaternion_init_from_matrix event.pose).z * (quaternion_init_from_matrix event.pose).z +
          (quaternion_init_from_matrix event.pose).w * (quaternion_init_from_matrix event.pose).w =
          1 →
        ((graphene_matrix_get_translation_point3d c'.pointer_tip.transformation).x -
              event.pose 3 0) ^ 2 +
          ((graphene_matrix_get_translation_point3d c'.pointer_tip.transformation).y -
              event.pose 3 1) ^ 2 +
          ((graphene_matrix_get_translation_point3d c'.pointer_tip.transformation).z -
              event.pose 3 2) ^ 2 =
          controller.pointer_ray.default_length ^ 2) := by
  have hh : controller.controller_handle = event.controller_handle := lookup_handle hc
  have htr := tip_pose_translation controller.pointer_ray.default_length
    (quaternion_init_from_matrix event.pose)
    (graphene_matrix_get_translation_point3d event.pose)
  have hlook : ∃ c', _lookup_controller
        (_manager_no_hover_cb quaternion_init_from_matrix self event)
        event.controller_handle = some c' ∧
      c' = xrd_controller_reset_hover_state
        { controller with
          pointer_tip :=
            xrd_pointer_tip_set_active
              (xrd_pointer_tip_set_transformation controller.pointer_tip
                (graphene_matrix_translate
                  (graphene_matrix_rotate_quaternion
                    (graphene_matrix_translate graphene_matrix_init_identity
                      ⟨0, 0, -controller.pointer_ray.default_length⟩)
                    (quaternion_init_from_matrix event.pose))
                  (graphene_matrix_get_translation_point3d event.pose))) false } := by
    unfold _manager_no_hover_cb
    rw [hc]
    dsimp only
    have h1 := lookup_store hc
      { controller with
        pointer_tip :=
          xrd_pointer_tip_set_active
            (xrd_pointer_tip_set_transformation controller.pointer_tip
              (graphene_matrix_translate
                (graphene_matrix_rotate_quaternion
                  (graphene_matrix_translate graphene_matrix_init_identity
                    ⟨0, 0, -xrd_pointer_get_default_length controller.pointer_ray⟩)
                  (quaternion_init_from_matrix event.pose))
                (graphene_matrix_get_translation_point3d event.pose))) false } hh
    split_ifs
    · exact ⟨_, lookup_store (c := _) (by exact h1) _ hh, rfl⟩
    · exact ⟨_, lookup_store h1 _ hh, rfl⟩
  obtain ⟨c', h1, h2⟩ := hlook
  refine ⟨c', h1, ?_, ?_, ?_, ?_, ?_⟩
  · rw [h2]; rfl
  · rw [h2]; rfl
  · rw [h2]
    simp only [xrd_controller_reset_hover_state, xrd_pointer_tip_set_active,
      xrd_pointer_tip_set_transformation, graphene_matrix_translate,
      graphene_matrix_rotate_quaternion, graphene_matrix_init_identity, Matrix.one_mul,
      graphene_matrix_get_translation_point3d]
  · rw [h2]
    exact htr
  · intro hq
    have hl := rotated_length controller.pointer_ray.default_length
      (quaternion_init_from_matrix event.pose) hq
    have e : c'.pointer_tip.transformation =
        graphene_matrix_translate
          (graphene_matrix_rotate_quaternion
            (graphene_matrix_translate graphene_matrix_init_identity
              ⟨0, 0, -controller.pointer_ray.default_length⟩)
            (quaternion_init_from_matrix event.pose))
          (graphene_matrix_get_translation_point3d event.pose) := by
      rw [h2]; rfl
    rw [e, htr]
    simp only [graphene_matrix_get_translation_point3d, add_sub_cancel_left]
    exact hl

theorem no_hover_parks_tip_at_default_length_witness :
    ∃ c', _lookup_controller
        (_manager_no_hover_cb (fun _ => graphene_quaternion_init_identity)
          (example_client [example_controller 1 (some 7) none 1 LOCKED_NONE])
          ⟨graphene_matrix_init_translate ⟨1, 2, 3⟩, 1⟩) 1 = some c' ∧
      c'.pointer_tip.active = false ∧
      c'.hover_state.window = none ∧
      graphene_matrix_get_translation_point3d c'.pointer_tip.transformation = ⟨1, 2, -2⟩ := by
  obtain ⟨c', h1, h2, h3, _, h5, _⟩ := no_hover_parks_tip_at_default_length
    (fun _ => graphene_quaternion_init_identity)
    (example_client [example_controller 1 (some 7) none 1 LOCKED_NONE])
    ⟨graphene_matrix_init_translate ⟨1, 2, 3⟩, 1⟩
    (example_controller 1 (some 7) none 1 LOCKED_NONE) rfl
  refine ⟨c', h1, h2, h3, ?_⟩
  rw [h5]
  simp [graphene_matrix_init_translate, graphene_matrix_transform_vec4,
    graphene_quaternion_to_matrix, graphene_quaternion_init_identity, example_controller,
    Matrix.vecHead, Matrix.vecTail]
  norm_num

/-! ## Matrix decomposition -/

/-- C27: for every point `p`, the translation read from the matrix
`graphene_matrix_init_translate` builds from `p` is `p`, and its scale is
(1, 1, 1); the translation of the identity matrix is (0, 0, 0) and its scale
is (1, 1, 1).  The only fact used of the square root is that the square root
of 1 is 1. -/
theorem translate_matrix_decomposition (sqrtf : Sqrtf) (h1 : sqrtf 1 = 1)
    (p : graphene_point3d_t) :
    graphene_matrix_get_translation (graphene_matrix_init_translate p) = ⟨p.x, p.y, p.z⟩ ∧
    graphene_matrix_get_scale sqrtf (graphene_matrix_init_translate p) = ⟨1, 1, 1⟩ ∧
    graphene_matrix_get_translation graphene_matrix_init_identity = ⟨0, 0, 0⟩ ∧
    graphene_matrix_get_scale sqrtf graphene_matrix_init_identity = ⟨1, 1, 1⟩ := by
  refine ⟨?_, ?_, ?_, ?_⟩
  · simp [graphene_matrix_get_translation, graphene_matrix_init_translate, Matrix.vecHead,
      Matrix.vecTail]
  · simp [graphene_matrix_get_scale, graphene_vec3_length, graphene_vec3_dot,
      graphene_matrix_init_translate, Matrix.vecHead, Matrix.vecTail, h1]
  · simp [graphene_matrix_get_translation, graphene_matrix_init_identity, Matrix.one_apply]
  · simp [graphene_matrix_get_scale, graphene_vec3_length, graphene_vec3_dot,
      graphene_matrix_init_identity, Matrix.one_apply, h1]

theorem translate_matrix_decomposition_witness :
    graphene_matrix_get_translation (graphene_matrix_init_translate ⟨1, 2, 3⟩) = ⟨1, 2, 3⟩ ∧
    graphene_matrix_get_scale (fun q => q) (graphene_matrix_init_translate ⟨1, 2, 3⟩) =
      ⟨1, 1, 1⟩ ∧
    graphene_matrix_get_translation graphene_matrix_init_identity = ⟨0, 0, 0⟩ ∧
    graphene_matrix_get_scale (fun q => q) graphene_matrix_init_identity = ⟨1, 1, 1⟩ :=
  translate_matrix_decomposition (fun q => q) rfl ⟨1, 2, 3⟩

/-! ## Hover end and the pointer tip -/

theorem window_hover_end_cb_tip_active (self : XrdClient) (w : WindowId)
    (h : ControllerHandle) (c : XrdController) (hc : _lookup_controller self h = some c) :
    ∃ c', _lookup_controller (_window_hover_end_cb self w ⟨h⟩) h = some c' ∧
      c'.pointer_tip.active = (c.hover_state.window != none) := by
  have hh := lookup_handle hc
  unfold _window_hover_end_cb
  dsimp only
  rw [hc]
  dsimp only
  split_ifs
  · exact ⟨_, lookup_store hc _ hh, rfl⟩
  · exact ⟨_, lookup_store hc _ hh, rfl⟩

/-- C28 (evaluation at the failing input): controller 1 hovers window 7 and no
other window, and window 7 is removed.  The hover-end that
`xrd_client_remove_window` emits is handled while the hover state still refers
to window 7, so `_window_hover_end_cb` sets the tip active; afterwards the
controller hovers nothing and its pointer tip is active.  The same with the
handler alone: for a controller whose tip is inactive and whose hover state
refers to window 7, the hover-end of window 7 sets the tip active. -/
theorem remove_window_leaves_tip_active :
    (_lookup_controller
        (example_client_with [example_window 7 1 1 false none none]
          [example_controller 1 (some 7) none 1 LOCKED_NONE]) 1).map
      (fun c => c.hover_state.window) = some (some 7) ∧
    (_lookup_controller
        (xrd_client_remove_window
          (example_client_with [example_window 7 1 1 false none none]
            [example_controller 1 (some 7) none 1 LOCKED_NONE]) 7) 1).map
      (fun c => (c.hover_state.window, c.pointer_tip.active)) = some (none, true) ∧
    (_lookup_controller
        (_window_hover_end_cb
          (example_client_with [example_window 7 1 1 false none none]
            [{ example_controller 1 (some 7) none 1 LOCKED_NONE with
                pointer_tip := { transformation := 1, active := false } }]) 7 ⟨1⟩) 1).map
      (fun c => (c.hover_state.window, c.pointer_tip.active)) = some (some 7, true) := by
  refine ⟨rfl, rfl, rfl⟩

/-! ## Invariant of the controller registry -/

theorem lookup_isSome_iff (self : XrdClient) (h : ControllerHandle) :
    (∃ c, _lookup_controller self h = some c) ↔ h ∈ registry_handles self := by
  unfold _lookup_controller registry_handles
  constructor
  · rintro ⟨c, hc⟩
    have h1 := List.mem_of_find?_eq_some hc
    have h2 := List.find?_some hc
    rw [List.mem_map]
    exact ⟨c, h1, by simpa using h2⟩
  · intro hm
    rw [List.mem_map] at hm
    obtain ⟨c, hc, he⟩ := hm
    cases hf : self.controllers.find? (fun c => c.controller_handle == h) with
    | some x => exact ⟨x, rfl⟩
    | none =>
      rw [List.find?_eq_none] at hf
      exact absurd (by simpa using he) (hf c hc)

theorem registry_handles_nil_iff (self : XrdClient) :
    registry_handles self = [] ↔ self.controllers = [] := by
  unfold registry_handles
  exact List.map_eq_nil_iff

theorem registry_invariant_iff (self : XrdClient) :
    registry_invariant self ↔
      ((registry_handles self ≠ [] →
          xrd_input_synth_synthing_controller self.input_synth ∈ registry_handles self) ∧
        (registry_handles self).Nodup) := by
  unfold registry_invariant
  rw [lookup_isSome_iff]
  have e : self.controllers ≠ [] ↔ registry_handles self ≠ [] :=
    not_iff_not.mpr (registry_handles_nil_iff self).symm
  constructor
  · exact fun h => ⟨fun hn => h.1 (e.mpr hn), h.2⟩
  · exact fun h => ⟨fun hn => h.1 (e.mp hn), h.2⟩

theorem activate_handles (self : XrdClient) (event : OpenVRDeviceIndexEvent) :
    registry_handles (_device_activate_cb self event) =
      if event.controller_handle ∈ registry_handles self then registry_handles self
      else registry_handles self ++ [event.controller_handle] := by
  unfold _device_activate_cb registry_handles
  dsimp only
  by_cases hm : event.controller_handle ∈
      self.controllers.map (fun c => c.controller_handle)
  · rw [if_pos hm, if_pos]
    rw [List.mem_map] at hm
    obtain ⟨c, hc, he⟩ := hm
    rw [List.any_eq_true]
    exact ⟨c, hc, by simpa using he⟩
  · rw [if_neg hm, if_neg]
    · simp only [xrd_client_init_controller]
      split_ifs <;> simp [xrd_controller_new]
    · intro ha
      rw [List.any_eq_true] at ha
      obtain ⟨c, hc, he⟩ := ha
      apply hm
      rw [List.mem_map]
      exact ⟨c, hc, by simpa using he⟩

theorem activate_synthing (self : XrdClient) (event : OpenVRDeviceIndexEvent) :
    xrd_input_synth_synthing_controller (_device_activate_cb self event).input_synth =
      if registry_handles self = [] then event.controller_handle
      else xrd_input_synth_synthing_controller self.input_synth := by
  unfold _device_activate_cb
  dsimp only
  by_cases hn : self.controllers = []
  · rw [if_pos ((registry_handles_nil_iff self).mpr hn)]
    simp [hn, xrd_client_init_controller, hand_off_synthing]
  · rw [if_neg (fun h => hn ((registry_handles_nil_iff self).mp h))]
    split_ifs with h1 h2
    · rfl
    · exfalso
      simp [xrd_client_init_controller] at h2
      exact hn h2
    · rfl

theorem deactivate_handles (self : XrdClient) (event : OpenVRDeviceIndexEvent) :
    registry_handles (_device_deactivate_cb self event) =
      (registry_handles self).filter (fun h => h != event.controller_handle) := by
  unfold registry_handles
  rw [deactivate_controllers, List.filter_map]
  rfl

theorem deactivate_synthing (self : XrdClient) (event : OpenVRDeviceIndexEvent) :
    (xrd_input_synth_synthing_controller self.input_synth = event.controller_handle →
      registry_handles (_device_deactivate_cb self event) ≠ [] →
      xrd_input_synth_synthing_controller (_device_deactivate_cb self event).input_synth ∈
        registry_handles (_device_deactivate_cb self event)) ∧
    (xrd_input_synth_synthing_controller self.input_synth ≠ event.controller_handle →
      xrd_input_synth_synthing_controller (_device_deactivate_cb self event).input_synth =
        xrd_input_synth_synthing_controller self.input_synth) := by
  constructor
  · intro hs hne
    rw [deactivate_handles] at hne
    have hex : ∃ c ∈ self.controllers, c.controller_handle ≠ event.controller_handle := by
      cases hf : (registry_handles self).filter (fun h => h != event.controller_handle) with
      | nil => exact absurd hf hne
      | cons a t =>
        have ha : a ∈ (registry_handles self).filter
            (fun h => h != event.controller_handle) := by
          rw [hf]; exact List.mem_cons_self a t
        rw [List.mem_filter] at ha
        obtain ⟨ha1, ha2⟩ := ha
        unfold registry_handles at ha1
        rw [List.mem_map] at ha1
        obtain ⟨c, hc, he⟩ := ha1
        exact ⟨c, hc, by rw [he]; simpa using ha2⟩
    obtain ⟨c', hc', _, _⟩ :=
      (deactivate_hands_off_lookup self event hs hex)
    exact (lookup_isSome_iff _ _).mp ⟨c', hc'⟩
  · intro hs
    unfold _device_deactivate_cb
    dsimp only
    rw [if_neg (fun h => hs h.1)]

theorem registry_invariant_congr (a b : XrdClient)
    (hh : registry_handles a = registry_handles b)
    (hs : xrd_input_synth_synthing_controller a.input_synth =
      xrd_input_synth_synthing_controller b.input_synth)
    (hb : registry_invariant b) : registry_invariant a := by
  rw [registry_invariant_iff] at hb ⊢
  rw [hh, hs]
  exact hb

theorem activate_preserves_invariant (self : XrdClient) (event : OpenVRDeviceIndexEvent)
    (hi : registry_invariant self) : registry_invariant (_device_activate_cb self event) := by
  rw [registry_invariant_iff] at hi ⊢
  rw [activate_handles, activate_synthing]
  obtain ⟨h1, h2⟩ := hi
  by_cases hm : event.controller_handle ∈ registry_handles self
  · have hne : registry_handles self ≠ [] := List.ne_nil_of_mem hm
    rw [if_pos hm, if_neg hne]
    exact ⟨h1, h2⟩
  · rw [if_neg hm]
    constructor
    · intro _
      by_cases hn : registry_handles self = []
      · rw [if_pos hn]
        exact List.mem_append_right _ (List.mem_singleton_self _)
      · rw [if_neg hn]
        exact List.mem_append_left _ (h1 hn)
    · rw [List.nodup_append]
      refine ⟨h2, List.nodup_singleton _, ?_⟩
      intro x hx hx'
      rw [List.mem_singleton] at hx'
      rw [hx'] at hx
      exact hm hx

theorem deactivate_preserves_invariant (self : XrdClient) (event : OpenVRDeviceIndexEvent)
    (hi : registry_invariant self) : registry_invariant (_device_deactivate_cb self event) := by
  rw [registry_invariant_iff] at hi ⊢
  obtain ⟨h1, h2⟩ := hi
  obtain ⟨d1, d2⟩ := deactivate_synthing self event
  constructor
  · intro hne
    by_cases hs : xrd_input_synth_synthing_controller self.input_synth =
        event.controller_handle
    · exact d1 hs hne
    · rw [d2 hs, deactivate_handles, List.mem_filter]
      refine ⟨h1 ?_, by simpa using hs⟩
      intro hnil
      apply hne
      rw [deactivate_handles, hnil]
      rfl
  · rw [deactivate_handles]
    exact h2.filter _

theorem store_controller_registry (self : XrdClient) (c : XrdController) :
    registry_handles (store_controller self c) = registry_handles self :=
  store_handles self c

theorem hand_pose_registry (update_pose : UpdatePose) (hu : keeps_registry update_pose)
    (self : XrdClient) (event : OpenVRPoseEvent) :
    (registry_handles (_action_hand_pose_cb update_pose self event) = registry_handles self ∧
      xrd_input_synth_synthing_controller
          (_action_hand_pose_cb update_pose self event).input_synth =
        xrd_input_synth_synthing_controller self.input_synth) ∨
    (registry_handles (_action_hand_pose_cb update_pose self event) =
        registry_handles (_activate_controller self event.controller_handle) ∧
      xrd_input_synth_synthing_controller
          (_action_hand_pose_cb update_pose self event).input_synth =
        xrd_input_synth_synthing_controller
          (_activate_controller self event.controller_handle).input_synth) := by
  have tail : ∀ s : XrdClient,
      registry_handles
          (match _lookup_controller s event.controller_handle with
          | none => s
          | some controller =>
            match _lookup_controller (update_pose s event.pose controller.controller_handle)
                event.controller_handle with
            | none => update_pose s event.pose controller.controller_handle
            | some controller1 =>
              if controller1.controller_handle =
                    xrd_input_synth_synthing_controller
                      (store_controller (update_pose s event.pose controller.controller_handle)
                        { controller1 with
                          pointer_ray :=
                            xrd_pointer_move controller1.pointer_ray event.pose }).input_synth ∧
                  (controller1.hover_state.window != none &&
                    !(store_controller (update_pose s event.pose controller.controller_handle)
                        { controller1 with
                          pointer_ray :=
                            xrd_pointer_move controller1.pointer_ray
                              event.pose }).manager.buttons.any
                      (fun button => some button.id == controller1.hover_state.window)) = true ∧
                  controller1.grab_state.window = none then
                { store_controller (update_pose s event.pose controller.controller_handle)
                    { controller1 with
                      pointer_ray := xrd_pointer_move controller1.pointer_ray event.pose } with
                  cursor :=
                    xrd_desktop_cursor_show
                      (store_controller (update_pose s event.pose controller.controller_handle)
                        { controller1 with
                          pointer_ray :=
                            xrd_pointer_move controller1.pointer_ray event.pose }).cursor }
              else
                store_controller (update_pose s event.pose controller.controller_handle)
                  { controller1 with
                    pointer_ray := xrd_pointer_move controller1.pointer_ray event.pose }) =
        registry_handles s ∧
      xrd_input_synth_synthing_controller
          (match _lookup_controller s event.controller_handle with
          | none => s
          | some controller =>
            match _lookup_controller (update_pose s event.pose controller.controller_handle)
                event.controller_handle with
            | none => update_pose s event.pose controller.controller_handle
            | some controller1 =>
              if controller1.controller_handle =
                    xrd_input_synth_synthing_controller
                      (store_controller (update_pose s event.pose controller.controller_handle)
                        { controller1 with
                          pointer_ray :=
                            xrd_pointer_move controller1.pointer_ray event.pose }).input_synth ∧
                  (controller1.hover_state.window != none &&
                    !(store_controller (update_pose s event.pose controller.controller_handle)
                        { controller1 with
                          pointer_ray :=
                            xrd_pointer_move controller1.pointer_ray
                              event.pose }).manager.buttons.any
                      (fun button => some button.id == controller1.hover_state.window)) = true ∧
                  controller1.grab_state.window = none then
                { store_controller (update_pose s event.pose controller.controller_handle)
                    { controller1 with
                      pointer_ray := xrd_pointer_move controller1.pointer_ray event.pose } with
                  cursor :=
                    xrd_desktop_cursor_show
                      (store_controller (update_pose s event.pose controller.controller_handle)
                        { controller1 with
                          pointer_ray :=
                            xrd_pointer_move controller1.pointer_ray event.pose }).cursor }
              else
                store_controller (update_pose s event.pose controller.controller_handle)
                  { controller1 with
                    pointer_ray := xrd_pointer_move controller1.pointer_ray event.pose }).input_synth =
        xrd_input_synth_synthing_controller s.input_synth := by
    intro s
    split
    · exact ⟨rfl, rfl⟩
    · rename_i controller _
      obtain ⟨u1, u2⟩ := hu s event.pose controller.controller_handle
      split
      · exact ⟨u1, u2⟩
      · rename_i controller1 _
        split_ifs
        · exact ⟨(store_controller_registry _ _).trans u1, u2⟩
        · exact ⟨(store_controller_registry _ _).trans u1, u2⟩
  unfold _action_hand_pose_cb
  split_ifs with hg
  · exact Or.inl ⟨rfl, rfl⟩
  · dsimp only
    cases hl : _lookup_controller self event.controller_handle with
    | none =>
      right
      exact tail (_activate_controller self event.controller_handle)
    | some c =>
      left
      have := tail self
      rw [hl] at this
      dsimp only
      rw [hl]
      exact this

theorem window_hover_cb_handles (self : XrdClient) (window : WindowId)
    (event : XrdHoverEvent) :
    registry_handles (_window_hover_cb self window event) = registry_handles self := by
  unfold _window_hover_cb
  split
  · rfl
  · dsimp only
    split_ifs with h1 h2
    · exact absurd rfl h2
    · exact store_controller_registry _ _
    · exact store_controller_registry _ _

theorem window_hover_start_cb_handles (self : XrdClient) (window : WindowId)
    (event : XrdControllerIndexEvent) :
    registry_handles (_window_hover_start_cb self window event) = registry_handles self := by
  unfold _window_hover_start_cb
  split
  · rfl
  · exact store_controller_registry _ _

theorem example_update_pose_keeps_registry : keeps_registry example_update_pose := by
  intro self pose h
  unfold example_update_pose
  constructor
  · rw [window_hover_cb_handles, window_hover_start_cb_handles]
  · rw [window_hover_cb_scroll, window_hover_start_cb_input_synth]

theorem activate_active_handle (self : XrdClient) (event : OpenVRDeviceIndexEvent)
    (hm : event.controller_handle ∈ registry_handles self) :
    _device_activate_cb self event = self := by
  unfold _device_activate_cb
  dsimp only
  rw [if_pos]
  unfold registry_handles at hm
  rw [List.mem_map] at hm
  obtain ⟨c, hc, he⟩ := hm
  rw [List.any_eq_true]
  exact ⟨c, hc, by simpa using he⟩

theorem dispatch_preserves_invariant (update_pose : UpdatePose)
    (hu : keeps_registry update_pose) (self : XrdClient) (e : DeviceEvent)
    (hi : registry_invariant self) : registry_invariant (dispatch_device update_pose self e) := by
  cases e with
  | device_activate event => exact activate_preserves_invariant self event hi
  | device_deactivate event => exact deactivate_preserves_invariant self event hi
  | hand_pose event =>
    rcases hand_pose_registry update_pose hu self event with ⟨h1, h2⟩ | ⟨h1, h2⟩
    · exact registry_invariant_congr _ _ h1 h2 hi
    · exact registry_invariant_congr _ _ h1 h2
        (activate_preserves_invariant self ⟨event.controller_handle⟩ hi)

/-- C29: starting from a client with an empty registry, after every sequence
of device-activate events, device-deactivate events and hand-pose events (a
pose event of a controller that is not in the registry activates it), the
invariant of the registry holds: when the registry is not empty, the
controller used for input synthesis is in it, and no handle occurs twice in
it; the activation of a handle that is already in the registry changes
nothing.  The pose processing of the window manager, which is not among the
sources, is assumed to add or remove no controller and to hand off no input
synthesis. -/
theorem registry_invariant_reachable (update_pose : UpdatePose)
    (hu : keeps_registry update_pose) (self : XrdClient) (h0 : self.controllers = [])
    (events : List DeviceEvent) :
    registry_invariant (run_device update_pose self events) ∧
    ∀ event : OpenVRDeviceIndexEvent,
      event.controller_handle ∈ registry_handles (run_device update_pose self events) →
      _device_activate_cb (run_device update_pose self events) event =
        run_device update_pose self events := by
  constructor
  · unfold run_device
    apply foldl_invariant (dispatch_device update_pose) registry_invariant
      (fun a b ha => dispatch_preserves_invariant update_pose hu a b ha)
    unfold registry_invariant registry_handles
    rw [h0]
    exact ⟨fun h => absurd rfl h, List.nodup_nil⟩
  · intro event hm
    exact activate_active_handle _ event hm

theorem registry_invariant_reachable_witness :
    registry_invariant
        (run_device example_update_pose (example_client [])
          [DeviceEvent.device_activate ⟨1⟩,
           DeviceEvent.hand_pose ⟨2, true, 1, true, true⟩,
           DeviceEvent.device_activate ⟨2⟩,
           DeviceEvent.device_deactivate ⟨1⟩]) ∧
      registry_handles
        (run_device example_update_pose (example_client [])
          [DeviceEvent.device_activate ⟨1⟩,
           DeviceEvent.hand_pose ⟨2, true, 1, true, true⟩,
           DeviceEvent.device_activate ⟨2⟩,
           DeviceEvent.device_deactivate ⟨1⟩]) = [2] ∧
      xrd_input_synth_synthing_controller
        (run_device example_update_pose (example_client [])
          [DeviceEvent.device_activate ⟨1⟩,
           DeviceEvent.hand_pose ⟨2, true, 1, true, true⟩,
           DeviceEvent.device_activate ⟨2⟩,
           DeviceEvent.device_deactivate ⟨1⟩]).input_synth = 2 :=
  ⟨(registry_invariant_reachable example_update_pose example_update_pose_keeps_registry
      (example_client []) rfl _).1, rfl, rfl⟩

/-! ## Push-pull-scale: at most one action per event -/

theorem push_pull_scale_cb_at_most_one_call (self : XrdClient) (event : OpenVRAnalogEvent) :
    (_action_push_pull_scale_cb self event).gesture_calls = self.gesture_calls ∨
    (∃ factor, (_action_push_pull_scale_cb self event).gesture_calls =
      GestureCall.scale event.controller_handle factor :: self.gesture_calls) ∨
    (∃ strength, (_action_push_pull_scale_cb self event).gesture_calls =
      GestureCall.push_pull event.controller_handle strength :: self.gesture_calls) := by
  unfold _action_push_pull_scale_cb
  split
  · exact Or.inl rfl
  · dsimp only
    split_ifs
    all_goals first
      | exact Or.inl rfl
      | exact Or.inr (Or.inl ⟨_, rfl⟩)
      | exact Or.inr (Or.inr ⟨_, rfl⟩)

/-- C30: a push-pull-scale event of a controller of the registry whose lock
is undecided, with the two axes tied (|x| = |y|, however far above the
threshold) or with the larger axis exactly at the threshold, leaves the lock
undecided and performs neither a scale nor a push-pull: no gesture call is
made, and the hover state, the pointer ray and the window manager are
unchanged.  And every push-pull-scale event makes at most one gesture call:
none, one scale, or one push-pull. -/
theorem push_pull_scale_applies_at_most_one_action (self : XrdClient)
    (event : OpenVRAnalogEvent) (controller : XrdController)
    (hc : _lookup_controller self event.controller_handle = some controller)
    (hl : controller.grab_state.push_pull_scale_lock = LOCKED_NONE)
    (ht : |event.state.x| = |event.state.y| ∨
      max |event.state.x| |event.state.y| = self.analog_threshold) :
    (∃ c', _lookup_controller (_action_push_pull_scale_cb self event)
        event.controller_handle = some c' ∧
      c'.grab_state.push_pull_scale_lock = LOCKED_NONE ∧
      c'.hover_state = controller.hover_state ∧
      c'.pointer_ray = controller.pointer_ray) ∧
    (_action_push_pull_scale_cb self event).gesture_calls = self.gesture_calls ∧
    (_action_push_pull_scale_cb self event).manager = self.manager ∧
    ∀ (other : XrdClient) (e : OpenVRAnalogEvent),
      (_action_push_pull_scale_cb other e).gesture_calls = other.gesture_calls ∨
      (∃ factor, (_action_push_pull_scale_cb other e).gesture_calls =
        GestureCall.scale e.controller_handle factor :: other.gesture_calls) ∨
      (∃ strength, (_action_push_pull_scale_cb other e).gesture_calls =
        GestureCall.push_pull e.controller_handle strength :: other.gesture_calls) := by
  have hh := lookup_handle hc
  have hx : ¬ (|event.state.x| > |event.state.y| ∧ |event.state.x| > self.analog_threshold) := by
    rintro ⟨h1, h2⟩
    rcases ht with ht | ht
    · rw [ht] at h1; exact lt_irrefl _ h1
    · have := le_max_left |event.state.x| |event.state.y|
      rw [ht] at this
      exact absurd h2 (not_lt.mpr this)
  have hy : ¬ (|event.state.y| > |event.state.x| ∧ |event.state.y| > self.analog_threshold) := by
    rintro ⟨h1, h2⟩
    rcases ht with ht | ht
    · rw [ht] at h1; exact lt_irrefl _ h1
    · have := le_max_right |event.state.x| |event.state.y|
      rw [ht] at this
      exact absurd h2 (not_lt.mpr this)
  refine ⟨?_, ?_, ?_, push_pull_scale_cb_at_most_one_call⟩
  all_goals
    unfold _action_push_pull_scale_cb
    rw [hc]
    dsimp only
    rw [hl]
    by_cases hb : |event.state.x| < self.analog_threshold ∧
        |event.state.y| < self.analog_threshold
    · rw [if_pos hb]
      first
        | exact ⟨_, lookup_store hc _ hh, rfl, rfl, rfl⟩
        | rfl
    · rw [if_neg hb, if_pos rfl, if_neg hx, if_neg hy,
        if_neg (show ¬ LOCKED_NONE = LOCKED_SCALE by decide),
        if_neg (show ¬ LOCKED_NONE = LOCKED_PUSHPULL by decide)]
      first
        | exact ⟨_, lookup_store hc _ hh, rfl, rfl, rfl⟩
        | rfl

theorem push_pull_scale_applies_at_most_one_action_witness :
    ((_action_push_pull_scale_cb
          (example_client [example_controller 1 (some 7) (some 7) 1 LOCKED_NONE])
          ⟨1, ⟨9 / 10, -9 / 10, 0⟩⟩).gesture_calls = [] ∧
      (_action_push_pull_scale_cb
          (example_client [example_controller 1 (some 7) (some 7) 1 LOCKED_NONE])
          ⟨1, ⟨9 / 10, -9 / 10, 0⟩⟩).manager =
        (example_client [example_controller 1 (some 7) (some 7) 1 LOCKED_NONE]).manager) ∧
    ((_action_push_pull_scale_cb
          (example_client [example_controller 1 (some 7) (some 7) 1 LOCKED_NONE])
          ⟨1, ⟨1 / 4, 1 / 2, 0⟩⟩).gesture_calls = [] ∧
      (_action_push_pull_scale_cb
          (example_client [example_controller 1 (some 7) (some 7) 1 LOCKED_NONE])
          ⟨1, ⟨1 / 4, 1 / 2, 0⟩⟩).manager =
        (example_client [example_controller 1 (some 7) (some 7) 1 LOCKED_NONE]).manager) :=
  ⟨⟨(push_pull_scale_applies_at_most_one_action
        (example_client [example_controller 1 (some 7) (some 7) 1 LOCKED_NONE])
        ⟨1, ⟨9 / 10, -9 / 10, 0⟩⟩ (example_controller 1 (some 7) (some 7) 1 LOCKED_NONE)
        rfl rfl (Or.inl (by norm_num [abs_of_pos, abs_of_neg]))).2.1,
      (push_pull_scale_applies_at_most_one_action
        (example_client [example_controller 1 (some 7) (some 7) 1 LOCKED_NONE])
        ⟨1, ⟨9 / 10, -9 / 10, 0⟩⟩ (example_controller 1 (some 7) (some 7) 1 LOCKED_NONE)
        rfl rfl (Or.inl (by norm_num [abs_of_pos, abs_of_neg]))).2.2.1⟩,
    ⟨(push_pull_scale_applies_at_most_one_action
        (example_client [example_controller 1 (some 7) (some 7) 1 LOCKED_NONE])
        ⟨1, ⟨1 / 4, 1 / 2, 0⟩⟩ (example_controller 1 (some 7) (some 7) 1 LOCKED_NONE)
        rfl rfl (Or.inr (by norm_num [example_client, abs_of_pos]))).2.1,
      (push_pull_scale_applies_at_most_one_action
        (example_client [example_controller 1 (some 7) (some 7) 1 LOCKED_NONE])
        ⟨1, ⟨1 / 4, 1 / 2, 0⟩⟩ (example_controller 1 (some 7) (some 7) 1 LOCKED_NONE)
        rfl rfl (Or.inr (by norm_num [example_client, abs_of_pos]))).2.2.1⟩⟩

end Xrdesktop
